import Mathlib

/-!
Verification of the image/texture-operation engine of a software GPU shader
runtime (SpirvShaderImage.cpp).  The shader code manipulates 32-bit SIMD lane
values; we embed one lane at a time.  A lane register is modelled by its 32-bit
pattern (a `Nat` below `2^32`).  Floating-point lane values are idealized as
exact rationals (`ℚ`) where the code performs numeric float arithmetic, and as
raw 32-bit patterns where the code only moves or reinterprets bits.
-/

namespace SwImg

/-- Interpret a 32-bit pattern as a signed two's-complement integer
(the value of a `SIMD::Int` lane). -/
def toInt32 (w : Nat) : Int :=
  if w < 2147483648 then (w : Int) else (w : Int) - 4294967296

/-- Bit pattern of a signed integer, reduced into 32 bits. -/
def ofInt32 (z : Int) : Nat := (z % 4294967296).toNat

/-- 32-bit wrapping addition (`SIMD::Int` / `SIMD::UInt` `+`). -/
def add32 (a b : Nat) : Nat := (a + b) % 4294967296

/-- 32-bit wrapping multiplication (`SIMD::Int` / `SIMD::UInt` `*`). -/
def mul32 (a b : Nat) : Nat := (a * b) % 4294967296

/-- 32-bit left shift (`<<`), discarding bits shifted past bit 31. -/
def shl32 (a k : Nat) : Nat := (a <<< k) % 4294967296

/-- Logical right shift (`>>` on `SIMD::UInt`). -/
def shr32 (a k : Nat) : Nat := a >>> k

/-- Arithmetic right shift (`>>` on `SIMD::Int`): the vacated high bits are
copies of bit 31. -/
def sar32 (a k : Nat) : Nat :=
  if a < 2147483648 then a >>> k else (a >>> k) + (4294967296 - 4294967296 >>> k)

/-- 32-bit complement (`~` on a value below `2^32`). -/
def not32 (a : Nat) : Nat := 4294967295 - a

/-- `CmpNLT` on unsigned lanes: all-ones when `a ≥ b`, all-zeros otherwise. -/
def cmpNLT32u (a b : Nat) : Nat := if a < b then 0 else 4294967295

/-- `SIMD::Float(x)` conversion of a signed integer lane, idealized in `ℚ`. -/
def intToFloatQ (w : Nat) : ℚ := (toInt32 w : ℚ)

/-- `SIMD::Float(x)` conversion of an unsigned integer lane, idealized in `ℚ`. -/
def uintToFloatQ (w : Nat) : ℚ := (w : ℚ)

/-- One channel of a four-component lane vector.  `f` is a `SIMD::Float` lane
carrying an (idealized, exact) numeric value, `i` a `SIMD::Int`/`SIMD::UInt`
lane carrying a signed value, `raw` a lane identified only by its 32-bit
pattern (float data that the code moves without numeric interpretation). -/
inductive Chan where
  | f (q : ℚ)
  | i (z : Int)
  | raw (w : Nat)
deriving DecidableEq

/-- An unsigned integer channel (a `SIMD::UInt` lane value). -/
def Chan.u (w : Nat) : Chan := .i (w : Int)

/-- `Operand::Float(i)` view of a channel. -/
def Chan.floatQ : Chan → ℚ
  | .f q => q
  | _ => 0

/-- `Operand::Int(i)` / `Operand::UInt(i)` view of a channel: its 32-bit
pattern. -/
def Chan.intW : Chan → Nat
  | .f _ => 0
  | .i z => ofInt32 z
  | .raw w => w

end SwImg

namespace SwImg

/-- Round to nearest with ties to even, on the low `k` bits of `x`. -/
def rne (x k : Nat) : Nat :=
  let q := x / 2 ^ k
  let r := x % 2 ^ k
  if 2 * r < 2 ^ k then q
  else if 2 ^ k < 2 * r then q + 1
  else if q % 2 = 0 then q else q + 1

/-- Modelled from the spec: `halfToFloatBits` (half-float bit-pattern widening,
an external helper of the shader runtime not present in the sources).  Widens
an IEEE binary16 bit pattern to the equivalent binary32 bit pattern; subnormal
halves become normal floats, `e = 31` maps to the float Inf/NaN exponent. -/
def halfToFloatBits (h : Nat) : Nat :=
  let s := h >>> 15 &&& 1
  let e := h >>> 10 &&& 31
  let m := h &&& 1023
  if e = 0 then
    if m = 0 then s <<< 31
    else
      let l := Nat.log2 m
      s <<< 31 ||| (l + 103) <<< 23 ||| (m <<< (23 - l)) &&& 8388607
  else if e = 31 then s <<< 31 ||| 255 <<< 23 ||| m <<< 13
  else s <<< 31 ||| (e + 112) <<< 23 ||| m <<< 13

/-- Modelled from the spec: narrowing a binary32 bit pattern to binary16 with
round to nearest even (the core of the external `floatToHalfBits` helper). -/
def floatToHalfCore (w : Nat) : Nat :=
  let s := w >>> 31 &&& 1
  let e := w >>> 23 &&& 255
  let m := w &&& 8388607
  if 143 ≤ e then
    if e = 255 ∧ m ≠ 0 then s <<< 15 ||| 31 <<< 10 ||| 512
    else s <<< 15 ||| 31 <<< 10
  else if 113 ≤ e then
    let q := rne m 13
    if q = 1024 then s <<< 15 ||| (e - 111) <<< 10
    else s <<< 15 ||| (e - 112) <<< 10 ||| q
  else if 102 ≤ e then
    let q := rne (8388608 + m) (126 - e)
    if q = 1024 then s <<< 15 ||| 1 <<< 10 else s <<< 15 ||| q
  else s <<< 15

/-- Modelled from the spec: `floatToHalfBits(bits, highHalf)`; the result is
placed in the high 16 bits when `highHalf` is set. -/
def floatToHalfBits (w : Nat) (highHalf : Bool) : Nat :=
  if highHalf then floatToHalfCore w <<< 16 else floatToHalfCore w

/-- A binary16 pattern denoting a finite value (exponent field not all-ones). -/
def IsFiniteHalf (h : Nat) : Prop := h < 65536 ∧ h >>> 10 &&& 31 ≠ 31

/-- `sRGBtoLinear` from the source, with the `power` collaborator abstracted as
`pow24` and the lane-mask select idealized to a conditional. -/
def sRGBtoLinearQ (pow24 : ℚ → ℚ) (c : ℚ) : ℚ :=
  let lc := c * (1 / 12.92)
  let ec := pow24 ((c + 0.055) * (1 / 1.055))
  if c < 0.04045 then lc else ec

/-- The pixel formats handled by the read/write format switches. -/
inductive VkFormat where
  | R32G32B32A32_SFLOAT | R32G32B32A32_SINT | R32G32B32A32_UINT
  | R32_SINT | R32_UINT | R32_SFLOAT
  | D32_SFLOAT | D32_SFLOAT_S8_UINT | D16_UNORM
  | R16G16B16A16_UNORM | R16G16B16A16_SNORM | R16G16B16A16_SINT
  | R16G16B16A16_UINT | R16G16B16A16_SFLOAT
  | R8G8B8A8_SNORM | A8B8G8R8_SNORM_PACK32
  | R8G8B8A8_UNORM | A8B8G8R8_UNORM_PACK32
  | R8G8B8A8_SRGB | A8B8G8R8_SRGB_PACK32
  | B8G8R8A8_UNORM | B8G8R8A8_SRGB
  | R8G8B8A8_UINT | A8B8G8R8_UINT_PACK32
  | R8G8B8A8_SINT | A8B8G8R8_SINT_PACK32
  | R8_UNORM | R8_SNORM | R8_UINT | S8_UINT | R8_SINT
  | R8G8_UNORM | R8G8_SNORM | R8G8_UINT | R8G8_SINT
  | R16_SFLOAT | R16_UNORM | R16_SNORM | R16_UINT | R16_SINT
  | R16G16_SFLOAT | R16G16_UNORM | R16G16_SNORM | R16G16_UINT | R16G16_SINT
  | R32G32_SINT | R32G32_UINT | R32G32_SFLOAT
  | A2B10G10R10_UINT_PACK32 | A2R10G10B10_UINT_PACK32
  | A2B10G10R10_UNORM_PACK32 | A2R10G10B10_UNORM_PACK32
  | R4G4B4A4_UNORM_PACK16 | B4G4R4A4_UNORM_PACK16
  | A4R4G4B4_UNORM_PACK16 | A4B4G4R4_UNORM_PACK16
  | R5G6B5_UNORM_PACK16 | B5G6R5_UNORM_PACK16
  | R5G5B5A1_UNORM_PACK16 | B5G5R5A1_UNORM_PACK16 | A1R5G5B5_UNORM_PACK16
  | B10G11R11_UFLOAT_PACK32
deriving DecidableEq

open VkFormat

/-- The texel-decoding format switch of `EmitImageRead`: unpack up to four
32-bit words of texel data into a four-channel lane vector. -/
def decodeTexel (pow24 : ℚ → ℚ) (fmt : VkFormat) (p : Fin 4 → Nat) :
    Fin 4 → Chan :=
  match fmt with
  | R32G32B32A32_SFLOAT => ![.raw (p 0), .raw (p 1), .raw (p 2), .raw (p 3)]
  | R32G32B32A32_SINT =>
      ![.i (toInt32 (p 0)), .i (toInt32 (p 1)), .i (toInt32 (p 2)),
        .i (toInt32 (p 3))]
  | R32G32B32A32_UINT => ![.u (p 0), .u (p 1), .u (p 2), .u (p 3)]
  | R32_SINT => ![.i (toInt32 (p 0)), .i 0, .i 0, .i 1]
  | R32_UINT => ![.u (p 0), .i 0, .i 0, .i 1]
  | R32_SFLOAT | D32_SFLOAT | D32_SFLOAT_S8_UINT =>
      ![.raw (p 0), .f 0, .f 0, .f 1]
  | D16_UNORM =>
      ![.f (intToFloatQ (p 0 &&& 0xFFFF) * (1 / 0xFFFF)), .f 0, .f 0, .f 1]
  | R16G16B16A16_UNORM =>
      ![.f (intToFloatQ (p 0 &&& 0xFFFF) * (1 / 0xFFFF)),
        .f (intToFloatQ (sar32 (p 0) 16 &&& 0xFFFF) * (1 / 0xFFFF)),
        .f (intToFloatQ (p 1 &&& 0xFFFF) * (1 / 0xFFFF)),
        .f (intToFloatQ (sar32 (p 1) 16 &&& 0xFFFF) * (1 / 0xFFFF))]
  | R16G16B16A16_SNORM =>
      ![.f (max (intToFloatQ (shl32 (p 0) 16 &&& 0xFFFF0000) * (1 / 0x7FFF0000)) (-1)),
        .f (max (intToFloatQ (p 0 &&& 0xFFFF0000) * (1 / 0x7FFF0000)) (-1)),
        .f (max (intToFloatQ (shl32 (p 1) 16 &&& 0xFFFF0000) * (1 / 0x7FFF0000)) (-1)),
        .f (max (intToFloatQ (p 1 &&& 0xFFFF0000) * (1 / 0x7FFF0000)) (-1))]
  | R16G16B16A16_SINT =>
      ![.i (toInt32 (sar32 (shl32 (p 0) 16) 16)), .i (toInt32 (sar32 (p 0) 16)),
        .i (toInt32 (sar32 (shl32 (p 1) 16) 16)), .i (toInt32 (sar32 (p 1) 16))]
  | R16G16B16A16_UINT =>
      ![.u (p 0 &&& 0xFFFF), .u (sar32 (p 0) 16 &&& 0xFFFF),
        .u (p 1 &&& 0xFFFF), .u (sar32 (p 1) 16 &&& 0xFFFF)]
  | R16G16B16A16_SFLOAT =>
      ![.raw (halfToFloatBits (p 0 &&& 0x0000FFFF)),
        .raw (halfToFloatBits (shr32 (p 0 &&& 0xFFFF0000) 16)),
        .raw (halfToFloatBits (p 1 &&& 0x0000FFFF)),
        .raw (halfToFloatBits (shr32 (p 1 &&& 0xFFFF0000) 16))]
  | R8G8B8A8_SNORM | A8B8G8R8_SNORM_PACK32 =>
      ![.f (max (intToFloatQ (shl32 (p 0) 24 &&& 0xFF000000) * (1 / 0x7F000000)) (-1)),
        .f (max (intToFloatQ (shl32 (p 0) 16 &&& 0xFF000000) * (1 / 0x7F000000)) (-1)),
        .f (max (intToFloatQ (shl32 (p 0) 8 &&& 0xFF000000) * (1 / 0x7F000000)) (-1)),
        .f (max (intToFloatQ (p 0 &&& 0xFF000000) * (1 / 0x7F000000)) (-1))]
  | R8G8B8A8_UNORM | A8B8G8R8_UNORM_PACK32 =>
      ![.f (intToFloatQ (p 0 &&& 0xFF) * (1 / 0xFF)),
        .f (intToFloatQ (sar32 (p 0) 8 &&& 0xFF) * (1 / 0xFF)),
        .f (intToFloatQ (sar32 (p 0) 16 &&& 0xFF) * (1 / 0xFF)),
        .f (intToFloatQ (sar32 (p 0) 24 &&& 0xFF) * (1 / 0xFF))]
  | R8G8B8A8_SRGB | A8B8G8R8_SRGB_PACK32 =>
      ![.f (sRGBtoLinearQ pow24 (intToFloatQ (p 0 &&& 0xFF) * (1 / 0xFF))),
        .f (sRGBtoLinearQ pow24 (intToFloatQ (sar32 (p 0) 8 &&& 0xFF) * (1 / 0xFF))),
        .f (sRGBtoLinearQ pow24 (intToFloatQ (sar32 (p 0) 16 &&& 0xFF) * (1 / 0xFF))),
        .f (intToFloatQ (sar32 (p 0) 24 &&& 0xFF) * (1 / 0xFF))]
  | B8G8R8A8_UNORM =>
      ![.f (intToFloatQ (sar32 (p 0) 16 &&& 0xFF) * (1 / 0xFF)),
        .f (intToFloatQ (sar32 (p 0) 8 &&& 0xFF) * (1 / 0xFF)),
        .f (intToFloatQ (p 0 &&& 0xFF) * (1 / 0xFF)),
        .f (intToFloatQ (sar32 (p 0) 24 &&& 0xFF) * (1 / 0xFF))]
  | B8G8R8A8_SRGB =>
      ![.f (sRGBtoLinearQ pow24 (intToFloatQ (sar32 (p 0) 16 &&& 0xFF) * (1 / 0xFF))),
        .f (sRGBtoLinearQ pow24 (intToFloatQ (sar32 (p 0) 8 &&& 0xFF) * (1 / 0xFF))),
        .f (sRGBtoLinearQ pow24 (intToFloatQ (p 0 &&& 0xFF) * (1 / 0xFF))),
        .f (intToFloatQ (sar32 (p 0) 24 &&& 0xFF) * (1 / 0xFF))]
  | R8G8B8A8_UINT | A8B8G8R8_UINT_PACK32 =>
      ![.u (p 0 &&& 0xFF), .u (shr32 (p 0) 8 &&& 0xFF),
        .u (shr32 (p 0) 16 &&& 0xFF), .u (shr32 (p 0) 24 &&& 0xFF)]
  | R8G8B8A8_SINT | A8B8G8R8_SINT_PACK32 =>
      ![.i (toInt32 (sar32 (shl32 (p 0) 24) 24)),
        .i (toInt32 (sar32 (shl32 (p 0) 16) 24)),
        .i (toInt32 (sar32 (shl32 (p 0) 8) 24)),
        .i (toInt32 (sar32 (p 0) 24))]
  | R8_UNORM =>
      ![.f (intToFloatQ (p 0 &&& 0xFF) * (1 / 0xFF)), .f 0, .f 0, .f 1]
  | R8_SNORM =>
      ![.f (max (intToFloatQ (shl32 (p 0) 24 &&& 0xFF000000) * (1 / 0x7F000000)) (-1)),
        .f 0, .f 0, .f 1]
  | R8_UINT | S8_UINT => ![.u (p 0 &&& 0xFF), .i 0, .i 0, .i 1]
  | R8_SINT => ![.i (toInt32 (sar32 (shl32 (p 0) 24) 24)), .i 0, .i 0, .i 1]
  | R8G8_UNORM =>
      ![.f (intToFloatQ (p 0 &&& 0xFF) * (1 / 0xFF)),
        .f (intToFloatQ (sar32 (p 0) 8 &&& 0xFF) * (1 / 0xFF)), .f 0, .f 1]
  | R8G8_SNORM =>
      ![.f (max (intToFloatQ (shl32 (p 0) 24 &&& 0xFF000000) * (1 / 0x7F000000)) (-1)),
        .f (max (intToFloatQ (shl32 (p 0) 16 &&& 0xFF000000) * (1 / 0x7F000000)) (-1)),
        .f 0, .f 1]
  | R8G8_UINT =>
      ![.u (p 0 &&& 0xFF), .u (shr32 (p 0) 8 &&& 0xFF), .i 0, .i 1]
  | R8G8_SINT =>
      ![.i (toInt32 (sar32 (shl32 (p 0) 24) 24)),
        .i (toInt32 (sar32 (shl32 (p 0) 16) 24)), .i 0, .i 1]
  | R16_SFLOAT =>
      ![.raw (halfToFloatBits (p 0 &&& 0x0000FFFF)), .f 0, .f 0, .f 1]
  | R16_UNORM =>
      ![.f (intToFloatQ (p 0 &&& 0xFFFF) * (1 / 0xFFFF)), .f 0, .f 0, .f 1]
  | R16_SNORM =>
      ![.f (max (intToFloatQ (shl32 (p 0) 16 &&& 0xFFFF0000) * (1 / 0x7FFF0000)) (-1)),
        .f 0, .f 0, .f 1]
  | R16_UINT => ![.u (p 0 &&& 0xFFFF), .i 0, .i 0, .i 1]
  | R16_SINT => ![.i (toInt32 (sar32 (shl32 (p 0) 16) 16)), .i 0, .i 0, .i 1]
  | R16G16_SFLOAT =>
      ![.raw (halfToFloatBits (p 0 &&& 0x0000FFFF)),
        .raw (halfToFloatBits (shr32 (p 0 &&& 0xFFFF0000) 16)), .f 0, .f 1]
  | R16G16_UNORM =>
      ![.f (intToFloatQ (p 0 &&& 0xFFFF) * (1 / 0xFFFF)),
        .f (uintToFloatQ (shr32 (p 0) 16) * (1 / 0xFFFF)), .f 0, .f 1]
  | R16G16_SNORM =>
      ![.f (max (intToFloatQ (shl32 (p 0) 16 &&& 0xFFFF0000) * (1 / 0x7FFF0000)) (-1)),
        .f (max (intToFloatQ (p 0 &&& 0xFFFF0000) * (1 / 0x7FFF0000)) (-1)),
        .f 0, .f 1]
  | R16G16_UINT =>
      ![.u (p 0 &&& 0xFFFF), .u (sar32 (p 0) 16 &&& 0xFFFF), .i 0, .i 1]
  | R16G16_SINT =>
      ![.i (toInt32 (sar32 (shl32 (p 0) 16) 16)), .i (toInt32 (sar32 (p 0) 16)),
        .i 0, .i 1]
  | R32G32_SINT => ![.i (toInt32 (p 0)), .i (toInt32 (p 1)), .i 0, .i 1]
  | R32G32_UINT => ![.u (p 0), .u (p 1), .i 0, .i 1]
  | R32G32_SFLOAT => ![.raw (p 0), .raw (p 1), .f 0, .f 1]
  | A2B10G10R10_UINT_PACK32 =>
      ![.u (p 0 &&& 0x3FF), .u (sar32 (p 0) 10 &&& 0x3FF),
        .u (sar32 (p 0) 20 &&& 0x3FF), .u (sar32 (p 0) 30 &&& 0x3)]
  | A2R10G10B10_UINT_PACK32 =>
      ![.u (sar32 (p 0) 20 &&& 0x3FF), .u (sar32 (p 0) 10 &&& 0x3FF),
        .u (p 0 &&& 0x3FF), .u (sar32 (p 0) 30 &&& 0x3)]
  | A2B10G10R10_UNORM_PACK32 =>
      ![.f (intToFloatQ (p 0 &&& 0x3FF) * (1 / 0x3FF)),
        .f (intToFloatQ (sar32 (p 0) 10 &&& 0x3FF) * (1 / 0x3FF)),
        .f (intToFloatQ (sar32 (p 0) 20 &&& 0x3FF) * (1 / 0x3FF)),
        .f (intToFloatQ (sar32 (p 0) 30 &&& 0x3) * (1 / 0x3))]
  | A2R10G10B10_UNORM_PACK32 =>
      ![.f (intToFloatQ (sar32 (p 0) 20 &&& 0x3FF) * (1 / 0x3FF)),
        .f (intToFloatQ (sar32 (p 0) 10 &&& 0x3FF) * (1 / 0x3FF)),
        .f (intToFloatQ (p 0 &&& 0x3FF) * (1 / 0x3FF)),
        .f (intToFloatQ (sar32 (p 0) 30 &&& 0x3) * (1 / 0x3))]
  | R4G4B4A4_UNORM_PACK16 =>
      ![.f (intToFloatQ (sar32 (p 0) 12 &&& 0xF) * (1 / 0xF)),
        .f (intToFloatQ (sar32 (p 0) 8 &&& 0xF) * (1 / 0xF)),
        .f (intToFloatQ (sar32 (p 0) 4 &&& 0xF) * (1 / 0xF)),
        .f (intToFloatQ (p 0 &&& 0xF) * (1 / 0xF))]
  | B4G4R4A4_UNORM_PACK16 =>
      ![.f (intToFloatQ (sar32 (p 0) 4 &&& 0xF) * (1 / 0xF)),
        .f (intToFloatQ (sar32 (p 0) 8 &&& 0xF) * (1 / 0xF)),
        .f (intToFloatQ (sar32 (p 0) 12 &&& 0xF) * (1 / 0xF)),
        .f (intToFloatQ (p 0 &&& 0xF) * (1 / 0xF))]
  | A4R4G4B4_UNORM_PACK16 =>
      ![.f (intToFloatQ (sar32 (p 0) 8 &&& 0xF) * (1 / 0xF)),
        .f (intToFloatQ (sar32 (p 0) 4 &&& 0xF) * (1 / 0xF)),
        .f (intToFloatQ (p 0 &&& 0xF) * (1 / 0xF)),
        .f (intToFloatQ (sar32 (p 0) 12 &&& 0xF) * (1 / 0xF))]
  | A4B4G4R4_UNORM_PACK16 =>
      ![.f (intToFloatQ (p 0 &&& 0xF) * (1 / 0xF)),
        .f (intToFloatQ (sar32 (p 0) 4 &&& 0xF) * (1 / 0xF)),
        .f (intToFloatQ (sar32 (p 0) 8 &&& 0xF) * (1 / 0xF)),
        .f (intToFloatQ (sar32 (p 0) 12 &&& 0xF) * (1 / 0xF))]
  | R5G6B5_UNORM_PACK16 =>
      ![.f (intToFloatQ (sar32 (p 0) 11 &&& 0x1F) * (1 / 0x1F)),
        .f (intToFloatQ (sar32 (p 0) 5 &&& 0x3F) * (1 / 0x3F)),
        .f (intToFloatQ (p 0 &&& 0x1F) * (1 / 0x1F)), .f 1]
  | B5G6R5_UNORM_PACK16 =>
      ![.f (intToFloatQ (p 0 &&& 0x1F) * (1 / 0x1F)),
        .f (intToFloatQ (sar32 (p 0) 5 &&& 0x3F) * (1 / 0x3F)),
        .f (intToFloatQ (sar32 (p 0) 11 &&& 0x1F) * (1 / 0x1F)), .f 1]
  | R5G5B5A1_UNORM_PACK16 =>
      ![.f (intToFloatQ (sar32 (p 0) 11 &&& 0x1F) * (1 / 0x1F)),
        .f (intToFloatQ (sar32 (p 0) 6 &&& 0x1F) * (1 / 0x1F)),
        .f (intToFloatQ (sar32 (p 0) 1 &&& 0x1F) * (1 / 0x1F)),
        .f (intToFloatQ (p 0 &&& 0x1))]
  | B5G5R5A1_UNORM_PACK16 =>
      ![.f (intToFloatQ (sar32 (p 0) 1 &&& 0x1F) * (1 / 0x1F)),
        .f (intToFloatQ (sar32 (p 0) 6 &&& 0x1F) * (1 / 0x1F)),
        .f (intToFloatQ (sar32 (p 0) 11 &&& 0x1F) * (1 / 0x1F)),
        .f (intToFloatQ (p 0 &&& 0x1))]
  | A1R5G5B5_UNORM_PACK16 =>
      ![.f (intToFloatQ (sar32 (p 0) 10 &&& 0x1F) * (1 / 0x1F)),
        .f (intToFloatQ (sar32 (p 0) 5 &&& 0x1F) * (1 / 0x1F)),
        .f (intToFloatQ (p 0 &&& 0x1F) * (1 / 0x1F)),
        .f (intToFloatQ (sar32 (p 0) 15 &&& 0x1))]
  | B10G11R11_UFLOAT_PACK32 =>
      ![.raw (halfToFloatBits (shl32 (p 0) 4 &&& 0x7FF0)),
        .raw (halfToFloatBits (sar32 (p 0) 7 &&& 0x7FF0)),
        .raw (halfToFloatBits (sar32 (p 0) 17 &&& 0x7FE0)), .f 1]

/-- `SIMD::UInt(Round(Min(Max(x, 0.0f), 1.0f) * K))`: quantization of one
unsigned-normalized channel, as repeated throughout the write switch. -/
def unormRound (q : ℚ) (K : Nat) : Nat := (round (min (max q 0) 1 * K)).toNat

/-- `SIMD::Int(Round(Min(Max(x, -1.0f), 1.0f) * K))`: quantization of one
signed-normalized channel. -/
def snormRound (q : ℚ) (K : Nat) : Nat := ofInt32 (round (min (max q (-1)) 1 * K))

/-- `As<SIMD::UInt>(Max(x, SIMD::Float(0.0f)))` at the bit level: a pattern
with the sign bit set (negative value or minus zero) clamps to `+0.0`. -/
def fmaxZeroBits (w : Nat) : Nat := if w >>> 31 = 1 then 0 else w

/-- The texel-encoding format switch of `EmitImageWrite`: pack a four-channel
lane vector into texel words, yielding the texel size and up to four 32-bit
words.  Formats absent from the write switch are `UNSUPPORTED` (`none`). -/
def encodeTexel (fmt : VkFormat) (t : Fin 4 → Chan) :
    Option (Nat × (Fin 4 → Nat)) :=
  match fmt with
  | R32G32B32A32_SFLOAT | R32G32B32A32_SINT | R32G32B32A32_UINT =>
      some (16, ![(t 0).intW, (t 1).intW, (t 2).intW, (t 3).intW])
  | R32_SFLOAT | R32_SINT | R32_UINT =>
      some (4, ![(t 0).intW, 0, 0, 0])
  | R8G8B8A8_UNORM =>
      some (4, ![unormRound ((t 0).floatQ) 0xFF |||
                 shl32 (unormRound ((t 1).floatQ) 0xFF) 8 |||
                 shl32 (unormRound ((t 2).floatQ) 0xFF) 16 |||
                 shl32 (unormRound ((t 3).floatQ) 0xFF) 24, 0, 0, 0])
  | R8G8B8A8_SNORM =>
      some (4, ![(snormRound ((t 0).floatQ) 0x7F &&& 0xFF) |||
                 shl32 (snormRound ((t 1).floatQ) 0x7F &&& 0xFF) 8 |||
                 shl32 (snormRound ((t 2).floatQ) 0x7F &&& 0xFF) 16 |||
                 shl32 (snormRound ((t 3).floatQ) 0x7F &&& 0xFF) 24, 0, 0, 0])
  | R8G8B8A8_SINT | R8G8B8A8_UINT =>
      some (4, ![((t 0).intW &&& 0xFF) ||| shl32 ((t 1).intW &&& 0xFF) 8 |||
                 shl32 ((t 2).intW &&& 0xFF) 16 |||
                 shl32 ((t 3).intW &&& 0xFF) 24, 0, 0, 0])
  | R16G16B16A16_SFLOAT =>
      some (8, ![floatToHalfBits ((t 0).intW) false |||
                 floatToHalfBits ((t 1).intW) true,
                 floatToHalfBits ((t 2).intW) false |||
                 floatToHalfBits ((t 3).intW) true, 0, 0])
  | R16G16B16A16_SINT | R16G16B16A16_UINT =>
      some (8, ![((t 0).intW &&& 0xFFFF) ||| shl32 ((t 1).intW &&& 0xFFFF) 16,
                 ((t 2).intW &&& 0xFFFF) ||| shl32 ((t 3).intW &&& 0xFFFF) 16,
                 0, 0])
  | R32G32_SFLOAT | R32G32_SINT | R32G32_UINT =>
      some (8, ![(t 0).intW, (t 1).intW, 0, 0])
  | R16G16_SFLOAT =>
      some (4, ![floatToHalfBits ((t 0).intW) false |||
                 floatToHalfBits ((t 1).intW) true, 0, 0, 0])
  | R16G16_SINT | R16G16_UINT =>
      some (4, ![((t 0).intW &&& 0xFFFF) ||| shl32 ((t 1).intW &&& 0xFFFF) 16,
                 0, 0, 0])
  | B10G11R11_UFLOAT_PACK32 =>
      some (4, ![shr32 (floatToHalfBits (fmaxZeroBits ((t 0).intW)) false &&& 0x7FF0) 4 |||
                 shl32 (floatToHalfBits (fmaxZeroBits ((t 1).intW)) false &&& 0x7FF0) 7 |||
                 shl32 (floatToHalfBits (fmaxZeroBits ((t 2).intW)) false &&& 0x7FE0) 17,
                 0, 0, 0])
  | R16_SFLOAT =>
      some (2, ![floatToHalfBits ((t 0).intW) false, 0, 0, 0])
  | R16G16B16A16_UNORM =>
      some (8, ![unormRound ((t 0).floatQ) 0xFFFF |||
                 shl32 (unormRound ((t 1).floatQ) 0xFFFF) 16,
                 unormRound ((t 2).floatQ) 0xFFFF |||
                 shl32 (unormRound ((t 3).floatQ) 0xFFFF) 16, 0, 0])
  | A2B10G10R10_UNORM_PACK32 =>
      some (4, ![unormRound ((t 0).floatQ) 0x3FF |||
                 shl32 (unormRound ((t 1).floatQ) 0x3FF) 10 |||
                 shl32 (unormRound ((t 2).floatQ) 0x3FF) 20 |||
                 shl32 (unormRound ((t 3).floatQ) 0x3) 30, 0, 0, 0])
  | R16G16_UNORM =>
      some (4, ![unormRound ((t 0).floatQ) 0xFFFF |||
                 shl32 (unormRound ((t 1).floatQ) 0xFFFF) 16, 0, 0, 0])
  | R8G8_UNORM =>
      some (2, ![unormRound ((t 0).floatQ) 0xFF |||
                 shl32 (unormRound ((t 1).floatQ) 0xFF) 8, 0, 0, 0])
  | R16_UNORM =>
      some (2, ![unormRound ((t 0).floatQ) 0xFFFF, 0, 0, 0])
  | R8_UNORM =>
      some (1, ![unormRound ((t 0).floatQ) 0xFF, 0, 0, 0])
  | R16G16B16A16_SNORM =>
      some (8, ![(snormRound ((t 0).floatQ) 0x7FFF &&& 0xFFFF) |||
                 shl32 (snormRound ((t 1).floatQ) 0x7FFF) 16,
                 (snormRound ((t 2).floatQ) 0x7FFF &&& 0xFFFF) |||
                 shl32 (snormRound ((t 3).floatQ) 0x7FFF) 16, 0, 0])
  | R16G16_SNORM =>
      some (4, ![(snormRound ((t 0).floatQ) 0x7FFF &&& 0xFFFF) |||
                 shl32 (snormRound ((t 1).floatQ) 0x7FFF) 16, 0, 0, 0])
  | R8G8_SNORM =>
      some (2, ![(snormRound ((t 0).floatQ) 0x7F &&& 0xFF) |||
                 shl32 (snormRound ((t 1).floatQ) 0x7F) 8, 0, 0, 0])
  | R16_SNORM =>
      some (2, ![snormRound ((t 0).floatQ) 0x7FFF, 0, 0, 0])
  | R8_SNORM =>
      some (1, ![snormRound ((t 0).floatQ) 0x7F, 0, 0, 0])
  | R8G8_SINT | R8G8_UINT =>
      some (2, ![((t 0).intW &&& 0xFF) ||| shl32 ((t 1).intW &&& 0xFF) 8,
                 0, 0, 0])
  | R16_SINT | R16_UINT =>
      some (2, ![(t 0).intW &&& 0xFFFF, 0, 0, 0])
  | R8_SINT | R8_UINT =>
      some (1, ![(t 0).intW &&& 0xFF, 0, 0, 0])
  | A2B10G10R10_UINT_PACK32 =>
      some (4, ![((t 0).intW &&& 0x3FF) ||| shl32 ((t 1).intW &&& 0x3FF) 10 |||
                 shl32 ((t 2).intW &&& 0x3FF) 20 |||
                 shl32 ((t 3).intW &&& 0x3) 30, 0, 0, 0])
  | _ => none

/-- SIMD lane index (`SIMD::Width = 4`). -/
abbrev Lane := Fin 4

/-- The image dimensionality tag of the `OpTypeImage` declaration. -/
inductive SpvDim where
  | dim1D | dim2D | dim3D | dimCube | dimBuffer | dimSubpassData
deriving DecidableEq

/-- The out-of-bounds policy passed to the address calculator. -/
inductive OutOfBoundsBehavior where
  | Nullify | RobustBufferAccess | UndefinedValue | UndefinedBehavior
deriving DecidableEq

/-- `vk::StorageImageDescriptor`: the per-resource binding record consumed by
the address calculator (field set as read by the shader code; layout modelled
as a record). -/
structure StorageImageDescriptor where
  ptr : Nat
  stencilPtr : Nat
  sizeInBytes : Nat
  width : Nat
  height : Nat
  depth : Nat
  rowPitchBytes : Nat
  slicePitchBytes : Nat
  samplePitchBytes : Nat
  stencilRowPitchBytes : Nat
  stencilSlicePitchBytes : Nat
  stencilSamplePitchBytes : Nat
  sampleCount : Nat

/-- The per-routine state read by the address calculator: the fragment's
window-space position and the active multiview view index. -/
structure RoutineState where
  windowSpacePositionX : Lane → Nat
  windowSpacePositionY : Lane → Nat
  viewID : Nat

/-- All inputs of `GetTexelAddress`.  `sampleOp` is `some (cz, v)` when a
sample operand id is present, where `cz` is its `isConstantZero()` and `v` its
per-lane value; `coord` gives the per-lane coordinate components. -/
structure AddrInputs where
  rt : RoutineState
  desc : StorageImageDescriptor
  dim : SpvDim
  arrayed : Bool
  compCount : Nat
  coord : Nat → Lane → Nat
  texelSize : Nat
  sampleOp : Option (Bool × (Lane → Nat))
  useStencilAspect : Bool

/-- Coordinate count less the array-layer component, as in the source. -/
def AddrInputs.dims (a : AddrInputs) : Nat :=
  a.compCount - (if a.arrayed then 1 else 0)

/-- The `u` coordinate: component 0, window-offset for subpass resources. -/
def texelU (a : AddrInputs) (ln : Lane) : Nat :=
  if a.dim = .dimSubpassData then add32 (a.coord 0 ln) (a.rt.windowSpacePositionX ln)
  else a.coord 0 ln

/-- The `v` coordinate: component 1 when present (else 0), window-offset for
subpass resources. -/
def texelV (a : AddrInputs) (ln : Lane) : Nat :=
  let v0 := if 1 < a.compCount then a.coord 1 ln else 0
  if a.dim = .dimSubpassData then add32 v0 (a.rt.windowSpacePositionY ln) else v0

/-- The combined slice/layer component `w`: depth-slice coordinate plus
array-layer coordinate (0 when neither applies). -/
def texelW (a : AddrInputs) (ln : Lane) : Nat :=
  if 2 < a.dims ∨ a.arrayed then
    add32 (if 2 < a.dims then a.coord 2 ln else 0)
      (if a.arrayed then a.coord a.dims ln else 0)
  else 0

/-- The sample index `n`: 0 unless a non-constant-zero sample operand exists. -/
def texelN (a : AddrInputs) (ln : Lane) : Nat :=
  match a.sampleOp with
  | some (cz, v) => if cz then 0 else v ln
  | none => 0

/-- Row pitch selected by the requested aspect. -/
def selRowPitch (a : AddrInputs) : Nat :=
  if a.useStencilAspect then a.desc.stencilRowPitchBytes else a.desc.rowPitchBytes

/-- Slice pitch selected by the requested aspect. -/
def selSlicePitch (a : AddrInputs) : Nat :=
  if a.useStencilAspect then a.desc.stencilSlicePitchBytes else a.desc.slicePitchBytes

/-- Sample pitch selected by the requested aspect. -/
def selSamplePitch (a : AddrInputs) : Nat :=
  if a.useStencilAspect then a.desc.stencilSamplePitchBytes else a.desc.samplePitchBytes

/-- The arithmetically accumulated per-lane byte offset of `GetTexelAddress`
(before the out-of-bounds policy is applied). -/
def texelOffsetRaw (a : AddrInputs) (ln : Lane) : Nat :=
  let o1 := mul32 (texelU a ln) a.texelSize
  let o2 := if 1 < a.dims then add32 o1 (mul32 (texelV a ln) (selRowPitch a)) else o1
  let o3 :=
    if 2 < a.dims ∨ a.arrayed then add32 o2 (mul32 (texelW a ln) (selSlicePitch a))
    else o2
  let o4 :=
    if a.dim = .dimSubpassData then add32 o3 (mul32 a.rt.viewID (selSlicePitch a))
    else o3
  match a.sampleOp with
  | some (cz, v) => if cz then o4 else add32 o4 (mul32 (v ln) (selSamplePitch a))
  | none => o4

/-- The per-lane out-of-bounds lane mask accumulated by the `Nullify` branch of
`GetTexelAddress` (all-ones or all-zeros per lane). -/
def oobMask32 (a : AddrInputs) (ln : Lane) : Nat :=
  let m1 := cmpNLT32u (texelU a ln) a.desc.width
  let m2 := if 1 < a.dims then m1 ||| cmpNLT32u (texelV a ln) a.desc.height else m1
  let m3 :=
    if 2 < a.dims ∨ a.arrayed then
      m2 ||| cmpNLT32u (texelW a ln)
        (if a.dim = .dimCube then mul32 a.desc.depth 6 else a.desc.depth)
    else m2
  match a.sampleOp with
  | some (cz, v) =>
      if cz then m3 else m3 ||| cmpNLT32u (v ln) a.desc.sampleCount
  | none => m3

/-- The fixed sentinel offset forced onto out-of-bounds lanes: the largest
signed-32-bit offset minus the widest (16-byte) texel size. -/
def OOB_OFFSET : Nat := 0x7FFFFFFF - 16

/-- Modelled from the spec: `vk::MAX_MEMORY_ALLOCATION_SIZE`, the maximum
supported size of a single allocation (1 GiB; the constant lives in a header
outside these sources). -/
def MAX_MEMORY_ALLOCATION_SIZE : Nat := 0x40000000

/-- `GetTexelAddress`: the per-lane byte offset, with the `Nullify` policy
forcing out-of-bounds lanes to the sentinel via the lane-mask select. -/
def GetTexelAddress (a : AddrInputs) (outOfBoundsBehavior : OutOfBoundsBehavior)
    (ln : Lane) : Nat :=
  let po := texelOffsetRaw a ln
  if outOfBoundsBehavior = .Nullify then
    let m := oobMask32 a ln
    (po &&& not32 m) ||| (m &&& OOB_OFFSET)
  else po

/-- Byte-addressed memory. -/
def Mem := Nat → Nat

/-- Assemble `n` little-endian bytes starting at address `a`. -/
def loadLE (m : Mem) (a : Nat) : Nat → Nat
  | 0 => 0
  | n + 1 => m a % 256 + loadLE m (a + 1) n * 256

/-- Store the `n` low bytes of `w` little-endian at address `a`. -/
def storeLE (m : Mem) (a w n : Nat) : Mem :=
  fun x => if a ≤ x ∧ x < a + n then w >>> ((x - a) * 8) % 256 else m x

/-- Modelled from the spec: `SIMD::Pointer::isInBounds` for an access of
`accessSize` bytes at a signed 32-bit lane offset against the descriptor's
`sizeInBytes` limit. -/
def isInBounds (off accessSize size : Nat) : Bool :=
  decide (off < 2147483648 ∧ off + accessSize ≤ size)

/-- Modelled from the spec: texel size in bytes of each format
(`vk::Format::bytes`, implemented outside these sources). -/
def formatBytes (fmt : VkFormat) : Nat :=
  match fmt with
  | R32G32B32A32_SFLOAT | R32G32B32A32_SINT | R32G32B32A32_UINT => 16
  | R16G16B16A16_UNORM | R16G16B16A16_SNORM | R16G16B16A16_SINT
  | R16G16B16A16_UINT | R16G16B16A16_SFLOAT
  | R32G32_SINT | R32G32_UINT | R32G32_SFLOAT => 8
  | R32_SINT | R32_UINT | R32_SFLOAT | D32_SFLOAT | D32_SFLOAT_S8_UINT
  | R8G8B8A8_SNORM | A8B8G8R8_SNORM_PACK32 | R8G8B8A8_UNORM
  | A8B8G8R8_UNORM_PACK32 | R8G8B8A8_SRGB | A8B8G8R8_SRGB_PACK32
  | B8G8R8A8_UNORM | B8G8R8A8_SRGB | R8G8B8A8_UINT | A8B8G8R8_UINT_PACK32
  | R8G8B8A8_SINT | A8B8G8R8_SINT_PACK32
  | R16G16_SFLOAT | R16G16_UNORM | R16G16_SNORM | R16G16_UINT | R16G16_SINT
  | A2B10G10R10_UINT_PACK32 | A2R10G10B10_UINT_PACK32
  | A2B10G10R10_UNORM_PACK32 | A2R10G10B10_UNORM_PACK32
  | B10G11R11_UFLOAT_PACK32 => 4
  | D16_UNORM | R8G8_UNORM | R8G8_SNORM | R8G8_UINT | R8G8_SINT
  | R16_SFLOAT | R16_UNORM | R16_SNORM | R16_UINT | R16_SINT
  | R4G4B4A4_UNORM_PACK16 | B4G4R4A4_UNORM_PACK16 | A4R4G4B4_UNORM_PACK16
  | A4B4G4R4_UNORM_PACK16 | R5G6B5_UNORM_PACK16 | B5G6R5_UNORM_PACK16
  | R5G5B5A1_UNORM_PACK16 | B5G5R5A1_UNORM_PACK16
  | A1R5G5B5_UNORM_PACK16 => 2
  | R8_UNORM | R8_SNORM | R8_UINT | S8_UINT | R8_SINT => 1

/-- The masked texel-data gather of `EmitImageRead`: per lane, word `i` of the
packed texel loads from offset `off + 4 i` when the lane is active and in
bounds, and is zero otherwise (out-of-bounds lanes are nullified; the
sub-4-byte paths leave unselected lanes at the register's initial value,
modelled as zero). -/
def readPackedWords (m : Mem) (base size ts : Nat) (off : Lane → Nat)
    (mask : Lane → Bool) : Fin 4 → Lane → Nat :=
  fun i ln =>
    if ts ≤ 2 then
      if i = 0 ∧ (mask ln && isInBounds (off ln) ts size) = true then
        loadLE m (base + off ln) ts
      else 0
    else if (i : Nat) < ts / 4 then
      if (mask ln && isInBounds (add32 (off ln) (4 * i)) 4 size) = true then
        loadLE m (base + add32 (off ln) (4 * i)) 4
      else 0
    else 0

/-- Inputs of `EmitImageRead`.  `fmtIn` is the instruction's format (or the
attachment's, for subpass data); `sampledTypeIsInt` tells whether the
`OpTypeImage` sampled type is an integer type. -/
structure ReadInputs where
  rt : RoutineState
  desc : StorageImageDescriptor
  dim : SpvDim
  arrayed : Bool
  compCount : Nat
  coord : Nat → Lane → Nat
  sampleOp : Option (Bool × (Lane → Nat))
  fmtIn : VkFormat
  sampledTypeIsInt : Bool
  mem : Mem
  activeMask : Lane → Bool

/-- Depth/stencil aspect selection of the read path: the stencil aspect is used
for `D32_SFLOAT_S8_UINT` images sampled with an integer type. -/
def readUseStencil (ri : ReadInputs) : Bool :=
  ri.fmtIn == D32_SFLOAT_S8_UINT && ri.sampledTypeIsInt

/-- The format actually decoded by the read path. -/
def readFormat (ri : ReadInputs) : VkFormat :=
  if readUseStencil ri then S8_UINT else ri.fmtIn

/-- The plane base pointer used by the read path. -/
def readBase (ri : ReadInputs) : Nat :=
  if readUseStencil ri then ri.desc.stencilPtr else ri.desc.ptr

/-- `EmitImageRead`: compute per-lane texel addresses under the `Nullify`
policy, gather the packed words, and decode them per lane. -/
def EmitImageRead (pow24 : ℚ → ℚ) (ri : ReadInputs) : Fin 4 → Lane → Chan :=
  let stencil := readUseStencil ri
  let fmt := readFormat ri
  let ts := formatBytes fmt
  let a : AddrInputs :=
    ⟨ri.rt, ri.desc, ri.dim, ri.arrayed, ri.compCount, ri.coord, ts,
      ri.sampleOp, stencil⟩
  let off := fun ln => GetTexelAddress a .Nullify ln
  let packed := readPackedWords ri.mem (readBase ri) ri.desc.sizeInBytes ts off
    ri.activeMask
  fun c ln => decodeTexel pow24 fmt (fun i => packed i ln) c

/-- One masked scatter of an `n`-byte store per lane, lanes in ascending
order; inactive or out-of-bounds lanes store nothing. -/
def scatterWord (m : Mem) (base size n : Nat) (offs : Lane → Nat)
    (ws : Lane → Nat) (gate : Lane → Bool) : Mem :=
  (List.finRange 4).foldl
    (fun acc ln =>
      if (gate ln && isInBounds (offs ln) n size) = true then
        storeLE acc (base + offs ln) (ws ln) n
      else acc) m

/-- The masked texel-data scatter of `EmitImageWrite`: word-sized stores for
4/8/16-byte texels, a single short or byte store otherwise. -/
def scatterTexels (m : Mem) (base size ts : Nat) (off : Lane → Nat)
    (words : Lane → Fin 4 → Nat) (mask : Lane → Bool) : Mem :=
  if ts ≤ 2 then scatterWord m base size ts off (fun ln => words ln 0) mask
  else
    (List.range (ts / 4)).foldl
      (fun acc i =>
        scatterWord acc base size 4 (fun ln => add32 (off ln) (4 * i))
          (fun ln => words ln ⟨i % 4, Nat.mod_lt i (by omega)⟩) mask) m

/-- Inputs of `EmitImageWrite`. -/
structure WriteInputs where
  rt : RoutineState
  desc : StorageImageDescriptor
  dim : SpvDim
  arrayed : Bool
  compCount : Nat
  coord : Nat → Lane → Nat
  sampleOp : Option (Bool × (Lane → Nat))
  fmt : VkFormat
  texel : Fin 4 → Lane → Chan
  mem : Mem
  storesMask : Lane → Bool

/-- `EmitImageWrite`: encode the texel per lane, compute the per-lane address
with the stencil aspect disabled and the primary plane pointer, and scatter
under the `Nullify` policy.  `none` models the `UNSUPPORTED` abort for formats
absent from the write switch. -/
def EmitImageWrite (wi : WriteInputs) : Option Mem :=
  match encodeTexel wi.fmt (fun c => wi.texel c 0) with
  | none => none
  | some (ts, _) =>
      let words : Lane → Fin 4 → Nat := fun ln =>
        match encodeTexel wi.fmt (fun c => wi.texel c ln) with
        | some (_, w) => w
        | none => fun _ => 0
      let a : AddrInputs :=
        ⟨wi.rt, wi.desc, wi.dim, wi.arrayed, wi.compCount, wi.coord, ts,
          wi.sampleOp, false⟩
      let off := fun ln => GetTexelAddress a .Nullify ln
      some (scatterTexels wi.mem wi.desc.ptr wi.desc.sizeInBytes ts off words
        wi.storesMask)

/-- Sampling variant: reference-depth compare and/or projective division. -/
inductive Variant where
  | VNone | Dref | Proj | ProjDref
deriving DecidableEq

/-- How the level of detail is determined. -/
inductive SamplerMethod where
  | Implicit | Bias | Lod | Grad | Fetch | Gather | Query
deriving DecidableEq

/-- The image-instruction opcodes handled by the decoder. -/
inductive ImgOpcode where
  | sampleImplicitLod | sampleExplicitLod
  | sampleDrefImplicitLod | sampleDrefExplicitLod
  | sampleProjImplicitLod | sampleProjExplicitLod
  | sampleProjDrefImplicitLod | sampleProjDrefExplicitLod
  | gatherOp | drefGatherOp | fetchOp | queryLodOp
deriving DecidableEq

/-- A raw image instruction: opcode, word count, and operand words. -/
structure Insn where
  opcode : ImgOpcode
  wordCount : Nat
  word : Nat → Nat

/-- The `spv::ImageOperands` mask bits consumed by the decoder. -/
def BiasMask : Nat := 1
def LodMask : Nat := 2
def GradMask : Nat := 4
def ConstOffsetMask : Nat := 8
def SampleMask : Nat := 64
def SignExtendMask : Nat := 4096
def ZeroExtendMask : Nat := 8192

/-- `getImageOperands`: the image-operand bitmask, at an opcode-dependent word
(optional for implicit-lod, gather and fetch forms). -/
def getImageOperands (insn : Insn) : Nat :=
  match insn.opcode with
  | .sampleImplicitLod | .sampleProjImplicitLod =>
      if 5 < insn.wordCount then insn.word 5 else 0
  | .sampleExplicitLod | .sampleProjExplicitLod => insn.word 5
  | .sampleDrefImplicitLod | .sampleProjDrefImplicitLod =>
      if 6 < insn.wordCount then insn.word 6 else 0
  | .sampleDrefExplicitLod | .sampleProjDrefExplicitLod => insn.word 6
  | .gatherOp | .drefGatherOp =>
      if 6 < insn.wordCount then insn.word 6 else 0
  | .fetchOp => if 5 < insn.wordCount then insn.word 5 else 0
  | .queryLodOp => 0

/-- `parseVariantAndMethod`. -/
def parseVariantAndMethod (insn : Insn) : Variant × SamplerMethod :=
  let imageOperands := getImageOperands insn
  let bias := imageOperands &&& BiasMask ≠ 0
  let grad := imageOperands &&& GradMask ≠ 0
  match insn.opcode with
  | .sampleImplicitLod => (.VNone, if bias then .Bias else .Implicit)
  | .sampleExplicitLod => (.VNone, if grad then .Grad else .Lod)
  | .sampleDrefImplicitLod => (.Dref, if bias then .Bias else .Implicit)
  | .sampleDrefExplicitLod => (.Dref, if grad then .Grad else .Lod)
  | .sampleProjImplicitLod => (.Proj, if bias then .Bias else .Implicit)
  | .sampleProjExplicitLod => (.Proj, if grad then .Grad else .Lod)
  | .sampleProjDrefImplicitLod => (.ProjDref, if bias then .Bias else .Implicit)
  | .sampleProjDrefExplicitLod => (.ProjDref, if grad then .Grad else .Lod)
  | .gatherOp => (.VNone, .Gather)
  | .drefGatherOp => (.Dref, .Gather)
  | .fetchOp => (.VNone, .Fetch)
  | .queryLodOp => (.VNone, .Query)

/-- Whether a variant carries a reference-depth compare. -/
def Variant.isDref (v : Variant) : Bool := v == .Dref || v == .ProjDref

/-- Whether a variant carries a projective division. -/
def Variant.isProj (v : Variant) : Bool := v == .Proj || v == .ProjDref

/-- Object/type-table lookups the decoder performs (external front end). -/
structure SpirvCtx where
  componentCountOf : Nat → Nat
  constantValueOf : Nat → Nat

/-- The decoded `ImageInstruction`. -/
structure ImageInstruction where
  variant : Variant
  samplerMethod : SamplerMethod
  position : Nat
  resultId : Nat
  sampledImageId : Nat
  coordinateId : Nat
  coordinates : Nat
  drefId : Nat
  gatherComponent : Nat
  lodOrBiasId : Nat
  gradDxId : Nat
  gradDyId : Nat
  offsetId : Nat
  sampleId : Nat
  grad : Nat
  offset : Nat
  sample : Bool

/-- The bias block of the constructor: consume a Bias operand if the mask has
the bit, returning (lodOrBiasId, next operand index, remaining mask). -/
def consumeBias (insn : Insn) (m op : Nat) : Nat × Nat × Nat :=
  if m &&& BiasMask ≠ 0 then (insn.word op, op + 1, m &&& (4294967295 - BiasMask))
  else (0, op, m)

/-- The lod block: consume a Lod operand if present (overwriting
`lodOrBiasId`). -/
def consumeLod (insn : Insn) (s : Nat × Nat × Nat) : Nat × Nat × Nat :=
  if s.2.2 &&& LodMask ≠ 0 then
    (insn.word s.2.1, s.2.1 + 1, s.2.2 &&& (4294967295 - LodMask))
  else s

/-- The grad block: consume dx and dy operands if present, returning
(gradDxId, gradDyId, grad component count, next index, remaining mask). -/
def consumeGrad (ctx : SpirvCtx) (insn : Insn) (s : Nat × Nat × Nat) :
    Nat × Nat × Nat × Nat × Nat :=
  if s.2.2 &&& GradMask ≠ 0 then
    (insn.word s.2.1, insn.word (s.2.1 + 1),
      ctx.componentCountOf (insn.word s.2.1), s.2.1 + 2,
      s.2.2 &&& (4294967295 - GradMask))
  else (0, 0, 0, s.2.1, s.2.2)

/-- The constant-offset block: (offsetId, offset component count, next index,
remaining mask). -/
def consumeConstOffset (ctx : SpirvCtx) (insn : Insn)
    (g : Nat × Nat × Nat × Nat × Nat) : Nat × Nat × Nat × Nat :=
  if g.2.2.2.2 &&& ConstOffsetMask ≠ 0 then
    (insn.word g.2.2.2.1, ctx.componentCountOf (insn.word g.2.2.2.1),
      g.2.2.2.1 + 1, g.2.2.2.2 &&& (4294967295 - ConstOffsetMask))
  else (0, 0, g.2.2.2.1, g.2.2.2.2)

/-- The sample block: (sampleId, sample flag, remaining mask). -/
def consumeSample (insn : Insn) (o : Nat × Nat × Nat × Nat) :
    Nat × Bool × Nat :=
  if o.2.2.2 &&& SampleMask ≠ 0 then
    (insn.word o.2.2.1, true, o.2.2.2 &&& (4294967295 - SampleMask))
  else (0, false, o.2.2.2)

/-- The `ImageInstruction` constructor: decode variant/method, the fixed
operands, and the optional-operand block indicated by the bitmask, consuming
bits in the order bias, lod, grad, const-offset, sample; the second component
is the leftover mask (nonzero means the fatal `UNSUPPORTED` condition). -/
def decodeImageInstructionCore (ctx : SpirvCtx) (insn : Insn)
    (position : Nat) : ImageInstruction × Nat :=
  let vm := parseVariantAndMethod insn
  let variant := vm.1
  let method := vm.2
  let resultId := insn.word 2
  let sampledImageId := insn.word 3
  let coordinateId := insn.word 4
  let coordinates :=
    ctx.componentCountOf coordinateId - (if variant.isProj then 1 else 0)
  let drefId := if variant.isDref then insn.word 5 else 0
  let gatherComponent :=
    if method = .Gather then
      if ¬variant.isDref then ctx.constantValueOf (insn.word 5) else 0
    else 0
  let m0 := getImageOperands insn
  let op0 := if variant.isDref || method == .Gather then 7 else 6
  let s2 := consumeLod insn (consumeBias insn m0 op0)
  let g := consumeGrad ctx insn s2
  let o := consumeConstOffset ctx insn g
  let sm := consumeSample insn o
  ({ variant := variant, samplerMethod := method, position := position
     resultId := resultId, sampledImageId := sampledImageId
     coordinateId := coordinateId, coordinates := coordinates
     drefId := drefId, gatherComponent := gatherComponent
     lodOrBiasId := s2.1, gradDxId := g.1, gradDyId := g.2.1
     offsetId := o.1, sampleId := sm.1, grad := g.2.2.1, offset := o.2.1
     sample := sm.2.1 }, sm.2.2)

/-- The `ImageInstruction` constructor's result: the decoded instruction, or
the leftover operand mask as the fatal `UNSUPPORTED` condition. -/
def decodeImageInstruction (ctx : SpirvCtx) (insn : Insn) (position : Nat) :
    Except Nat ImageInstruction :=
  let c := decodeImageInstructionCore ctx insn position
  if c.2 ≠ 0 then .error c.2 else .ok c.1

/-- The optional-operand parse at the top of `EmitImageRead`: consume a sample
operand at word 6 (mask at word 5) and tolerate zero/sign-extension flags; any
other leftover bit is the fatal `UNSUPPORTED` condition carrying the leftover
mask. -/
def readParseOperands (wordCount : Nat) (word : Nat → Nat) : Except Nat Nat :=
  if 5 < wordCount then
    let m0 := word 5
    let s : Nat × Nat :=
      if m0 &&& SampleMask ≠ 0 then (word 6, m0 &&& (4294967295 - SampleMask))
      else (0, m0)
    let m2 :=
      if s.2 &&& ZeroExtendMask ≠ 0 then s.2 &&& (4294967295 - ZeroExtendMask)
      else if s.2 &&& SignExtendMask ≠ 0 then
        s.2 &&& (4294967295 - SignExtendMask)
      else s.2
    if m2 ≠ 0 then .error m2 else .ok s.1
  else .ok 0

/-- One call-site slot of the sampler-routine cache. -/
structure SamplerCacheEntry where
  function : Nat
  imageDescriptor : Nat
  samplerId : Nat

/-- Inputs of `lookupSamplerFunction`: the current image descriptor pointer,
how the sampled-image operand was produced and typed, the descriptor-heap
reads, and the external routine compiler `getImageSampler`. -/
structure SamplerLookupInputs where
  imageDescriptor : Nat
  isOpSampledImage : Bool
  samplerPointer : Nat
  typeIsSampledImage : Bool
  readSamplerId : Nat → Nat
  readImageViewId : Nat → Nat
  readDevice : Nat → Nat
  instructionState : Nat
  getImageSampler : Nat → Nat → Nat → Nat → Nat

/-- `lookupSamplerFunction`: the single-slot per-call-site cache.  Returns the
updated cache slot, the routine, and whether the external compiler ran. -/
def lookupSamplerFunction (li : SamplerLookupInputs)
    (cache : SamplerCacheEntry) : SamplerCacheEntry × Nat × Bool :=
  let samplerDescriptor :=
    if li.isOpSampledImage then li.samplerPointer else li.imageDescriptor
  let samplerId0 := li.readSamplerId samplerDescriptor
  let samplerId := if li.typeIsSampledImage then samplerId0 else 0
  if cache.imageDescriptor = li.imageDescriptor ∧ cache.samplerId = samplerId
  then (cache, cache.function, false)
  else
    let fn := li.getImageSampler (li.readDevice li.imageDescriptor)
      li.instructionState samplerId (li.readImageViewId li.imageDescriptor)
    (⟨fn, li.imageDescriptor, samplerId⟩, fn, true)

/-- The sampler identity a `lookupSamplerFunction` invocation compares and
caches (0 for operands that are not of sampled-image type, e.g. a fetch). -/
def effectiveSamplerId (li : SamplerLookupInputs) : Nat :=
  if li.typeIsSampledImage then
    li.readSamplerId
      (if li.isOpSampledImage then li.samplerPointer else li.imageDescriptor)
  else 0

/-- The per-lane operand values `callSamplerFunction` marshals (one lane). -/
structure SamplerCallInputs where
  coordinates : Nat
  proj : Bool
  dref : Option ℚ
  coordinate : Nat → ℚ
  lodOrBias : Option ℚ
  grad : Option ((Nat → ℚ) × (Nat → ℚ) × Nat)
  isFetch : Bool
  offsetOperand : Option ((Nat → Nat) × Nat)
  sampleOperand : Option Nat

/-- The input-slot array `callSamplerFunction` fills before invoking the
compiled sampler routine (slots in order of the source's build loop). -/
def buildSamplerInput (ci : SamplerCallInputs) : List Chan :=
  ((List.range ci.coordinates).map fun i =>
      Chan.f
        (if ci.proj then ci.coordinate i / ci.coordinate ci.coordinates
         else ci.coordinate i)) ++
  (match ci.dref with
   | some d =>
       [Chan.f (if ci.proj then d / ci.coordinate ci.coordinates else d)]
   | none => []) ++
  (match ci.lodOrBias with
   | some l => [Chan.f l]
   | none =>
     match ci.grad with
     | some (dx, dy, n) =>
         ((List.range n).map fun j => Chan.f (dx j)) ++
         ((List.range n).map fun j => Chan.f (dy j))
     | none => if ci.isFetch then [Chan.raw 0] else []) ++
  (match ci.offsetOperand with
   | some (vals, n) => (List.range n).map fun j => Chan.raw (vals j)
   | none => []) ++
  (match ci.sampleOperand with
   | some s => [Chan.raw s]
   | none => [])

/-- Inputs of `GetImageDimensions`. -/
structure QueryInputs where
  resultCompCount : Nat
  isArrayed : Bool
  width : Nat
  height : Nat
  depth : Nat
  lod : Option (Lane → Nat)

/-- Signed 32-bit lane `Max`. -/
def imax32 (a b : Nat) : Nat := if toInt32 a ≤ toInt32 b then b else a

/-- `GetImageDimensions`: spatial dimensions (mip-shifted and floored at 1 when
an explicit level is given), with the layer count appended unshifted for
arrayed resources. -/
def GetImageDimensions (qi : QueryInputs) (c : Nat) (ln : Lane) : Nat :=
  let dimensions := qi.resultCompCount - (if qi.isArrayed then 1 else 0)
  if c < dimensions then
    let dv := if c = 0 then qi.width else if c = 1 then qi.height else qi.depth
    match qi.lod with
    | some lod => imax32 (sar32 dv (lod ln)) 1
    | none => dv
  else if c = dimensions ∧ qi.isArrayed then qi.depth
  else 0

/-- Data class of a format: floating-point-valued (normalized, sRGB, depth and
float formats) versus integer-valued (UINT/SINT/stencil formats). -/
inductive FmtClass where
  | floatClass | intClass
deriving DecidableEq

/-- The data class of each format. -/
def formatClass (fmt : VkFormat) : FmtClass :=
  match fmt with
  | R32G32B32A32_SINT | R32G32B32A32_UINT | R32_SINT | R32_UINT
  | R16G16B16A16_SINT | R16G16B16A16_UINT
  | R8G8B8A8_UINT | A8B8G8R8_UINT_PACK32 | R8G8B8A8_SINT
  | A8B8G8R8_SINT_PACK32 | R8_UINT | S8_UINT | R8_SINT
  | R8G8_UINT | R8G8_SINT | R16_UINT | R16_SINT | R16G16_UINT | R16G16_SINT
  | R32G32_SINT | R32G32_UINT
  | A2B10G10R10_UINT_PACK32 | A2R10G10B10_UINT_PACK32 => .intClass
  | _ => .floatClass

/-- How many channels each format physically stores. -/
def storedChannels (fmt : VkFormat) : Nat :=
  match fmt with
  | R32G32B32A32_SFLOAT | R32G32B32A32_SINT | R32G32B32A32_UINT
  | R16G16B16A16_UNORM | R16G16B16A16_SNORM | R16G16B16A16_SINT
  | R16G16B16A16_UINT | R16G16B16A16_SFLOAT
  | R8G8B8A8_SNORM | A8B8G8R8_SNORM_PACK32 | R8G8B8A8_UNORM
  | A8B8G8R8_UNORM_PACK32 | R8G8B8A8_SRGB | A8B8G8R8_SRGB_PACK32
  | B8G8R8A8_UNORM | B8G8R8A8_SRGB | R8G8B8A8_UINT | A8B8G8R8_UINT_PACK32
  | R8G8B8A8_SINT | A8B8G8R8_SINT_PACK32
  | A2B10G10R10_UINT_PACK32 | A2R10G10B10_UINT_PACK32
  | A2B10G10R10_UNORM_PACK32 | A2R10G10B10_UNORM_PACK32
  | R4G4B4A4_UNORM_PACK16 | B4G4R4A4_UNORM_PACK16 | A4R4G4B4_UNORM_PACK16
  | A4B4G4R4_UNORM_PACK16 | R5G5B5A1_UNORM_PACK16 | B5G5R5A1_UNORM_PACK16
  | A1R5G5B5_UNORM_PACK16 => 4
  | R5G6B5_UNORM_PACK16 | B5G6R5_UNORM_PACK16 | B10G11R11_UFLOAT_PACK32 => 3
  | R8G8_UNORM | R8G8_SNORM | R8G8_UINT | R8G8_SINT
  | R16G16_SFLOAT | R16G16_UNORM | R16G16_SNORM | R16G16_UINT | R16G16_SINT
  | R32G32_SINT | R32G32_UINT | R32G32_SFLOAT => 2
  | R32_SINT | R32_UINT | R32_SFLOAT | D32_SFLOAT | D32_SFLOAT_S8_UINT
  | D16_UNORM | R8_UNORM | R8_SNORM | R8_UINT | S8_UINT | R8_SINT
  | R16_SFLOAT | R16_UNORM | R16_SNORM | R16_UINT | R16_SINT => 1

/-- A missing channel's zero constant, typed by data class. -/
def padZero : FmtClass → Chan
  | .floatClass => .f 0
  | .intClass => .i 0

/-- A missing alpha channel's one constant, typed by data class. -/
def padOne : FmtClass → Chan
  | .floatClass => .f 1
  | .intClass => .i 1

/-- A channel holding an arbitrary 32-bit float pattern. -/
def repRaw32 (ch : Chan) : Prop := ∃ w, ch = .raw w ∧ w < 4294967296

/-- A channel holding a signed 32-bit integer. -/
def repI32 (ch : Chan) : Prop :=
  ∃ z, ch = .i z ∧ -2147483648 ≤ z ∧ z < 2147483648

/-- A channel holding an unsigned 32-bit integer. -/
def repU32 (ch : Chan) : Prop := ∃ n : Nat, ch = .u n ∧ n < 4294967296

/-- A channel holding an unsigned integer within a field's range. -/
def repUInt (ch : Chan) (K : Nat) : Prop := ∃ n : Nat, ch = .u n ∧ n ≤ K

/-- A channel holding a signed integer within a field's range. -/
def repSInt (ch : Chan) (lo hi : Int) : Prop :=
  ∃ z, ch = .i z ∧ lo ≤ z ∧ z ≤ hi

/-- A channel holding a float value in the unsigned-normalized range. -/
def repF01 (ch : Chan) : Prop := ∃ q, ch = .f q ∧ 0 ≤ q ∧ q ≤ 1

/-- A channel holding a float value in the signed-normalized range. -/
def repF11 (ch : Chan) : Prop := ∃ q, ch = .f q ∧ -1 ≤ q ∧ q ≤ 1

/-- A channel holding a float pattern exactly representable as binary16. -/
def repHalf (ch : Chan) : Prop :=
  ∃ h, IsFiniteHalf h ∧ ch = .raw (halfToFloatBits h)

/-- A channel exactly representable in the 11-bit unsigned-float field. -/
def repUF11 (ch : Chan) : Prop :=
  ∃ f, f < 2048 ∧ f >>> 6 &&& 31 ≠ 31 ∧ ch = .raw (halfToFloatBits (f <<< 4))

/-- A channel exactly representable in the 10-bit unsigned-float field. -/
def repUF10 (ch : Chan) : Prop :=
  ∃ f, f < 1024 ∧ f >>> 5 &&& 31 ≠ 31 ∧ ch = .raw (halfToFloatBits (f <<< 5))

/-- A four-channel value representable in a (writable) format: stored channels
within the format's representable range, with the value of each missing
channel at the pad value produced by the format's decoder. -/
def Rep (fmt : VkFormat) (v : Fin 4 → Chan) : Prop :=
  match fmt with
  | R32G32B32A32_SFLOAT => ∀ c, repRaw32 (v c)
  | R32G32B32A32_SINT => ∀ c, repI32 (v c)
  | R32G32B32A32_UINT => ∀ c, repU32 (v c)
  | R32_SFLOAT => repRaw32 (v 0) ∧ v 1 = .f 0 ∧ v 2 = .f 0 ∧ v 3 = .f 1
  | R32_SINT => repI32 (v 0) ∧ v 1 = .i 0 ∧ v 2 = .i 0 ∧ v 3 = .i 1
  | R32_UINT => repU32 (v 0) ∧ v 1 = .i 0 ∧ v 2 = .i 0 ∧ v 3 = .i 1
  | R8G8B8A8_UNORM => ∀ c, repF01 (v c)
  | R8G8B8A8_SNORM => ∀ c, repF11 (v c)
  | R8G8B8A8_UINT => ∀ c, repUInt (v c) 255
  | R8G8B8A8_SINT => ∀ c, repSInt (v c) (-128) 127
  | R16G16B16A16_UNORM => ∀ c, repF01 (v c)
  | R16G16B16A16_SNORM => ∀ c, repF11 (v c)
  | R16G16B16A16_UINT => ∀ c, repUInt (v c) 65535
  | R16G16B16A16_SINT => ∀ c, repSInt (v c) (-32768) 32767
  | R16G16B16A16_SFLOAT => ∀ c, repHalf (v c)
  | R32G32_SFLOAT =>
      repRaw32 (v 0) ∧ repRaw32 (v 1) ∧ v 2 = .f 0 ∧ v 3 = .f 1
  | R32G32_SINT => repI32 (v 0) ∧ repI32 (v 1) ∧ v 2 = .i 0 ∧ v 3 = .i 1
  | R32G32_UINT => repU32 (v 0) ∧ repU32 (v 1) ∧ v 2 = .i 0 ∧ v 3 = .i 1
  | R16G16_SFLOAT => repHalf (v 0) ∧ repHalf (v 1) ∧ v 2 = .f 0 ∧ v 3 = .f 1
  | R16G16_UNORM => repF01 (v 0) ∧ repF01 (v 1) ∧ v 2 = .f 0 ∧ v 3 = .f 1
  | R16G16_SNORM => repF11 (v 0) ∧ repF11 (v 1) ∧ v 2 = .f 0 ∧ v 3 = .f 1
  | R16G16_UINT =>
      repUInt (v 0) 65535 ∧ repUInt (v 1) 65535 ∧ v 2 = .i 0 ∧ v 3 = .i 1
  | R16G16_SINT =>
      repSInt (v 0) (-32768) 32767 ∧ repSInt (v 1) (-32768) 32767 ∧
      v 2 = .i 0 ∧ v 3 = .i 1
  | R8G8_UNORM => repF01 (v 0) ∧ repF01 (v 1) ∧ v 2 = .f 0 ∧ v 3 = .f 1
  | R8G8_SNORM => repF11 (v 0) ∧ repF11 (v 1) ∧ v 2 = .f 0 ∧ v 3 = .f 1
  | R8G8_UINT =>
      repUInt (v 0) 255 ∧ repUInt (v 1) 255 ∧ v 2 = .i 0 ∧ v 3 = .i 1
  | R8G8_SINT =>
      repSInt (v 0) (-128) 127 ∧ repSInt (v 1) (-128) 127 ∧
      v 2 = .i 0 ∧ v 3 = .i 1
  | R16_SFLOAT => repHalf (v 0) ∧ v 1 = .f 0 ∧ v 2 = .f 0 ∧ v 3 = .f 1
  | R16_UNORM => repF01 (v 0) ∧ v 1 = .f 0 ∧ v 2 = .f 0 ∧ v 3 = .f 1
  | R16_SNORM => repF11 (v 0) ∧ v 1 = .f 0 ∧ v 2 = .f 0 ∧ v 3 = .f 1
  | R16_UINT => repUInt (v 0) 65535 ∧ v 1 = .i 0 ∧ v 2 = .i 0 ∧ v 3 = .i 1
  | R16_SINT =>
      repSInt (v 0) (-32768) 32767 ∧ v 1 = .i 0 ∧ v 2 = .i 0 ∧ v 3 = .i 1
  | R8_UNORM => repF01 (v 0) ∧ v 1 = .f 0 ∧ v 2 = .f 0 ∧ v 3 = .f 1
  | R8_SNORM => repF11 (v 0) ∧ v 1 = .f 0 ∧ v 2 = .f 0 ∧ v 3 = .f 1
  | R8_UINT => repUInt (v 0) 255 ∧ v 1 = .i 0 ∧ v 2 = .i 0 ∧ v 3 = .i 1
  | R8_SINT =>
      repSInt (v 0) (-128) 127 ∧ v 1 = .i 0 ∧ v 2 = .i 0 ∧ v 3 = .i 1
  | A2B10G10R10_UNORM_PACK32 => ∀ c, repF01 (v c)
  | A2B10G10R10_UINT_PACK32 =>
      repUInt (v 0) 1023 ∧ repUInt (v 1) 1023 ∧ repUInt (v 2) 1023 ∧
      repUInt (v 3) 3
  | B10G11R11_UFLOAT_PACK32 =>
      repUF11 (v 0) ∧ repUF11 (v 1) ∧ repUF10 (v 2) ∧ v 3 = .f 1
  | _ => True

/-- Channels `a` and `b` are float-valued and within `tol` of each other. -/
def near (tol : ℚ) (a b : Chan) : Prop :=
  ∃ q q', a = .f q ∧ b = .f q' ∧ |q' - q| ≤ tol

/-- The format's documented round-trip precision: bit-exact for integer, raw
float and half/packed-float formats, within one unit in the last place of the
stored field for normalized formats. -/
def RoundTripClose (fmt : VkFormat) (v out : Fin 4 → Chan) : Prop :=
  match fmt with
  | R8G8B8A8_UNORM => ∀ c, near (1 / 255) (v c) (out c)
  | R8G8B8A8_SNORM => ∀ c, near (1 / 127) (v c) (out c)
  | R16G16B16A16_UNORM => ∀ c, near (1 / 65535) (v c) (out c)
  | R16G16B16A16_SNORM => ∀ c, near (1 / 32767) (v c) (out c)
  | A2B10G10R10_UNORM_PACK32 =>
      near (1 / 1023) (v 0) (out 0) ∧ near (1 / 1023) (v 1) (out 1) ∧
      near (1 / 1023) (v 2) (out 2) ∧ near (1 / 3) (v 3) (out 3)
  | R16G16_UNORM =>
      near (1 / 65535) (v 0) (out 0) ∧ near (1 / 65535) (v 1) (out 1) ∧
      out 2 = v 2 ∧ out 3 = v 3
  | R16G16_SNORM =>
      near (1 / 32767) (v 0) (out 0) ∧ near (1 / 32767) (v 1) (out 1) ∧
      out 2 = v 2 ∧ out 3 = v 3
  | R8G8_UNORM =>
      near (1 / 255) (v 0) (out 0) ∧ near (1 / 255) (v 1) (out 1) ∧
      out 2 = v 2 ∧ out 3 = v 3
  | R8G8_SNORM =>
      near (1 / 127) (v 0) (out 0) ∧ near (1 / 127) (v 1) (out 1) ∧
      out 2 = v 2 ∧ out 3 = v 3
  | R16_UNORM =>
      near (1 / 65535) (v 0) (out 0) ∧ out 1 = v 1 ∧ out 2 = v 2 ∧ out 3 = v 3
  | R16_SNORM =>
      near (1 / 32767) (v 0) (out 0) ∧ out 1 = v 1 ∧ out 2 = v 2 ∧ out 3 = v 3
  | R8_UNORM =>
      near (1 / 255) (v 0) (out 0) ∧ out 1 = v 1 ∧ out 2 = v 2 ∧ out 3 = v 3
  | R8_SNORM =>
      near (1 / 127) (v 0) (out 0) ∧ out 1 = v 1 ∧ out 2 = v 2 ∧ out 3 = v 3
  | R32G32B32A32_SFLOAT | R32G32B32A32_SINT | R32G32B32A32_UINT
  | R32_SFLOAT | R32_SINT | R32_UINT
  | R8G8B8A8_UINT | R8G8B8A8_SINT
  | R16G16B16A16_UINT | R16G16B16A16_SINT | R16G16B16A16_SFLOAT
  | R32G32_SFLOAT | R32G32_SINT | R32G32_UINT
  | R16G16_SFLOAT | R16G16_UINT | R16G16_SINT
  | R8G8_UINT | R8G8_SINT
  | R16_SFLOAT | R16_UINT | R16_SINT | R8_UINT | R8_SINT
  | A2B10G10R10_UINT_PACK32 | B10G11R11_UFLOAT_PACK32 => out = v
  | _ => True

theorem lor_shl_add (a b k : Nat) (ha : a < 2 ^ k) :
    a ||| b <<< k = a + b * 2 ^ k := by
  rw [Nat.shiftLeft_eq, Nat.lor_comm, Nat.mul_comm, ← Nat.mul_add_lt_is_or ha,
    Nat.mul_comm]
  omega

theorem and_mask_mod (x k : Nat) : x &&& (2 ^ k - 1) = x % 2 ^ k :=
  Nat.and_pow_two_sub_one_eq_mod x k

theorem shr_eq_div (x k : Nat) : x >>> k = x / 2 ^ k :=
  Nat.shiftRight_eq_div_pow x k

theorem shl_eq_mul (x k : Nat) : x <<< k = x * 2 ^ k :=
  Nat.shiftLeft_eq x k

theorem and_shl (x y k : Nat) : x &&& y <<< k = (x >>> k &&& y) <<< k := by
  apply Nat.eq_of_testBit_eq
  intro i
  rcases Nat.lt_or_ge i k with h | h
  · simp [Nat.testBit_and, Nat.testBit_shiftLeft, Nat.not_le.mpr h]
  · simp only [Nat.testBit_and, Nat.testBit_shiftLeft, Nat.testBit_shiftRight, h,
      decide_eq_true_eq, Bool.true_and, decide_True]
    rw [Nat.add_sub_cancel' h]

theorem toInt32_ofNat (w : Nat) (h : w < 2147483648) : toInt32 w = w := by
  simp [toInt32, h]

theorem ofInt32_toInt32 (w : Nat) (h : w < 4294967296) :
    ofInt32 (toInt32 w) = w := by
  unfold ofInt32 toInt32
  split <;> omega

theorem toInt32_ofInt32 (z : Int) (h1 : -2147483648 ≤ z) (h2 : z < 2147483648) :
    toInt32 (ofInt32 z) = z := by
  unfold ofInt32 toInt32
  split <;> omega


theorem lookupSamplerFunction_eq (li : SamplerLookupInputs)
    (cache : SamplerCacheEntry) :
    lookupSamplerFunction li cache =
      if cache.imageDescriptor = li.imageDescriptor ∧
          cache.samplerId = effectiveSamplerId li then
        (cache, cache.function, false)
      else
        (⟨li.getImageSampler (li.readDevice li.imageDescriptor)
            li.instructionState (effectiveSamplerId li)
            (li.readImageViewId li.imageDescriptor),
          li.imageDescriptor, effectiveSamplerId li⟩,
         li.getImageSampler (li.readDevice li.imageDescriptor)
            li.instructionState (effectiveSamplerId li)
            (li.readImageViewId li.imageDescriptor), true) := rfl

/-- Claim C5: the per-call-site sampler cache is a single slot keyed on the
(image descriptor, sampler identity) pair, the sampler identity being forced
to 0 for operands not of sampled-image type.  On a hit the cached routine is
returned without invoking the external compiler; on a miss the compiler runs
once and all three fields are overwritten; hence two consecutive invocations
with identical pairs never trigger a second resolution. -/
theorem C5_sampler_cache_law (li : SamplerLookupInputs)
    (cache : SamplerCacheEntry) :
    (cache.imageDescriptor = li.imageDescriptor ∧
        cache.samplerId = effectiveSamplerId li →
      lookupSamplerFunction li cache = (cache, cache.function, false)) ∧
    (¬(cache.imageDescriptor = li.imageDescriptor ∧
        cache.samplerId = effectiveSamplerId li) →
      lookupSamplerFunction li cache =
        (⟨li.getImageSampler (li.readDevice li.imageDescriptor)
            li.instructionState (effectiveSamplerId li)
            (li.readImageViewId li.imageDescriptor),
          li.imageDescriptor, effectiveSamplerId li⟩,
         li.getImageSampler (li.readDevice li.imageDescriptor)
            li.instructionState (effectiveSamplerId li)
            (li.readImageViewId li.imageDescriptor), true)) ∧
    (lookupSamplerFunction li (lookupSamplerFunction li cache).1).2.2 = false := by
  refine ⟨?_, ?_, ?_⟩
  · intro h
    rw [lookupSamplerFunction_eq, if_pos h]
  · intro h
    rw [lookupSamplerFunction_eq, if_neg h]
  · by_cases h : cache.imageDescriptor = li.imageDescriptor ∧
        cache.samplerId = effectiveSamplerId li
    · have h1 : (lookupSamplerFunction li cache).1 = cache := by
        rw [lookupSamplerFunction_eq, if_pos h]
      rw [h1, lookupSamplerFunction_eq, if_pos h]
    · have h1 : (lookupSamplerFunction li cache).1 =
          ⟨li.getImageSampler (li.readDevice li.imageDescriptor)
            li.instructionState (effectiveSamplerId li)
            (li.readImageViewId li.imageDescriptor),
          li.imageDescriptor, effectiveSamplerId li⟩ := by
        rw [lookupSamplerFunction_eq, if_neg h]
      rw [h1, lookupSamplerFunction_eq, if_pos ⟨rfl, rfl⟩]

/-- Witness for C5 at a concrete cache hit. -/
theorem C5_sampler_cache_law_witness :
    lookupSamplerFunction
      ⟨0, false, 0, false, fun _ => 0, fun _ => 0, fun _ => 0, 0,
        fun _ _ _ _ => 7⟩ ⟨5, 0, 0⟩ = (⟨5, 0, 0⟩, 5, false) :=
  (C5_sampler_cache_law _ _).1 ⟨rfl, rfl⟩

theorem sar32_small (x k : Nat) (hx : x < 2147483648) : sar32 x k = x >>> k :=
  if_pos hx

theorem imax32_one (x : Nat) (hx : x < 2147483648) : imax32 x 1 = max x 1 := by
  unfold imax32
  rw [toInt32_ofNat _ hx, toInt32_ofNat 1 (by norm_num)]
  split
  · rename_i h
    have h2 : x ≤ 1 := by exact_mod_cast h
    omega
  · rename_i h
    have h2 : ¬x ≤ 1 := fun hx2 => h (by exact_mod_cast hx2)
    omega

/-- Claim C9: the size queries read width, height and depth from the
descriptor; with an explicit lod each spatial dimension is `max (d >> lod) 1`,
without a lod the dimensions are returned unmodified, and for arrayed images
the layer count (the descriptor's depth field) is appended unshifted. -/
theorem C9_query_size_lod (qi : QueryInputs)
    (hw : qi.width < 2147483648) (hh : qi.height < 2147483648)
    (hd : qi.depth < 2147483648) :
    (∀ lod c ln, qi.lod = some lod →
      c < qi.resultCompCount - (if qi.isArrayed then 1 else 0) →
      GetImageDimensions qi c ln =
        max ((if c = 0 then qi.width else if c = 1 then qi.height
              else qi.depth) >>> lod ln) 1) ∧
    (qi.lod = none →
      ∀ c ln, c < qi.resultCompCount - (if qi.isArrayed then 1 else 0) →
      GetImageDimensions qi c ln =
        (if c = 0 then qi.width else if c = 1 then qi.height else qi.depth)) ∧
    (qi.isArrayed = true → ∀ ln,
      GetImageDimensions qi
        (qi.resultCompCount - (if qi.isArrayed then 1 else 0)) ln =
        qi.depth) := by
  refine ⟨?_, ?_, ?_⟩
  · intro lod c ln hl hc
    unfold GetImageDimensions
    rw [hl]
    simp only [hc, if_pos]
    have hdv : (if c = 0 then qi.width else if c = 1 then qi.height
        else qi.depth) < 2147483648 := by
      split
      · exact hw
      · split
        · exact hh
        · exact hd
    have h1 : (if c = 0 then qi.width else if c = 1 then qi.height
        else qi.depth) >>> lod ln < 2147483648 := by
      rw [Nat.shiftRight_eq_div_pow]
      exact Nat.lt_of_le_of_lt (Nat.div_le_self _ _) hdv
    rw [sar32_small _ _ hdv, imax32_one _ h1]
  · intro hl c ln hc
    unfold GetImageDimensions
    rw [hl]
    simp only [hc, if_pos]
  · intro ha ln
    unfold GetImageDimensions
    simp [ha]

/-- Witness for C9: a 16-wide 2D image queried at level 1. -/
theorem C9_query_size_lod_witness :
    GetImageDimensions ⟨3, false, 16, 8, 1, some fun _ => 1⟩ 0 0 = 8 := by
  have h := (C9_query_size_lod ⟨3, false, 16, 8, 1, some fun _ => 1⟩
    (by norm_num) (by norm_num) (by norm_num)).1 (fun _ => 1) 0 0 rfl
    (by norm_num)
  simpa using h

/-- Claim C7: for projective variants every coordinate slot passed to the
sampler routine, and the reference depth when present, holds the raw value
divided by the raw component at index `coordinates` (the trailing divisor,
excluded from the `coordinates` count); non-projective variants pass the raw
components unchanged. -/
theorem C7_projective_division (ci : SamplerCallInputs) :
    (∀ i, i < ci.coordinates →
      (buildSamplerInput ci)[i]? =
        some (.f (if ci.proj then ci.coordinate i / ci.coordinate ci.coordinates
                  else ci.coordinate i))) ∧
    (∀ d, ci.dref = some d →
      (buildSamplerInput ci)[ci.coordinates]? =
        some (.f (if ci.proj then d / ci.coordinate ci.coordinates else d))) ∧
    (∀ ctx insn pos instr,
      decodeImageInstruction ctx insn pos = .ok instr →
      instr.coordinates =
        ctx.componentCountOf (insn.word 4) -
          (if instr.variant.isProj then 1 else 0)) := by
  refine ⟨?_, ?_, ?_⟩
  · intro i hi
    unfold buildSamplerInput
    rw [List.append_assoc, List.append_assoc, List.append_assoc]
    rw [List.getElem?_append, if_pos (by simpa using hi)]
    simp [List.getElem?_range hi]
  · intro d hd
    unfold buildSamplerInput
    rw [hd, List.append_assoc, List.append_assoc, List.append_assoc]
    rw [List.getElem?_append_right (by simp)]
    simp
  · intro ctx insn pos instr h
    unfold decodeImageInstruction at h
    by_cases hz : (decodeImageInstructionCore ctx insn pos).2 ≠ 0
    · rw [if_pos hz] at h
      exact absurd h (by simp)
    · rw [if_neg hz] at h
      injection h with h2
      subst h2
      rfl

/-- Witness for C7: a two-component projective coordinate (1, 2) with
divisor 3. -/
theorem C7_projective_division_witness :
    (buildSamplerInput ⟨2, true, none, (fun i => (i : ℚ) + 1), none, none,
      false, none, none⟩)[0]? = some (.f (1 / 3)) := by
  have h := (C7_projective_division ⟨2, true, none, (fun i => (i : ℚ) + 1),
    none, none, false, none, none⟩).1 0 (by decide)
  rw [h]
  norm_num

/-- Claim C10: an image write computes its texel address with the stencil
aspect disabled and takes its base from the primary data pointer, so it never
depends on the stencil plane pointer or the stencil pitch triplet; the read
path selects the stencil plane exactly for `D32_SFLOAT_S8_UINT` images whose
sampled type is integer. -/
theorem C10_write_primary_plane_only :
    (∀ (wi : WriteInputs) (d' : StorageImageDescriptor),
      d'.ptr = wi.desc.ptr → d'.sizeInBytes = wi.desc.sizeInBytes →
      d'.width = wi.desc.width → d'.height = wi.desc.height →
      d'.depth = wi.desc.depth → d'.rowPitchBytes = wi.desc.rowPitchBytes →
      d'.slicePitchBytes = wi.desc.slicePitchBytes →
      d'.samplePitchBytes = wi.desc.samplePitchBytes →
      d'.sampleCount = wi.desc.sampleCount →
      EmitImageWrite { wi with desc := d' } = EmitImageWrite wi) ∧
    (∀ ri : ReadInputs,
      readUseStencil ri = true ↔
        ri.fmtIn = D32_SFLOAT_S8_UINT ∧ ri.sampledTypeIsInt = true) ∧
    (∀ ri : ReadInputs, readBase ri =
      if readUseStencil ri then ri.desc.stencilPtr else ri.desc.ptr) := by
  refine ⟨?_, ?_, ?_⟩
  · intro wi d' h1 h2 h3 h4 h5 h6 h7 h8 h9
    obtain ⟨rt, desc, dim, arr, cc, coord, so, fmt, texel, mem, mask⟩ := wi
    obtain ⟨p1, sp1, sz1, w1, hh1, dep1, rp1, slp1, smp1, srp1, ssp1, ssmp1,
      sc1⟩ := desc
    obtain ⟨p2, sp2, sz2, w2, hh2, dep2, rp2, slp2, smp2, srp2, ssp2, ssmp2,
      sc2⟩ := d'
    simp only at h1 h2 h3 h4 h5 h6 h7 h8 h9
    subst h1 h2 h3 h4 h5 h6 h7 h8 h9
    unfold EmitImageWrite
    cases henc : encodeTexel fmt (fun c => texel c 0) with
    | none => rfl
    | some r => rfl
  · intro ri
    unfold readUseStencil
    constructor
    · intro h
      have h1 := (Bool.and_eq_true _ _).mp h
      exact ⟨beq_iff_eq.mp h1.1, h1.2⟩
    · rintro ⟨h1, h2⟩
      simp [h1, h2]
  · intro ri
    rfl

/-- Witness for C10: a write is unchanged by altering the stencil pointer. -/
theorem C10_write_primary_plane_only_witness :
    EmitImageWrite
      { (⟨⟨fun _ => 0, fun _ => 0, 0⟩,
          ⟨0, 0, 64, 4, 4, 1, 16, 64, 0, 0, 0, 0, 1⟩, .dim2D, false, 2,
          fun _ _ => 0, none, R32_UINT, fun _ _ => .i 0, fun _ => 0,
          fun _ => false⟩ : WriteInputs) with
        desc := ⟨0, 99, 64, 4, 4, 1, 16, 64, 0, 0, 0, 0, 1⟩ } =
    EmitImageWrite
      ⟨⟨fun _ => 0, fun _ => 0, 0⟩,
        ⟨0, 0, 64, 4, 4, 1, 16, 64, 0, 0, 0, 0, 1⟩, .dim2D, false, 2,
        fun _ _ => 0, none, R32_UINT, fun _ _ => .i 0, fun _ => 0,
        fun _ => false⟩ :=
  C10_write_primary_plane_only.1 _ _ rfl rfl rfl rfl rfl rfl rfl rfl rfl

theorem cmpNLT32u_ne_zero (a b : Nat) : cmpNLT32u a b ≠ 0 ↔ b ≤ a := by
  unfold cmpNLT32u
  split <;> simp <;> omega

theorem lor_eq_zero_iff (x y : Nat) : x ||| y = 0 ↔ x = 0 ∧ y = 0 := by
  constructor
  · intro h
    constructor
    · exact Nat.eq_of_testBit_eq fun i => by
        have h2 := congrArg (fun n => Nat.testBit n i) h
        simp [Nat.testBit_or] at h2
        simp [h2.1]
    · exact Nat.eq_of_testBit_eq fun i => by
        have h2 := congrArg (fun n => Nat.testBit n i) h
        simp [Nat.testBit_or] at h2
        simp [h2.2]
  · rintro ⟨rfl, rfl⟩
    simp

theorem lor_ne_zero (x y : Nat) : x ||| y ≠ 0 ↔ x ≠ 0 ∨ y ≠ 0 := by
  rw [ne_eq, lor_eq_zero_iff]
  tauto

theorem cmpNLT32u_cases (a b : Nat) :
    cmpNLT32u a b = 0 ∨ cmpNLT32u a b = 4294967295 := by
  unfold cmpNLT32u
  split
  · exact Or.inl rfl
  · exact Or.inr rfl

theorem oobMask32_cases (a : AddrInputs) (ln : Lane) :
    oobMask32 a ln = 0 ∨ oobMask32 a ln = 4294967295 := by
  unfold oobMask32
  have step : ∀ x y : Nat, (x = 0 ∨ x = 4294967295) →
      (y = 0 ∨ y = 4294967295) → (x ||| y = 0 ∨ x ||| y = 4294967295) := by
    rintro x y (rfl | rfl) (rfl | rfl) <;> simp
  rcases a.sampleOp with _ | ⟨cz, v⟩ <;> simp only []
  · split_ifs <;>
      first
        | exact cmpNLT32u_cases _ _
        | exact step _ _ (cmpNLT32u_cases _ _) (cmpNLT32u_cases _ _)
        | exact step _ _ (step _ _ (cmpNLT32u_cases _ _) (cmpNLT32u_cases _ _))
            (cmpNLT32u_cases _ _)
  · split_ifs <;>
      first
        | exact cmpNLT32u_cases _ _
        | exact step _ _ (cmpNLT32u_cases _ _) (cmpNLT32u_cases _ _)
        | exact step _ _ (step _ _ (cmpNLT32u_cases _ _) (cmpNLT32u_cases _ _))
            (cmpNLT32u_cases _ _)
        | exact step _ _
            (step _ _ (step _ _ (cmpNLT32u_cases _ _) (cmpNLT32u_cases _ _))
              (cmpNLT32u_cases _ _)) (cmpNLT32u_cases _ _)

theorem texelOffsetRaw_lt (a : AddrInputs) (ln : Lane) :
    texelOffsetRaw a ln < 4294967296 := by
  have hM : (0 : Nat) < 4294967296 := by norm_num
  unfold texelOffsetRaw add32 mul32
  rcases a.sampleOp with _ | ⟨cz, v⟩ <;> simp only [] <;>
    split_ifs <;> exact Nat.mod_lt _ hM

theorem nullify_select (po m : Nat) (hpo : po < 4294967296)
    (hm : m = 0 ∨ m = 4294967295) :
    po &&& not32 m ||| m &&& OOB_OFFSET =
      if m = 0 then po else OOB_OFFSET := by
  rcases hm with rfl | rfl
  · have h1 : po &&& 4294967295 = po := by
      have h2 := and_mask_mod po 32
      norm_num at h2
      rw [h2]
      exact Nat.mod_eq_of_lt hpo
    simp [not32, h1]
  · have h1 : (4294967295 &&& 2147483631 : Nat) = 2147483631 := by decide
    simp [not32, OOB_OFFSET, h1]

theorem GetTexelAddress_nullify (a : AddrInputs) (ln : Lane) :
    GetTexelAddress a .Nullify ln =
      if oobMask32 a ln = 0 then texelOffsetRaw a ln else OOB_OFFSET := by
  unfold GetTexelAddress
  rw [if_pos rfl]
  exact nullify_select _ _ (texelOffsetRaw_lt a ln) (oobMask32_cases a ln)

/-- Claim C3: under the Nullify policy the out-of-bounds lane predicate is set
exactly when `u ≥ width`, or `v ≥ height` for images with more than one
dimension, or `w ≥ depth` (depth scaled by 6 for cube images) for images with
more than two dimensions or arrayed images, or the sample index is at least
the sample count when a non-statically-zero sample operand is present; lanes
with the predicate set receive the sentinel offset `0x7FFFFFFF - 16`, which is
at least the maximum supported allocation size, and all other lanes keep the
arithmetically computed offset. -/
theorem C3_oob_predicate_and_sentinel (a : AddrInputs) (ln : Lane) :
    (GetTexelAddress a .Nullify ln =
      if oobMask32 a ln = 0 then texelOffsetRaw a ln else OOB_OFFSET) ∧
    (oobMask32 a ln ≠ 0 ↔
      (a.desc.width ≤ texelU a ln ∨
       (1 < a.dims ∧ a.desc.height ≤ texelV a ln) ∨
       ((2 < a.dims ∨ a.arrayed = true) ∧
         (if a.dim = .dimCube then mul32 a.desc.depth 6 else a.desc.depth) ≤
           texelW a ln) ∨
       (∃ v, a.sampleOp = some (false, v) ∧ a.desc.sampleCount ≤ v ln))) ∧
    OOB_OFFSET = 0x7FFFFFFF - 16 ∧ MAX_MEMORY_ALLOCATION_SIZE ≤ OOB_OFFSET := by
  refine ⟨GetTexelAddress_nullify a ln, ?_, rfl, by decide⟩
  unfold oobMask32
  rcases hso : a.sampleOp with _ | ⟨cz, v⟩
  · simp only []
    split_ifs <;>
      simp_all [cmpNLT32u_ne_zero, lor_ne_zero] <;> first | tauto | omega
  · simp only []
    rcases cz with _ | _ <;>
      split_ifs <;>
        simp_all [cmpNLT32u_ne_zero, lor_ne_zero] <;> first | tauto | omega

/-- Claim C4 (amended): for non-subpass accesses, a lane whose out-of-bounds
predicate is clear gets the offset `u*texelSize`, plus `v*rowPitch` when the
dimensionality exceeds 1, plus `w*slicePitch` when the dimensionality exceeds
2 or the image is arrayed, plus `sampleIndex*samplePitch` for a
non-statically-zero sample operand, in 32-bit arithmetic; the stencil pitch
triplet is selected exactly when the stencil aspect is requested. -/
theorem C4_offset_formula_in_bounds (a : AddrInputs) (ln : Lane)
    (hsub : a.dim ≠ .dimSubpassData) (hin : oobMask32 a ln = 0) :
    GetTexelAddress a .Nullify ln =
      (texelU a ln * a.texelSize +
       (if 1 < a.dims then texelV a ln * selRowPitch a else 0) +
       (if 2 < a.dims ∨ a.arrayed = true then texelW a ln * selSlicePitch a
        else 0) +
       (match a.sampleOp with
        | some (cz, v) => if cz then 0 else v ln * selSamplePitch a
        | none => 0)) % 4294967296 ∧
    selRowPitch a = (if a.useStencilAspect then a.desc.stencilRowPitchBytes
      else a.desc.rowPitchBytes) ∧
    selSlicePitch a = (if a.useStencilAspect then a.desc.stencilSlicePitchBytes
      else a.desc.slicePitchBytes) ∧
    selSamplePitch a =
      (if a.useStencilAspect then a.desc.stencilSamplePitchBytes
       else a.desc.samplePitchBytes) := by
  refine ⟨?_, rfl, rfl, rfl⟩
  rw [GetTexelAddress_nullify, if_pos hin]
  unfold texelOffsetRaw add32 mul32
  simp only []
  rw [if_neg hsub]
  rcases a.sampleOp with _ | ⟨cz, v⟩
  · simp only []
    split_ifs <;>
      · generalize texelU a ln * a.texelSize = A
        generalize texelV a ln * selRowPitch a = B
        generalize texelW a ln * selSlicePitch a = C
        omega
  · simp only []
    rcases cz with _ | _ <;> split_ifs <;>
      · generalize texelU a ln * a.texelSize = A
        generalize texelV a ln * selRowPitch a = B
        generalize texelW a ln * selSlicePitch a = C
        generalize v ln * selSamplePitch a = D
        omega

/-- Counterexample for C4 as stated: an out-of-bounds lane (u = 5 on a 4-wide
image) receives the sentinel, not the arithmetic formula `u*texelSize +
v*rowPitch`. -/
theorem C4_counterexample_oob_sentinel :
    GetTexelAddress
      ⟨⟨fun _ => 0, fun _ => 0, 0⟩, ⟨0, 0, 64, 4, 4, 1, 16, 64, 0, 0, 0, 0, 1⟩,
        .dim2D, false, 2, (fun j _ => if j = 0 then 5 else 0), 4, none, false⟩
      .Nullify 0 ≠
    (5 * 4 + 0 * 16) % 4294967296 := by decide

/-- Witness for C4 at an in-bounds lane (u = 1, v = 0). -/
theorem C4_offset_formula_witness :
    GetTexelAddress
      ⟨⟨fun _ => 0, fun _ => 0, 0⟩, ⟨0, 0, 64, 4, 4, 1, 16, 64, 0, 0, 0, 0, 1⟩,
        .dim2D, false, 2, (fun j _ => if j = 0 then 1 else 0), 4, none, false⟩
      .Nullify 0 = 4 := by
  have h := (C4_offset_formula_in_bounds
    ⟨⟨fun _ => 0, fun _ => 0, 0⟩, ⟨0, 0, 64, 4, 4, 1, 16, 64, 0, 0, 0, 0, 1⟩,
      .dim2D, false, 2, (fun j _ => if j = 0 then 1 else 0), 4, none, false⟩
    0 (by decide) (by decide)).1
  rw [h]
  decide

theorem and_clear_noop (m bit C : Nat) (hm : m < 4294967296)
    (hsplit : C ||| bit = 4294967295) (h : m &&& bit = 0) : m &&& C = m := by
  have hfull : m &&& 4294967295 = m := by
    have h2 := and_mask_mod m 32
    norm_num at h2
    rw [h2]
    exact Nat.mod_eq_of_lt hm
  calc m &&& C = m &&& C ||| m &&& bit := by rw [h]; simp
    _ = m &&& (C ||| bit) := (Nat.and_or_distrib_left m C bit).symm
    _ = m := by rw [hsplit, hfull]

theorem consumeBias_mask (insn : Insn) (m op : Nat) (hm : m < 4294967296) :
    (consumeBias insn m op).2.2 = m &&& (4294967295 - BiasMask) := by
  unfold consumeBias
  split
  · rfl
  · rename_i h
    simp only [ne_eq, not_not] at h
    exact (and_clear_noop m BiasMask _ hm (by decide) h).symm

theorem consumeLod_mask (insn : Insn) (s : Nat × Nat × Nat)
    (hm : s.2.2 < 4294967296) :
    (consumeLod insn s).2.2 = s.2.2 &&& (4294967295 - LodMask) := by
  unfold consumeLod
  split
  · rfl
  · rename_i h
    simp only [ne_eq, not_not] at h
    exact (and_clear_noop s.2.2 LodMask _ hm (by decide) h).symm

theorem consumeGrad_mask (ctx : SpirvCtx) (insn : Insn) (s : Nat × Nat × Nat)
    (hm : s.2.2 < 4294967296) :
    (consumeGrad ctx insn s).2.2.2.2 = s.2.2 &&& (4294967295 - GradMask) := by
  unfold consumeGrad
  split
  · rfl
  · rename_i h
    simp only [ne_eq, not_not] at h
    exact (and_clear_noop s.2.2 GradMask _ hm (by decide) h).symm

theorem consumeConstOffset_mask (ctx : SpirvCtx) (insn : Insn)
    (g : Nat × Nat × Nat × Nat × Nat) (hm : g.2.2.2.2 < 4294967296) :
    (consumeConstOffset ctx insn g).2.2.2 =
      g.2.2.2.2 &&& (4294967295 - ConstOffsetMask) := by
  unfold consumeConstOffset
  split
  · rfl
  · rename_i h
    simp only [ne_eq, not_not] at h
    exact (and_clear_noop g.2.2.2.2 ConstOffsetMask _ hm (by decide) h).symm

theorem consumeSample_mask (insn : Insn) (o : Nat × Nat × Nat × Nat)
    (hm : o.2.2.2 < 4294967296) :
    (consumeSample insn o).2.2 = o.2.2.2 &&& (4294967295 - SampleMask) := by
  unfold consumeSample
  split
  · rfl
  · rename_i h
    simp only [ne_eq, not_not] at h
    exact (and_clear_noop o.2.2.2 SampleMask _ hm (by decide) h).symm

theorem consumeBias_le (insn : Insn) (m op : Nat) :
    (consumeBias insn m op).2.2 ≤ m := by
  unfold consumeBias
  split
  · exact Nat.and_le_left
  · exact le_refl m

theorem consumeLod_le (insn : Insn) (s : Nat × Nat × Nat) :
    (consumeLod insn s).2.2 ≤ s.2.2 := by
  unfold consumeLod
  split
  · exact Nat.and_le_left
  · exact le_refl _

theorem consumeGrad_le (ctx : SpirvCtx) (insn : Insn) (s : Nat × Nat × Nat) :
    (consumeGrad ctx insn s).2.2.2.2 ≤ s.2.2 := by
  unfold consumeGrad
  split
  · exact Nat.and_le_left
  · exact le_refl _

theorem consumeConstOffset_le (ctx : SpirvCtx) (insn : Insn)
    (g : Nat × Nat × Nat × Nat × Nat) :
    (consumeConstOffset ctx insn g).2.2.2 ≤ g.2.2.2.2 := by
  unfold consumeConstOffset
  split
  · exact Nat.and_le_left
  · exact le_refl _

theorem core_leftover (ctx : SpirvCtx) (insn : Insn) (pos : Nat)
    (hm : getImageOperands insn < 4294967296) :
    (decodeImageInstructionCore ctx insn pos).2 =
      getImageOperands insn &&& 4294967216 := by
  have hb := consumeBias_le insn (getImageOperands insn)
    (if (parseVariantAndMethod insn).1.isDref ||
        (parseVariantAndMethod insn).2 == .Gather then 7 else 6)
  have hl := consumeLod_le insn (consumeBias insn (getImageOperands insn)
    (if (parseVariantAndMethod insn).1.isDref ||
        (parseVariantAndMethod insn).2 == .Gather then 7 else 6))
  have hg := consumeGrad_le ctx insn (consumeLod insn
    (consumeBias insn (getImageOperands insn)
      (if (parseVariantAndMethod insn).1.isDref ||
          (parseVariantAndMethod insn).2 == .Gather then 7 else 6)))
  have ho := consumeConstOffset_le ctx insn (consumeGrad ctx insn
    (consumeLod insn (consumeBias insn (getImageOperands insn)
      (if (parseVariantAndMethod insn).1.isDref ||
          (parseVariantAndMethod insn).2 == .Gather then 7 else 6))))
  show (consumeSample insn (consumeConstOffset ctx insn (consumeGrad ctx insn
    (consumeLod insn (consumeBias insn (getImageOperands insn)
      (if (parseVariantAndMethod insn).1.isDref ||
          (parseVariantAndMethod insn).2 == .Gather then 7 else 6)))))).2.2 =
    getImageOperands insn &&& 4294967216
  rw [consumeSample_mask _ _ (by omega), consumeConstOffset_mask _ _ _ (by omega),
    consumeGrad_mask _ _ _ (by omega), consumeLod_mask _ _ (by omega),
    consumeBias_mask _ _ _ (by omega)]
  simp only [BiasMask, LodMask, GradMask, ConstOffsetMask, SampleMask]
  rw [Nat.and_assoc, Nat.and_assoc, Nat.and_assoc, Nat.and_assoc]
  congr 1


theorem consumeBias_fst (insn : Insn) (m op : Nat) :
    (consumeBias insn m op).1 =
      if m &&& BiasMask ≠ 0 then insn.word op else 0 := by
  unfold consumeBias
  split <;> rfl

theorem consumeBias_pos (insn : Insn) (m op : Nat) :
    (consumeBias insn m op).2.1 =
      op + (if m &&& BiasMask ≠ 0 then 1 else 0) := by
  unfold consumeBias
  split <;> simp

theorem maskTest (x C bit : Nat) (hC : C &&& bit = bit) :
    (x &&& C) &&& bit = x &&& bit := by
  rw [Nat.and_assoc, hC]

theorem consumeBias_test (insn : Insn) (m op bit : Nat)
    (hm : m < 4294967296) (hbit : (4294967295 - BiasMask) &&& bit = bit) :
    (consumeBias insn m op).2.2 &&& bit = m &&& bit := by
  rw [consumeBias_mask insn m op hm, maskTest _ _ _ hbit]

theorem consumeLod_fst (insn : Insn) (s : Nat × Nat × Nat) :
    (consumeLod insn s).1 =
      if s.2.2 &&& LodMask ≠ 0 then insn.word s.2.1 else s.1 := by
  unfold consumeLod
  split <;> rfl

theorem consumeLod_pos (insn : Insn) (s : Nat × Nat × Nat) :
    (consumeLod insn s).2.1 =
      s.2.1 + (if s.2.2 &&& LodMask ≠ 0 then 1 else 0) := by
  unfold consumeLod
  split <;> simp

theorem consumeLod_test (insn : Insn) (s : Nat × Nat × Nat) (bit : Nat)
    (hm : s.2.2 < 4294967296) (hbit : (4294967295 - LodMask) &&& bit = bit) :
    (consumeLod insn s).2.2 &&& bit = s.2.2 &&& bit := by
  rw [consumeLod_mask insn s hm, maskTest _ _ _ hbit]

theorem consumeGrad_fst (ctx : SpirvCtx) (insn : Insn) (s : Nat × Nat × Nat) :
    (consumeGrad ctx insn s).1 =
      if s.2.2 &&& GradMask ≠ 0 then insn.word s.2.1 else 0 := by
  unfold consumeGrad
  split <;> rfl

theorem consumeGrad_snd (ctx : SpirvCtx) (insn : Insn) (s : Nat × Nat × Nat) :
    (consumeGrad ctx insn s).2.1 =
      if s.2.2 &&& GradMask ≠ 0 then insn.word (s.2.1 + 1) else 0 := by
  unfold consumeGrad
  split <;> rfl

theorem consumeGrad_pos (ctx : SpirvCtx) (insn : Insn) (s : Nat × Nat × Nat) :
    (consumeGrad ctx insn s).2.2.2.1 =
      s.2.1 + (if s.2.2 &&& GradMask ≠ 0 then 2 else 0) := by
  unfold consumeGrad
  split <;> simp

theorem consumeGrad_test (ctx : SpirvCtx) (insn : Insn) (s : Nat × Nat × Nat)
    (bit : Nat) (hm : s.2.2 < 4294967296)
    (hbit : (4294967295 - GradMask) &&& bit = bit) :
    (consumeGrad ctx insn s).2.2.2.2 &&& bit = s.2.2 &&& bit := by
  rw [consumeGrad_mask ctx insn s hm, maskTest _ _ _ hbit]

theorem consumeConstOffset_fst (ctx : SpirvCtx) (insn : Insn)
    (g : Nat × Nat × Nat × Nat × Nat) :
    (consumeConstOffset ctx insn g).1 =
      if g.2.2.2.2 &&& ConstOffsetMask ≠ 0 then insn.word g.2.2.2.1
      else 0 := by
  unfold consumeConstOffset
  split <;> rfl

theorem consumeConstOffset_pos (ctx : SpirvCtx) (insn : Insn)
    (g : Nat × Nat × Nat × Nat × Nat) :
    (consumeConstOffset ctx insn g).2.2.1 =
      g.2.2.2.1 + (if g.2.2.2.2 &&& ConstOffsetMask ≠ 0 then 1 else 0) := by
  unfold consumeConstOffset
  split <;> simp

theorem consumeConstOffset_test (ctx : SpirvCtx) (insn : Insn)
    (g : Nat × Nat × Nat × Nat × Nat) (bit : Nat)
    (hm : g.2.2.2.2 < 4294967296)
    (hbit : (4294967295 - ConstOffsetMask) &&& bit = bit) :
    (consumeConstOffset ctx insn g).2.2.2 &&& bit = g.2.2.2.2 &&& bit := by
  rw [consumeConstOffset_mask ctx insn g hm, maskTest _ _ _ hbit]

theorem consumeSample_fst (insn : Insn) (o : Nat × Nat × Nat × Nat) :
    (consumeSample insn o).1 =
      if o.2.2.2 &&& SampleMask ≠ 0 then insn.word o.2.2.1 else 0 := by
  unfold consumeSample
  split <;> rfl

theorem consumeSample_flag (insn : Insn) (o : Nat × Nat × Nat × Nat) :
    (consumeSample insn o).2.1 = decide (o.2.2.2 &&& SampleMask ≠ 0) := by
  unfold consumeSample
  split <;> simp_all


theorem rpo_leftover (wc : Nat) (word : Nat → Nat) (h5 : 5 < wc)
    (hbits : word 5 &&& 4294954943 ≠ 0) :
    ∃ e, readParseOperands wc word = .error e ∧ e ≠ 0 ∧
      e &&& 4294954943 = word 5 &&& 4294954943 := by
  unfold readParseOperands
  rw [if_pos h5]
  simp only []
  split_ifs with hs hz hz' hz2 hz3 hz4 hz5 hz6 hz7 hz8 hz9
  · exact ⟨_, rfl, hz',
      by rw [maskTest _ _ _ (by decide), maskTest _ _ _ (by decide)]⟩
  · refine absurd ?_ hbits
    have hx := not_ne_iff.mp hz'
    calc word 5 &&& 4294954943
        = ((word 5 &&& (4294967295 - SampleMask)) &&&
            (4294967295 - ZeroExtendMask)) &&& 4294954943 := by
          rw [maskTest _ _ _ (by decide), maskTest _ _ _ (by decide)]
      _ = 0 := by rw [hx]; exact Nat.zero_and _
  · exact ⟨_, rfl, hz3,
      by rw [maskTest _ _ _ (by decide), maskTest _ _ _ (by decide)]⟩
  · refine absurd ?_ hbits
    have hx := not_ne_iff.mp hz3
    calc word 5 &&& 4294954943
        = ((word 5 &&& (4294967295 - SampleMask)) &&&
            (4294967295 - SignExtendMask)) &&& 4294954943 := by
          rw [maskTest _ _ _ (by decide), maskTest _ _ _ (by decide)]
      _ = 0 := by rw [hx]; exact Nat.zero_and _
  · exact ⟨_, rfl, hz4, by rw [maskTest _ _ _ (by decide)]⟩
  · refine absurd ?_ hbits
    have hx : word 5 &&& (4294967295 - SampleMask) = 0 := not_ne_iff.mp hz4
    calc word 5 &&& 4294954943
        = (word 5 &&& (4294967295 - SampleMask)) &&& 4294954943 := by
          rw [maskTest _ _ _ (by decide)]
      _ = 0 := by rw [hx]; exact Nat.zero_and _
  · exact ⟨_, rfl, hz6, by rw [maskTest _ _ _ (by decide)]⟩
  · refine absurd ?_ hbits
    have hx := not_ne_iff.mp hz6
    calc word 5 &&& 4294954943
        = (word 5 &&& (4294967295 - ZeroExtendMask)) &&& 4294954943 := by
          rw [maskTest _ _ _ (by decide)]
      _ = 0 := by rw [hx]; exact Nat.zero_and _
  · exact ⟨_, rfl, hz8, by rw [maskTest _ _ _ (by decide)]⟩
  · refine absurd ?_ hbits
    have hx := not_ne_iff.mp hz8
    calc word 5 &&& 4294954943
        = (word 5 &&& (4294967295 - SignExtendMask)) &&& 4294954943 := by
          rw [maskTest _ _ _ (by decide)]
      _ = 0 := by rw [hx]; exact Nat.zero_and _
  · exact ⟨_, rfl, hz9, rfl⟩
  · refine absurd ?_ hbits
    have hx : word 5 = 0 := not_ne_iff.mp hz9
    rw [hx]
    exact Nat.zero_and _

/-- Claim C8: `ImageInstruction` decoding consumes the optional operands in
the fixed order bias, lod, grad dx/dy, constant offset, sample, starting at
word 7 for dref/gather forms and word 6 otherwise; a nonzero leftover mask is
a fatal error carrying the leftover value, and likewise `EmitImageRead`'s own
operand parse rejects unrecognized bits, carrying them in the error. -/
theorem C8_operand_decoding (ctx : SpirvCtx) (insn : Insn) (pos : Nat)
    (m op0 : Nat) (hm : m < 4294967296)
    (hmdef : m = getImageOperands insn)
    (hop : op0 = if (parseVariantAndMethod insn).1.isDref ||
        (parseVariantAndMethod insn).2 == SamplerMethod.Gather then 7 else 6) :
    (∀ e, decodeImageInstruction ctx insn pos = .error e ↔
        e = m &&& 4294967216 ∧ e ≠ 0) ∧
    (∀ instr, decodeImageInstruction ctx insn pos = .ok instr →
      m &&& 4294967216 = 0 ∧
      instr.lodOrBiasId =
        (if m &&& LodMask ≠ 0 then
          insn.word (op0 + (if m &&& BiasMask ≠ 0 then 1 else 0))
         else if m &&& BiasMask ≠ 0 then insn.word op0 else 0) ∧
      instr.gradDxId =
        (if m &&& GradMask ≠ 0 then
          insn.word (op0 + (if m &&& BiasMask ≠ 0 then 1 else 0) +
            (if m &&& LodMask ≠ 0 then 1 else 0)) else 0) ∧
      instr.gradDyId =
        (if m &&& GradMask ≠ 0 then
          insn.word (op0 + (if m &&& BiasMask ≠ 0 then 1 else 0) +
            (if m &&& LodMask ≠ 0 then 1 else 0) + 1) else 0) ∧
      instr.offsetId =
        (if m &&& ConstOffsetMask ≠ 0 then
          insn.word (op0 + (if m &&& BiasMask ≠ 0 then 1 else 0) +
            (if m &&& LodMask ≠ 0 then 1 else 0) +
            (if m &&& GradMask ≠ 0 then 2 else 0)) else 0) ∧
      instr.sampleId =
        (if m &&& SampleMask ≠ 0 then
          insn.word (op0 + (if m &&& BiasMask ≠ 0 then 1 else 0) +
            (if m &&& LodMask ≠ 0 then 1 else 0) +
            (if m &&& GradMask ≠ 0 then 2 else 0) +
            (if m &&& ConstOffsetMask ≠ 0 then 1 else 0)) else 0) ∧
      instr.sample = decide (m &&& SampleMask ≠ 0)) ∧
    (∀ wc word, 5 < wc → word 5 &&& 4294954943 ≠ 0 →
      ∃ e, readParseOperands wc word = .error e ∧ e ≠ 0 ∧
        e &&& 4294954943 = word 5 &&& 4294954943) := by
  obtain rfl : m = getImageOperands insn := hmdef
  have hcl := core_leftover ctx insn pos hm
  refine ⟨?_, ?_, fun wc word h5 hb => rpo_leftover wc word h5 hb⟩
  · intro e
    unfold decodeImageInstruction
    by_cases hz : (decodeImageInstructionCore ctx insn pos).2 ≠ 0
    · rw [if_pos hz]
      constructor
      · intro h
        injection h with h2
        subst h2
        exact ⟨hcl.symm ▸ rfl, hz⟩
      · rintro ⟨rfl, hne⟩
        rw [hcl]
    · rw [if_neg hz]
      constructor
      · intro h
        exact absurd h (by simp)
      · rintro ⟨rfl, hne⟩
        rw [← hcl] at hne
        exact absurd (by omega : (decodeImageInstructionCore ctx insn pos).2 = 0)
          (by omega)
  · intro instr h
    unfold decodeImageInstruction at h
    by_cases hz : (decodeImageInstructionCore ctx insn pos).2 ≠ 0
    · rw [if_pos hz] at h
      exact absurd h (by simp)
    · rw [if_neg hz] at h
      injection h with h2
      subst h2
      simp only [ne_eq, not_not] at hz
      subst hop
      have hb1 : (consumeBias insn (getImageOperands insn)
          (if (parseVariantAndMethod insn).1.isDref ||
            (parseVariantAndMethod insn).2 == SamplerMethod.Gather then 7
           else 6)).2.2 < 4294967296 :=
        lt_of_le_of_lt (consumeBias_le _ _ _) hm
      have hb2 : (consumeLod insn (consumeBias insn (getImageOperands insn)
          (if (parseVariantAndMethod insn).1.isDref ||
            (parseVariantAndMethod insn).2 == SamplerMethod.Gather then 7
           else 6))).2.2 < 4294967296 :=
        lt_of_le_of_lt (consumeLod_le _ _) hb1
      have hb3 : (consumeGrad ctx insn
          (consumeLod insn (consumeBias insn (getImageOperands insn)
          (if (parseVariantAndMethod insn).1.isDref ||
            (parseVariantAndMethod insn).2 == SamplerMethod.Gather then 7
           else 6)))).2.2.2.2 < 4294967296 :=
        lt_of_le_of_lt (consumeGrad_le _ _ _) hb2
      refine ⟨by rw [← hcl]; exact hz, ?_, ?_, ?_, ?_, ?_, ?_⟩
      · show (consumeLod insn (consumeBias insn (getImageOperands insn) _)).1 = _
        rw [consumeLod_fst, consumeBias_test _ _ _ LodMask hm (by decide),
          consumeBias_fst, consumeBias_pos]
      · show (consumeGrad ctx insn (consumeLod insn
          (consumeBias insn (getImageOperands insn) _))).1 = _
        rw [consumeGrad_fst, consumeLod_test _ _ GradMask hb1 (by decide),
          consumeBias_test _ _ _ GradMask hm (by decide), consumeLod_pos,
          consumeBias_test _ _ _ LodMask hm (by decide), consumeBias_pos]
      · show (consumeGrad ctx insn (consumeLod insn
          (consumeBias insn (getImageOperands insn) _))).2.1 = _
        rw [consumeGrad_snd, consumeLod_test _ _ GradMask hb1 (by decide),
          consumeBias_test _ _ _ GradMask hm (by decide), consumeLod_pos,
          consumeBias_test _ _ _ LodMask hm (by decide), consumeBias_pos]
      · show (consumeConstOffset ctx insn (consumeGrad ctx insn (consumeLod insn
          (consumeBias insn (getImageOperands insn) _)))).1 = _
        rw [consumeConstOffset_fst,
          consumeGrad_test _ _ _ ConstOffsetMask hb2 (by decide),
          consumeLod_test _ _ ConstOffsetMask hb1 (by decide),
          consumeBias_test _ _ _ ConstOffsetMask hm (by decide),
          consumeGrad_pos, consumeLod_test _ _ GradMask hb1 (by decide),
          consumeBias_test _ _ _ GradMask hm (by decide), consumeLod_pos,
          consumeBias_test _ _ _ LodMask hm (by decide), consumeBias_pos]
      · show (consumeSample insn (consumeConstOffset ctx insn
          (consumeGrad ctx insn (consumeLod insn
            (consumeBias insn (getImageOperands insn) _))))).1 = _
        rw [consumeSample_fst,
          consumeConstOffset_test _ _ _ SampleMask hb3 (by decide),
          consumeGrad_test _ _ _ SampleMask hb2 (by decide),
          consumeLod_test _ _ SampleMask hb1 (by decide),
          consumeBias_test _ _ _ SampleMask hm (by decide),
          consumeConstOffset_pos,
          consumeGrad_test _ _ _ ConstOffsetMask hb2 (by decide),
          consumeLod_test _ _ ConstOffsetMask hb1 (by decide),
          consumeBias_test _ _ _ ConstOffsetMask hm (by decide),
          consumeGrad_pos, consumeLod_test _ _ GradMask hb1 (by decide),
          consumeBias_test _ _ _ GradMask hm (by decide), consumeLod_pos,
          consumeBias_test _ _ _ LodMask hm (by decide), consumeBias_pos]
      · show (consumeSample insn (consumeConstOffset ctx insn
          (consumeGrad ctx insn (consumeLod insn
            (consumeBias insn (getImageOperands insn) _))))).2.1 = _
        rw [consumeSample_flag,
          consumeConstOffset_test _ _ _ SampleMask hb3 (by decide),
          consumeGrad_test _ _ _ SampleMask hb2 (by decide),
          consumeLod_test _ _ SampleMask hb1 (by decide),
          consumeBias_test _ _ _ SampleMask hm (by decide)]

theorem C8_operand_decoding_witness :
    (2 : Nat) < 4294967296 ∧
    (2 : Nat) = getImageOperands ⟨.sampleExplicitLod, 8,
      fun i => if i = 5 then 2 else 40 + i⟩ ∧
    ∀ e, decodeImageInstruction ⟨fun _ => 3, fun _ => 0⟩
        ⟨.sampleExplicitLod, 8, fun i => if i = 5 then 2 else 40 + i⟩ 0 =
          .error e ↔ e = 2 &&& 4294967216 ∧ e ≠ 0 :=
  ⟨by decide, by decide,
   (C8_operand_decoding ⟨fun _ => 3, fun _ => 0⟩
      ⟨.sampleExplicitLod, 8, fun i => if i = 5 then 2 else 40 + i⟩ 0 2 6
      (by decide) (by decide) (by decide)).1⟩

/-- Claim C6: decoding a format with fewer than four stored channels yields
channel 3 (alpha) equal to one and every other missing channel equal to zero
(the r channel is always stored, so the other possibly-missing channels are 1
and 2), with the constants typed by the format data class (float for
normalized, sRGB, depth and float formats; integer for UINT/SINT/stencil
formats). -/
theorem C6_missing_channel_padding (pow24 : ℚ → ℚ) (fmt : VkFormat)
    (p : Fin 4 → Nat) (h : storedChannels fmt < 4) :
    decodeTexel pow24 fmt p 3 = padOne (formatClass fmt) ∧
    (storedChannels fmt ≤ 1 → decodeTexel pow24 fmt p 1 = padZero (formatClass fmt)) ∧
    (storedChannels fmt ≤ 2 → decodeTexel pow24 fmt p 2 = padZero (formatClass fmt)) := by
  cases fmt
  all_goals try exact absurd h (by decide)
  all_goals try exact ⟨rfl, fun hh => absurd hh (by decide), fun hh => absurd hh (by decide)⟩
  all_goals try exact ⟨rfl, fun hh => absurd hh (by decide), fun hh => rfl⟩
  all_goals exact ⟨rfl, fun hh => rfl, fun hh => rfl⟩

theorem C6_missing_channel_padding_witness :
    storedChannels VkFormat.R8_UNORM < 4 ∧
    decodeTexel id VkFormat.R8_UNORM (fun _ => 7) 3 =
      padOne (formatClass VkFormat.R8_UNORM) :=
  ⟨by decide,
   (C6_missing_channel_padding id VkFormat.R8_UNORM (fun _ => 7) (by decide)).1⟩

theorem formatBytes_le (fmt : VkFormat) : formatBytes fmt ≤ 16 := by
  cases fmt <;> decide

theorem encodeTexel_ts_le (fmt : VkFormat) (t : Fin 4 → Chan) (ts : Nat)
    (w : Fin 4 → Nat) (h : encodeTexel fmt t = some (ts, w)) : ts ≤ 16 := by
  cases fmt <;> simp [encodeTexel] at h <;> omega

theorem isInBounds_sentinel (n size : Nat)
    (h : size ≤ MAX_MEMORY_ALLOCATION_SIZE) :
    isInBounds OOB_OFFSET n size = false := by
  unfold isInBounds OOB_OFFSET MAX_MEMORY_ALLOCATION_SIZE at *
  simp only [decide_eq_false_iff_not]
  intro hc
  omega

theorem isInBounds_sentinel_add (k n size : Nat)
    (h : size ≤ MAX_MEMORY_ALLOCATION_SIZE) (hk : k ≤ 16) :
    isInBounds (add32 OOB_OFFSET k) n size = false := by
  unfold isInBounds add32 OOB_OFFSET MAX_MEMORY_ALLOCATION_SIZE at *
  have hmod : (2147483647 - 16 + k) % 4294967296 = 2147483647 - 16 + k :=
    Nat.mod_eq_of_lt (by omega)
  rw [hmod]
  simp only [decide_eq_false_iff_not]
  intro hc
  omega

theorem foldl_fix (f : Mem → Nat → Mem) (l : List Nat)
    (H : ∀ x ∈ l, ∀ a, f a x = a) : ∀ a, List.foldl f a l = a := by
  induction l with
  | nil => intro a; rfl
  | cons hd tl ih =>
      intro a
      rw [List.foldl_cons, H hd (by simp), ih fun x hx a => H x (by simp [hx]) a]

theorem foldl_fix_fin (f : Mem → Lane → Mem) (l : List Lane)
    (H : ∀ x ∈ l, ∀ a, f a x = a) : ∀ a, List.foldl f a l = a := by
  induction l with
  | nil => intro a; rfl
  | cons hd tl ih =>
      intro a
      rw [List.foldl_cons, H hd (by simp), ih fun x hx a => H x (by simp [hx]) a]

theorem foldl_ext2 (f g : Mem → Nat → Mem) (l : List Nat)
    (H : ∀ x ∈ l, ∀ a, f a x = g a x) :
    ∀ a, List.foldl f a l = List.foldl g a l := by
  induction l with
  | nil => intro a; rfl
  | cons hd tl ih =>
      intro a
      rw [List.foldl_cons, List.foldl_cons, H hd (by simp),
        ih fun x hx a => H x (by simp [hx]) a]

theorem foldl_ext2_fin (f g : Mem → Lane → Mem) (l : List Lane)
    (H : ∀ x ∈ l, ∀ a, f a x = g a x) :
    ∀ a, List.foldl f a l = List.foldl g a l := by
  induction l with
  | nil => intro a; rfl
  | cons hd tl ih =>
      intro a
      rw [List.foldl_cons, List.foldl_cons, H hd (by simp),
        ih fun x hx a => H x (by simp [hx]) a]

theorem scatterWord_gate_ext (m : Mem) (base size n : Nat) (offs : Lane → Nat)
    (ws : Lane → Nat) (g h : Lane → Bool)
    (H : ∀ ln, (g ln && isInBounds (offs ln) n size) =
      (h ln && isInBounds (offs ln) n size)) :
    scatterWord m base size n offs ws g = scatterWord m base size n offs ws h := by
  unfold scatterWord
  exact foldl_ext2_fin _ _ _ (fun ln _ acc => by rw [H ln]) m

theorem scatterWord_noop (m : Mem) (base size n : Nat) (offs : Lane → Nat)
    (ws : Lane → Nat) (g : Lane → Bool)
    (H : ∀ ln, (g ln && isInBounds (offs ln) n size) = false) :
    scatterWord m base size n offs ws g = m := by
  unfold scatterWord
  exact foldl_fix_fin _ _ (fun ln _ acc => by rw [H ln]; rfl) m

theorem readPackedWords_oob (m : Mem) (base size ts : Nat) (off : Lane → Nat)
    (mask : Lane → Bool) (ln : Lane) (hsz : size ≤ MAX_MEMORY_ALLOCATION_SIZE)
    ( _hts : ts ≤ 16) (hoff : off ln = OOB_OFFSET) (i : Fin 4) :
    readPackedWords m base size ts off mask i ln = 0 := by
  have hi : (i : Nat) < 4 := i.isLt
  unfold readPackedWords
  rw [hoff]
  split_ifs with h1 h2 h3 h4
  · rw [isInBounds_sentinel _ _ hsz] at h2
    simp at h2
  · rfl
  · rw [isInBounds_sentinel_add _ _ _ hsz (by omega)] at h4
    simp at h4
  · rfl
  · rfl

theorem readPackedWords_off_pt (m : Mem) (base size ts : Nat)
    (off off2 : Lane → Nat) (mask : Lane → Bool) (ln : Lane)
    (h : off ln = off2 ln) (i : Fin 4) :
    readPackedWords m base size ts off mask i ln =
      readPackedWords m base size ts off2 mask i ln := by
  unfold readPackedWords
  rw [h]

theorem EmitImageWrite_scatter (wi : WriteInputs) (ts : Nat) (w0 : Fin 4 → Nat)
    (henc : encodeTexel wi.fmt (fun c => wi.texel c 0) = some (ts, w0)) :
    EmitImageWrite wi = some (scatterTexels wi.mem wi.desc.ptr
      wi.desc.sizeInBytes ts
      (fun ln => GetTexelAddress ⟨wi.rt, wi.desc, wi.dim, wi.arrayed,
        wi.compCount, wi.coord, ts, wi.sampleOp, false⟩ .Nullify ln)
      (fun ln => match encodeTexel wi.fmt (fun c => wi.texel c ln) with
        | some (_, w) => w
        | none => fun _ => 0) wi.storesMask) := by
  unfold EmitImageWrite
  rw [henc]

theorem scatterTexels_gate_ext (m : Mem) (base size ts : Nat)
    (off : Lane → Nat) (words : Lane → Fin 4 → Nat) (g h : Lane → Bool)
    (H0 : ∀ ln, (g ln && isInBounds (off ln) ts size) =
      (h ln && isInBounds (off ln) ts size))
    (H4 : ∀ ln k, k < 4 → (g ln && isInBounds (add32 (off ln) (4 * k)) 4 size) =
      (h ln && isInBounds (add32 (off ln) (4 * k)) 4 size))
    (hts : ts ≤ 16) :
    scatterTexels m base size ts off words g =
      scatterTexels m base size ts off words h := by
  unfold scatterTexels
  split_ifs with h2
  · exact scatterWord_gate_ext _ _ _ _ _ _ _ _ H0
  · refine foldl_ext2 _ _ _ (fun k hk acc => ?_) m
    have hk4 : k < 4 := by
      have := List.mem_range.mp hk
      omega
    exact scatterWord_gate_ext _ _ _ _ _ _ _ _ (fun ln => H4 ln k hk4)

theorem scatterTexels_noop (m : Mem) (base size ts : Nat)
    (off : Lane → Nat) (words : Lane → Fin 4 → Nat) (g : Lane → Bool)
    (H0 : ∀ ln, (g ln && isInBounds (off ln) ts size) = false)
    (H4 : ∀ ln k, k < 4 → (g ln && isInBounds (add32 (off ln) (4 * k)) 4 size) =
      false)
    (hts : ts ≤ 16) :
    scatterTexels m base size ts off words g = m := by
  unfold scatterTexels
  split_ifs with h2
  · exact scatterWord_noop _ _ _ _ _ _ _ H0
  · refine foldl_fix _ _ (fun k hk acc => ?_) m
    have hk4 : k < 4 := by
      have := List.mem_range.mp hk
      omega
    exact scatterWord_noop _ _ _ _ _ _ _ (fun ln => H4 ln k hk4)

/-- Claim C1 (amended): for a read or write whose descriptor size is within
the maximum allocation size, lanes whose out-of-bounds predicate is clear
read the decode of the words gathered at their arithmetic offset; every
out-of-bounds lane instead reads the decode of all-zero packed words (zero in
each stored channel, with the usual missing-channel padding — not an all-zero
vector); a supported-format write never aborts, leaves memory untouched when
every active lane is out of bounds, and equals the write with its
out-of-bounds lanes masked off, so in-range lanes behave as if those lanes
were absent. -/
theorem C1_oob_lane_behavior
    (pow24 : ℚ → ℚ) (ri : ReadInputs) (wi : WriteInputs)
    (ra wa : AddrInputs) (ts : Nat) (w0 : Fin 4 → Nat)
    (hra : ra = ⟨ri.rt, ri.desc, ri.dim, ri.arrayed, ri.compCount, ri.coord,
      formatBytes (readFormat ri), ri.sampleOp, readUseStencil ri⟩)
    (henc : encodeTexel wi.fmt (fun c => wi.texel c 0) = some (ts, w0))
    (hwa : wa = ⟨wi.rt, wi.desc, wi.dim, wi.arrayed, wi.compCount, wi.coord,
      ts, wi.sampleOp, false⟩)
    (hrsize : ri.desc.sizeInBytes ≤ MAX_MEMORY_ALLOCATION_SIZE)
    (hwsize : wi.desc.sizeInBytes ≤ MAX_MEMORY_ALLOCATION_SIZE) :
    (∀ c ln, oobMask32 ra ln ≠ 0 →
      EmitImageRead pow24 ri c ln =
        decodeTexel pow24 (readFormat ri) (fun _ => 0) c) ∧
    (∀ c ln, oobMask32 ra ln = 0 →
      EmitImageRead pow24 ri c ln =
        decodeTexel pow24 (readFormat ri)
          (fun i => readPackedWords ri.mem (readBase ri) ri.desc.sizeInBytes
            (formatBytes (readFormat ri)) (texelOffsetRaw ra)
            ri.activeMask i ln) c) ∧
    (∃ mem, EmitImageWrite wi = some mem) ∧
    ((∀ ln, wi.storesMask ln = true → oobMask32 wa ln ≠ 0) →
      EmitImageWrite wi = some wi.mem) ∧
    (EmitImageWrite wi = EmitImageWrite { wi with storesMask := fun ln => wi.storesMask ln && decide (oobMask32 wa ln = 0) }) := by
  subst hra
  subst hwa
  have hts16 : ts ≤ 16 := encodeTexel_ts_le _ _ _ _ henc
  have hfb16 : formatBytes (readFormat ri) ≤ 16 := formatBytes_le _
  refine ⟨?_, ?_, ?_, ?_, ?_⟩
  · intro c ln hoob
    have hoff : GetTexelAddress (⟨ri.rt, ri.desc, ri.dim, ri.arrayed,
        ri.compCount, ri.coord, formatBytes (readFormat ri), ri.sampleOp,
        readUseStencil ri⟩ : AddrInputs) .Nullify ln = OOB_OFFSET := by
      rw [GetTexelAddress_nullify, if_neg hoob]
    exact congrArg (fun f => decodeTexel pow24 (readFormat ri) f c)
      (funext fun i => readPackedWords_oob ri.mem (readBase ri)
        ri.desc.sizeInBytes (formatBytes (readFormat ri)) _ ri.activeMask ln
        hrsize hfb16 hoff i)
  · intro c ln h0
    have hoff : GetTexelAddress (⟨ri.rt, ri.desc, ri.dim, ri.arrayed,
        ri.compCount, ri.coord, formatBytes (readFormat ri), ri.sampleOp,
        readUseStencil ri⟩ : AddrInputs) .Nullify ln =
        texelOffsetRaw (⟨ri.rt, ri.desc, ri.dim, ri.arrayed,
          ri.compCount, ri.coord, formatBytes (readFormat ri), ri.sampleOp,
          readUseStencil ri⟩ : AddrInputs) ln := by
      rw [GetTexelAddress_nullify, if_pos h0]
    exact congrArg (fun f => decodeTexel pow24 (readFormat ri) f c)
      (funext fun i => readPackedWords_off_pt ri.mem (readBase ri)
        ri.desc.sizeInBytes (formatBytes (readFormat ri)) _ _ ri.activeMask ln
        hoff i)
  · exact ⟨_, EmitImageWrite_scatter wi ts w0 henc⟩
  · intro hall
    rw [EmitImageWrite_scatter wi ts w0 henc]
    refine congrArg some (scatterTexels_noop _ _ _ _ _ _ _ ?_ ?_ hts16)
    · intro ln
      cases hmask : wi.storesMask ln with
      | false => rfl
      | true =>
          have hoff : GetTexelAddress (⟨wi.rt, wi.desc, wi.dim, wi.arrayed,
              wi.compCount, wi.coord, ts, wi.sampleOp, false⟩ : AddrInputs)
              .Nullify ln = OOB_OFFSET := by
            rw [GetTexelAddress_nullify, if_neg (hall ln hmask)]
          show (true && isInBounds (GetTexelAddress _ .Nullify ln) ts
            wi.desc.sizeInBytes) = false
          rw [hoff, isInBounds_sentinel _ _ hwsize, Bool.and_false]
    · intro ln k hk4
      cases hmask : wi.storesMask ln with
      | false => rfl
      | true =>
          have hoff : GetTexelAddress (⟨wi.rt, wi.desc, wi.dim, wi.arrayed,
              wi.compCount, wi.coord, ts, wi.sampleOp, false⟩ : AddrInputs)
              .Nullify ln = OOB_OFFSET := by
            rw [GetTexelAddress_nullify, if_neg (hall ln hmask)]
          show (true && isInBounds (add32 (GetTexelAddress _ .Nullify ln)
            (4 * k)) 4 wi.desc.sizeInBytes) = false
          rw [hoff, isInBounds_sentinel_add _ _ _ hwsize (by omega),
            Bool.and_false]
  · rw [EmitImageWrite_scatter wi ts w0 henc,
      EmitImageWrite_scatter { wi with storesMask := fun ln => wi.storesMask ln && decide (oobMask32 ⟨wi.rt, wi.desc, wi.dim, wi.arrayed, wi.compCount, wi.coord, ts, wi.sampleOp, false⟩ ln = 0) } ts w0 henc]
    refine congrArg some (scatterTexels_gate_ext _ _ _ _ _ _ _ _ ?_ ?_ hts16)
    · intro ln
      by_cases hm : oobMask32 ⟨wi.rt, wi.desc, wi.dim, wi.arrayed,
          wi.compCount, wi.coord, ts, wi.sampleOp, false⟩ ln = 0
      · simp [hm]
      · have hoff : GetTexelAddress (⟨wi.rt, wi.desc, wi.dim, wi.arrayed,
            wi.compCount, wi.coord, ts, wi.sampleOp, false⟩ : AddrInputs)
            .Nullify ln = OOB_OFFSET := by
          rw [GetTexelAddress_nullify, if_neg hm]
        show (wi.storesMask ln && isInBounds (GetTexelAddress _ .Nullify ln)
            ts wi.desc.sizeInBytes) = _
        rw [hoff, isInBounds_sentinel _ _ hwsize, Bool.and_false,
          Bool.and_false]
    · intro ln k hk4
      by_cases hm : oobMask32 ⟨wi.rt, wi.desc, wi.dim, wi.arrayed,
          wi.compCount, wi.coord, ts, wi.sampleOp, false⟩ ln = 0
      · simp [hm]
      · have hoff : GetTexelAddress (⟨wi.rt, wi.desc, wi.dim, wi.arrayed,
            wi.compCount, wi.coord, ts, wi.sampleOp, false⟩ : AddrInputs)
            .Nullify ln = OOB_OFFSET := by
          rw [GetTexelAddress_nullify, if_neg hm]
        show (wi.storesMask ln && isInBounds (add32
            (GetTexelAddress _ .Nullify ln) (4 * k)) 4
            wi.desc.sizeInBytes) = _
        rw [hoff, isInBounds_sentinel_add _ _ _ hwsize (by omega),
          Bool.and_false, Bool.and_false]

theorem C1_oob_lane_behavior_witness :
    (64 : Nat) ≤ MAX_MEMORY_ALLOCATION_SIZE ∧
    oobMask32 ⟨⟨fun _ => 0, fun _ => 0, 0⟩,
      ⟨0, 0, 64, 4, 1, 1, 16, 64, 64, 0, 0, 0, 1⟩, .dim1D, false, 1,
      fun _ _ => 5, 1, none, false⟩ 0 ≠ 0 ∧
    EmitImageRead id ⟨⟨fun _ => 0, fun _ => 0, 0⟩,
      ⟨0, 0, 64, 4, 1, 1, 16, 64, 64, 0, 0, 0, 1⟩, .dim1D, false, 1,
      fun _ _ => 5, none, VkFormat.R8_UNORM, false, fun _ => 0,
      fun _ => true⟩ 3 0 =
      decodeTexel id VkFormat.R8_UNORM (fun _ => 0) 3 :=
  ⟨by decide, by decide,
   (C1_oob_lane_behavior id
      ⟨⟨fun _ => 0, fun _ => 0, 0⟩,
        ⟨0, 0, 64, 4, 1, 1, 16, 64, 64, 0, 0, 0, 1⟩, .dim1D, false, 1,
        fun _ _ => 5, none, VkFormat.R8_UNORM, false, fun _ => 0,
        fun _ => true⟩
      ⟨⟨fun _ => 0, fun _ => 0, 0⟩,
        ⟨0, 0, 64, 4, 1, 1, 16, 64, 64, 0, 0, 0, 1⟩, .dim1D, false, 1,
        fun _ _ => 0, none, VkFormat.R32_UINT, fun _ _ => Chan.u 7,
        fun _ => 0, fun _ => true⟩
      _ _ 4 ![7, 0, 0, 0] rfl rfl rfl (by decide) (by decide)).1 3 0
      (by decide)⟩

/-- Claim C1 counterexample: for an out-of-bounds lane of an `R8_UNORM` read
(width 4, u = 5), the decoded result is (0, 0, 0, 1): its alpha channel is
one, not zero, so the lane's output is not all-zero. -/
theorem C1_counterexample_oob_alpha_one :
    EmitImageRead id ⟨⟨fun _ => 0, fun _ => 0, 0⟩,
      ⟨0, 0, 64, 4, 1, 1, 16, 64, 64, 0, 0, 0, 1⟩, .dim1D, false, 1,
      fun _ _ => 5, none, VkFormat.R8_UNORM, false, fun _ => 0,
      fun _ => true⟩ 3 0 = Chan.f 1 ∧
    Chan.f 1 ≠ Chan.f 0 ∧ Chan.f 1 ≠ Chan.i 0 := by
  refine ⟨rfl, by decide, by decide⟩

theorem shl32_lt (x k : Nat) (h : x <<< k < 4294967296) : shl32 x k = x <<< k :=
  Nat.mod_eq_of_lt h

theorem and255_mod (x : Nat) : x &&& 255 = x % 256 := by
  have h := and_mask_mod x 8
  norm_num at h
  exact h

theorem and65535_mod (x : Nat) : x &&& 65535 = x % 65536 := by
  have h := and_mask_mod x 16
  norm_num at h
  exact h

theorem and1023_mod (x : Nat) : x &&& 1023 = x % 1024 := by
  have h := and_mask_mod x 10
  norm_num at h
  exact h

theorem and3_mod (x : Nat) : x &&& 3 = x % 4 := by
  have h := and_mask_mod x 2
  norm_num at h
  exact h

theorem sar32_and_mod (x k j : Nat) (hk : k + j ≤ 32) :
    sar32 x k &&& (2 ^ j - 1) = x / 2 ^ k % 2 ^ j := by
  unfold sar32
  split
  · rw [and_mask_mod, shr_eq_div]
  · rw [and_mask_mod, shr_eq_div, shr_eq_div]
    have h1 : (4294967296 : Nat) / 2 ^ k = 2 ^ (32 - k) := by
      rw [show (4294967296 : Nat) = 2 ^ 32 from rfl]
      exact Nat.pow_div (by omega) (by norm_num)
    have h2 : (2 : Nat) ^ j ∣ 4294967296 - 4294967296 / 2 ^ k := by
      rw [h1, show (4294967296 : Nat) = 2 ^ 32 from rfl]
      have h3 : (2 : Nat) ^ j ∣ 2 ^ (32 - k) := pow_dvd_pow 2 (by omega)
      have h4 : (2 : Nat) ^ (32 - k) ∣ 2 ^ 32 := pow_dvd_pow 2 (by omega)
      exact Nat.dvd_sub' (dvd_trans h3 h4) h3
    obtain ⟨c, hc⟩ := h2
    rw [hc, Nat.add_mul_mod_self_left]

theorem sar8_8 (x : Nat) : sar32 x 8 &&& 255 = x / 256 % 256 := by
  have h := sar32_and_mod x 8 8 (by norm_num)
  norm_num at h
  exact h

theorem sar8_16 (x : Nat) : sar32 x 16 &&& 255 = x / 65536 % 256 := by
  have h := sar32_and_mod x 16 8 (by norm_num)
  norm_num at h
  exact h

theorem sar8_24 (x : Nat) : sar32 x 24 &&& 255 = x / 16777216 % 256 := by
  have h := sar32_and_mod x 24 8 (by norm_num)
  norm_num at h
  exact h

theorem sar16_16 (x : Nat) : sar32 x 16 &&& 65535 = x / 65536 % 65536 := by
  have h := sar32_and_mod x 16 16 (by norm_num)
  norm_num at h
  exact h

theorem sar10_10 (x : Nat) : sar32 x 10 &&& 1023 = x / 1024 % 1024 := by
  have h := sar32_and_mod x 10 10 (by norm_num)
  norm_num at h
  exact h

theorem sar10_20 (x : Nat) : sar32 x 20 &&& 1023 = x / 1048576 % 1024 := by
  have h := sar32_and_mod x 20 10 (by norm_num)
  norm_num at h
  exact h

theorem sar2_30 (x : Nat) : sar32 x 30 &&& 3 = x / 1073741824 % 4 := by
  have h := sar32_and_mod x 30 2 (by norm_num)
  norm_num at h
  exact h

theorem shr8_8 (x : Nat) : shr32 x 8 &&& 255 = x / 256 % 256 := by
  rw [and255_mod]
  unfold shr32
  rw [shr_eq_div]
  norm_num

theorem shr8_16 (x : Nat) : shr32 x 16 &&& 255 = x / 65536 % 256 := by
  rw [and255_mod]
  unfold shr32
  rw [shr_eq_div]
  norm_num

theorem shr8_24 (x : Nat) : shr32 x 24 &&& 255 = x / 16777216 % 256 := by
  rw [and255_mod]
  unfold shr32
  rw [shr_eq_div]
  norm_num

theorem pack8 (a b c d : Nat) (ha : a < 256) (hb : b < 256) (hc : c < 256)
    (hd : d < 256) :
    a ||| shl32 b 8 ||| shl32 c 16 ||| shl32 d 24 =
      a + b * 256 + c * 65536 + d * 16777216 := by
  rw [shl32_lt b 8 (by rw [shl_eq_mul]; norm_num; try omega),
    shl32_lt c 16 (by rw [shl_eq_mul]; norm_num; try omega),
    shl32_lt d 24 (by rw [shl_eq_mul]; norm_num; try omega),
    lor_shl_add a b 8 (by norm_num; omega),
    lor_shl_add _ c 16 (by norm_num; omega),
    lor_shl_add _ d 24 (by norm_num; omega)]
  norm_num

theorem pack16 (a b : Nat) (ha : a < 65536) (hb : b < 65536) :
    a ||| shl32 b 16 = a + b * 65536 := by
  rw [shl32_lt b 16 (by rw [shl_eq_mul]; norm_num; try omega),
    lor_shl_add a b 16 (by norm_num; omega)]
  norm_num

theorem pack8b (a b : Nat) (ha : a < 256) (hb : b < 256) :
    a ||| shl32 b 8 = a + b * 256 := by
  rw [shl32_lt b 8 (by rw [shl_eq_mul]; norm_num; try omega),
    lor_shl_add a b 8 (by norm_num; omega)]
  norm_num

theorem pack10 (a b c d : Nat) (ha : a < 1024) (hb : b < 1024) (hc : c < 1024)
    (hd : d < 4) :
    a ||| shl32 b 10 ||| shl32 c 20 ||| shl32 d 30 =
      a + b * 1024 + c * 1048576 + d * 1073741824 := by
  rw [shl32_lt b 10 (by rw [shl_eq_mul]; norm_num; try omega),
    shl32_lt c 20 (by rw [shl_eq_mul]; norm_num; try omega),
    shl32_lt d 30 (by rw [shl_eq_mul]; norm_num; try omega),
    lor_shl_add a b 10 (by norm_num; omega),
    lor_shl_add _ c 20 (by norm_num; omega),
    lor_shl_add _ d 30 (by norm_num; omega)]
  norm_num

theorem intToFloatQ_small (n : Nat) (h : n < 2147483648) :
    intToFloatQ n = (n : ℚ) := by
  unfold intToFloatQ
  rw [toInt32_ofNat n h]
  push_cast
  rfl

theorem ofInt32_natCast (n : Nat) (h : n < 4294967296) : ofInt32 (n : Int) = n := by
  unfold ofInt32
  omega

theorem sdec8_sh24 (x : Nat) : toInt32 (sar32 (shl32 x 24) 24) =
    if x % 256 < 128 then ((x % 256 : ℕ) : ℤ) else ((x % 256 : ℕ) : ℤ) - 256 := by
  have h1 : shl32 x 24 = x % 256 * 16777216 := by
    unfold shl32
    rw [shl_eq_mul]
    norm_num
    omega
  rw [h1]
  unfold sar32 toInt32
  simp only [shr_eq_div]
  norm_num
  split_ifs <;> omega

theorem sdec8_sh16 (x : Nat) : toInt32 (sar32 (shl32 x 16) 24) =
    if x / 256 % 256 < 128 then ((x / 256 % 256 : ℕ) : ℤ)
    else ((x / 256 % 256 : ℕ) : ℤ) - 256 := by
  have h1 : shl32 x 16 = x % 65536 * 65536 := by
    unfold shl32
    rw [shl_eq_mul]
    norm_num
    omega
  rw [h1]
  unfold sar32 toInt32
  simp only [shr_eq_div]
  norm_num
  split_ifs <;> omega

theorem sdec8_sh8 (x : Nat) : toInt32 (sar32 (shl32 x 8) 24) =
    if x / 65536 % 256 < 128 then ((x / 65536 % 256 : ℕ) : ℤ)
    else ((x / 65536 % 256 : ℕ) : ℤ) - 256 := by
  have h1 : shl32 x 8 = x % 16777216 * 256 := by
    unfold shl32
    rw [shl_eq_mul]
    norm_num
    omega
  rw [h1]
  unfold sar32 toInt32
  simp only [shr_eq_div]
  norm_num
  split_ifs <;> omega

theorem sdec8_plain (x : Nat) (hx : x < 4294967296) : toInt32 (sar32 x 24) =
    if x / 16777216 % 256 < 128 then ((x / 16777216 % 256 : ℕ) : ℤ)
    else ((x / 16777216 % 256 : ℕ) : ℤ) - 256 := by
  unfold sar32 toInt32
  simp only [shr_eq_div]
  norm_num
  split_ifs <;> omega

theorem sdec16_sh16 (x : Nat) : toInt32 (sar32 (shl32 x 16) 16) =
    if x % 65536 < 32768 then ((x % 65536 : ℕ) : ℤ)
    else ((x % 65536 : ℕ) : ℤ) - 65536 := by
  have h1 : shl32 x 16 = x % 65536 * 65536 := by
    unfold shl32
    rw [shl_eq_mul]
    norm_num
    omega
  rw [h1]
  unfold sar32 toInt32
  simp only [shr_eq_div]
  norm_num
  split_ifs <;> omega

theorem sdec16_plain (x : Nat) (hx : x < 4294967296) : toInt32 (sar32 x 16) =
    if x / 65536 % 65536 < 32768 then ((x / 65536 % 65536 : ℕ) : ℤ)
    else ((x / 65536 % 65536 : ℕ) : ℤ) - 65536 := by
  unfold sar32 toInt32
  simp only [shr_eq_div]
  norm_num
  split_ifs <;> omega

theorem sfield8 (z : ℤ) (h1 : -128 ≤ z) (h2 : z < 128) :
    (if ofInt32 z % 256 < 128 then ((ofInt32 z % 256 : ℕ) : ℤ)
     else ((ofInt32 z % 256 : ℕ) : ℤ) - 256) = z := by
  unfold ofInt32
  split_ifs <;> omega

theorem sfield16 (z : ℤ) (h1 : -32768 ≤ z) (h2 : z < 32768) :
    (if ofInt32 z % 65536 < 32768 then ((ofInt32 z % 65536 : ℕ) : ℤ)
     else ((ofInt32 z % 65536 : ℕ) : ℤ) - 65536) = z := by
  unfold ofInt32
  split_ifs <;> omega

theorem sfield32 (z : ℤ) (h1 : -2147483648 ≤ z) (h2 : z < 2147483648) :
    toInt32 (ofInt32 z) = z := toInt32_ofInt32 z h1 h2

theorem unorm_channel (q : ℚ) (K : Nat) (KQ : ℚ) (hK : 0 < K)
    (hKQ : KQ = (K : ℚ)) (h0 : 0 ≤ q) (h1 : q ≤ 1) :
    unormRound q K ≤ K ∧
    |((unormRound q K : ℕ) : ℚ) * (1 / KQ) - q| ≤ 1 / KQ := by
  have hKQ0 : (0 : ℚ) < KQ := by
    rw [hKQ]
    exact_mod_cast hK
  unfold unormRound
  rw [max_eq_left h0, min_eq_left h1]
  have hza := abs_sub_round (q * (K : ℚ))
  have hqK0 : 0 ≤ q * (K : ℚ) := mul_nonneg h0 (by positivity)
  have hqK1 : q * (K : ℚ) ≤ (K : ℚ) := by
    nlinarith [h1, (by positivity : (0:ℚ) ≤ (K:ℚ))]
  have habs := abs_le.mp hza
  have hza2 : |((round (q * (K : ℚ)) : ℤ) : ℚ) - q * (K : ℚ)| ≤ 1 / 2 := by
    rw [abs_sub_comm]
    exact hza
  have habs2 := abs_le.mp hza2
  have hz0 : 0 ≤ round (q * (K : ℚ)) := by
    by_contra hcon
    push_neg at hcon
    have h2 : ((round (q * (K : ℚ)) : ℤ) : ℚ) ≤ -1 := by
      exact_mod_cast (show round (q * (K : ℚ)) ≤ -1 by omega)
    linarith [habs2.1]
  have hzK : round (q * (K : ℚ)) ≤ (K : ℤ) := by
    by_contra hcon
    push_neg at hcon
    have h2 : ((K : ℤ) : ℚ) + 1 ≤ ((round (q * (K : ℚ)) : ℤ) : ℚ) := by
      exact_mod_cast hcon
    push_cast at h2
    linarith [habs2.2]
  have htn : ((round (q * (K : ℚ))).toNat : ℤ) = round (q * (K : ℚ)) :=
    Int.toNat_of_nonneg hz0
  constructor
  · omega
  · have hcast : (((round (q * (K : ℚ))).toNat : ℕ) : ℚ) =
        ((round (q * (K : ℚ)) : ℤ) : ℚ) := by
      exact_mod_cast congrArg (fun z : ℤ => (z : ℚ)) htn
    rw [hcast, hKQ]
    have h3 : ((round (q * (K : ℚ)) : ℤ) : ℚ) * (1 / (K : ℚ)) - q =
        (((round (q * (K : ℚ)) : ℤ) : ℚ) - q * (K : ℚ)) * (1 / (K : ℚ)) := by
      field_simp
      ring
    rw [h3, abs_mul, abs_of_pos (show (0:ℚ) < 1 / (K:ℚ) by positivity)]
    have h4 : |((round (q * (K : ℚ)) : ℤ) : ℚ) - q * (K : ℚ)| * (1 / (K : ℚ)) ≤
        (1 / 2) * (1 / (K : ℚ)) :=
      mul_le_mul_of_nonneg_right hza2 (by positivity)
    have h5 : (0 : ℚ) ≤ 1 / (K : ℚ) := by positivity
    linarith

theorem shl32_24_mod (x : Nat) : shl32 x 24 = x % 256 * 16777216 := by
  unfold shl32
  rw [shl_eq_mul]
  norm_num
  omega

theorem shl32_16_mod (x : Nat) : shl32 x 16 = x % 65536 * 65536 := by
  unfold shl32
  rw [shl_eq_mul]
  norm_num
  omega

theorem shl32_8_mod (x : Nat) : shl32 x 8 = x % 16777216 * 256 := by
  unfold shl32
  rw [shl_eq_mul]
  norm_num
  omega

theorem shl32_mod_shl8 (x : Nat) : shl32 x 8 = (x % 16777216) <<< 8 := by
  rw [shl32_8_mod, shl_eq_mul]
  norm_num

theorem shl32_mod_shl16 (x : Nat) : shl32 x 16 = (x % 65536) <<< 16 := by
  rw [shl32_16_mod, shl_eq_mul]
  norm_num

theorem snx_top8 (x : Nat) : shl32 x 24 &&& 4278190080 = x % 256 * 16777216 := by
  rw [shl32_24_mod, show (4278190080 : Nat) = 255 <<< 24 from rfl, and_shl,
    shr_eq_div, and255_mod, shl_eq_mul]
  norm_num

theorem snx_shl16_top8 (x : Nat) :
    shl32 x 16 &&& 4278190080 = x / 256 % 256 * 16777216 := by
  rw [shl32_16_mod, show (4278190080 : Nat) = 255 <<< 24 from rfl, and_shl,
    shr_eq_div, and255_mod, shl_eq_mul]
  norm_num
  omega

theorem snx_shl8_top8 (x : Nat) :
    shl32 x 8 &&& 4278190080 = x / 65536 % 256 * 16777216 := by
  rw [shl32_8_mod, show (4278190080 : Nat) = 255 <<< 24 from rfl, and_shl,
    shr_eq_div, and255_mod, shl_eq_mul]
  norm_num
  omega

theorem snx_plain_top8 (x : Nat) :
    x &&& 4278190080 = x / 16777216 % 256 * 16777216 := by
  rw [show (4278190080 : Nat) = 255 <<< 24 from rfl, and_shl,
    shr_eq_div, and255_mod, shl_eq_mul]
  norm_num

theorem snx_shl16_top16 (x : Nat) :
    shl32 x 16 &&& 4294901760 = x % 65536 * 65536 := by
  rw [shl32_16_mod, show (4294901760 : Nat) = 65535 <<< 16 from rfl, and_shl,
    shr_eq_div, and65535_mod, shl_eq_mul]
  norm_num

theorem snx_plain_top16 (x : Nat) :
    x &&& 4294901760 = x / 65536 % 65536 * 65536 := by
  rw [show (4294901760 : Nat) = 65535 <<< 16 from rfl, and_shl,
    shr_eq_div, and65535_mod, shl_eq_mul]
  norm_num

theorem snorm8_value (z : ℤ) (hz1 : -128 ≤ z) (hz2 : z < 128) :
    intToFloatQ (ofInt32 z % 256 * 16777216) * (1 / 2130706432) =
      (z : ℚ) * (1 / 127) := by
  have ht : toInt32 (ofInt32 z % 256 * 16777216) = z * 16777216 := by
    unfold toInt32 ofInt32
    split_ifs <;> push_cast <;> omega
  unfold intToFloatQ
  rw [ht]
  push_cast
  ring_nf

theorem snorm16_value (z : ℤ) (hz1 : -32768 ≤ z) (hz2 : z < 32768) :
    intToFloatQ (ofInt32 z % 65536 * 65536) * (1 / 2147418112) =
      (z : ℚ) * (1 / 32767) := by
  have ht : toInt32 (ofInt32 z % 65536 * 65536) = z * 65536 := by
    unfold toInt32 ofInt32
    split_ifs <;> push_cast <;> omega
  unfold intToFloatQ
  rw [ht]
  push_cast
  ring_nf

theorem snorm_channel (q : ℚ) (K : Nat) (KQ : ℚ) (hK : 0 < K)
    (hKQ : KQ = (K : ℚ)) (h0 : -1 ≤ q) (h1 : q ≤ 1) :
    ∃ z : ℤ, snormRound q K = ofInt32 z ∧ -(K : ℤ) ≤ z ∧ z ≤ (K : ℤ) ∧
      |(z : ℚ) * (1 / KQ) - q| ≤ 1 / KQ ∧ -1 ≤ (z : ℚ) * (1 / KQ) := by
  have hKQpos : (0 : ℚ) < (K : ℚ) := by exact_mod_cast hK
  have hza := abs_sub_round (q * (K : ℚ))
  have hza2 : |((round (q * (K : ℚ)) : ℤ) : ℚ) - q * (K : ℚ)| ≤ 1 / 2 := by
    rw [abs_sub_comm]
    exact hza
  have habs2 := abs_le.mp hza2
  have hqK0 : -(K : ℚ) ≤ q * (K : ℚ) := by nlinarith
  have hqK1 : q * (K : ℚ) ≤ (K : ℚ) := by nlinarith
  have hzlo : -(K : ℤ) ≤ round (q * (K : ℚ)) := by
    by_contra hcon
    push_neg at hcon
    have h2 : ((round (q * (K : ℚ)) : ℤ) : ℚ) ≤ -(K : ℚ) - 1 := by
      exact_mod_cast (show round (q * (K : ℚ)) ≤ -(K : ℤ) - 1 by omega)
    linarith [habs2.1]
  have hzhi : round (q * (K : ℚ)) ≤ (K : ℤ) := by
    by_contra hcon
    push_neg at hcon
    have h2 : ((K : ℚ) + 1) ≤ ((round (q * (K : ℚ)) : ℤ) : ℚ) := by
      exact_mod_cast (show (K : ℤ) + 1 ≤ round (q * (K : ℚ)) by omega)
    linarith [habs2.2]
  have hzloQ : -(K : ℚ) ≤ ((round (q * (K : ℚ)) : ℤ) : ℚ) := by
    exact_mod_cast hzlo
  refine ⟨round (q * (K : ℚ)), ?_, hzlo, hzhi, ?_, ?_⟩
  · unfold snormRound
    rw [max_eq_left h0, min_eq_left h1]
  · rw [hKQ]
    have h3 : ((round (q * (K : ℚ)) : ℤ) : ℚ) * (1 / (K : ℚ)) - q =
        (((round (q * (K : ℚ)) : ℤ) : ℚ) - q * (K : ℚ)) * (1 / (K : ℚ)) := by
      field_simp
      ring
    rw [h3, abs_mul, abs_of_pos (show (0:ℚ) < 1 / (K:ℚ) by positivity)]
    have h4 : |((round (q * (K : ℚ)) : ℤ) : ℚ) - q * (K : ℚ)| * (1 / (K : ℚ)) ≤
        (1 / 2) * (1 / (K : ℚ)) :=
      mul_le_mul_of_nonneg_right hza2 (by positivity)
    have h5 : (0 : ℚ) ≤ 1 / (K : ℚ) := by positivity
    linarith
  · rw [hKQ]
    have h6 : -(K : ℚ) * (1 / (K : ℚ)) ≤
        ((round (q * (K : ℚ)) : ℤ) : ℚ) * (1 / (K : ℚ)) :=
      mul_le_mul_of_nonneg_right hzloQ (by positivity)
    have h7 : -(K : ℚ) * (1 / (K : ℚ)) = -1 := by
      field_simp
    linarith

theorem and1_mod (x : Nat) : x &&& 1 = x % 2 := Nat.and_one_is_mod x

theorem and31_mod (x : Nat) : x &&& 31 = x % 32 := by
  have h := and_mask_mod x 5
  norm_num at h
  exact h

theorem and2047_mod (x : Nat) : x &&& 2047 = x % 2048 := by
  have h := and_mask_mod x 11
  norm_num at h
  exact h

theorem and8388607_mod (x : Nat) : x &&& 8388607 = x % 8388608 := by
  have h := and_mask_mod x 23
  norm_num at h
  exact h

theorem rne_mul_pow (x k : Nat) : rne (x * 2 ^ k) k = x := by
  unfold rne
  simp only []
  rw [Nat.mul_div_cancel _ (by positivity), Nat.mul_mod_left]
  rw [if_pos (by positivity : 2 * 0 < 2 ^ k)]

theorem lor_eq_add_of_mod (a b k : Nat) (ha : a % 2 ^ k = 0) (hb : b < 2 ^ k) :
    a ||| b = a + b := by
  obtain ⟨t, rfl⟩ : 2 ^ k ∣ a := Nat.dvd_of_mod_eq_zero ha
  rw [← Nat.mul_add_lt_is_or hb t]

theorem lor_eq_add_of_mod2 (a b k : Nat) (ha : a < 2 ^ k) (hb : b % 2 ^ k = 0) :
    a ||| b = a + b := by
  rw [Nat.lor_comm, lor_eq_add_of_mod b a k hb ha]
  omega

theorem or3_31_23 (s x y : Nat) (hx : x < 256) (hy : y < 8388608) :
    s <<< 31 ||| x <<< 23 ||| y =
      s * 2147483648 + x * 8388608 + y := by
  rw [lor_eq_add_of_mod (s <<< 31) (x <<< 23) 31
    (by rw [shl_eq_mul]; norm_num; try omega)
    (by rw [shl_eq_mul]; norm_num; try omega)]
  rw [lor_eq_add_of_mod _ y 23
    (by rw [shl_eq_mul, shl_eq_mul]; norm_num; try omega)
    (by norm_num; omega)]
  rw [shl_eq_mul, shl_eq_mul]
  norm_num

theorem or2_15 (s q : Nat) (hq : q < 32768) :
    s <<< 15 ||| q = s * 32768 + q := by
  rw [lor_eq_add_of_mod (s <<< 15) q 15
    (by rw [shl_eq_mul]; norm_num; try omega)
    (by norm_num; omega)]
  rw [shl_eq_mul]
  norm_num

theorem or3_15_10 (s x q : Nat) (hx : x < 32) (hq : q < 1024) :
    s <<< 15 ||| x <<< 10 ||| q = s * 32768 + x * 1024 + q := by
  rw [lor_eq_add_of_mod (s <<< 15) (x <<< 10) 15
    (by rw [shl_eq_mul]; norm_num; try omega)
    (by rw [shl_eq_mul]; norm_num; try omega)]
  rw [lor_eq_add_of_mod _ q 10
    (by rw [shl_eq_mul, shl_eq_mul]; norm_num; try omega)
    (by norm_num; omega)]
  rw [shl_eq_mul, shl_eq_mul]
  norm_num

theorem floatToHalfCore_sum (S X Y : Nat) (hS : S < 2) (hX : X < 256)
    (hY : Y < 8388608) :
    floatToHalfCore (S * 2147483648 + X * 8388608 + Y) =
      (if 143 ≤ X then
        if X = 255 ∧ Y ≠ 0 then S <<< 15 ||| 31 <<< 10 ||| 512
        else S <<< 15 ||| 31 <<< 10
      else if 113 ≤ X then
        if rne Y 13 = 1024 then S <<< 15 ||| (X - 111) <<< 10
        else S <<< 15 ||| (X - 112) <<< 10 ||| rne Y 13
      else if 102 ≤ X then
        if rne (8388608 + Y) (126 - X) = 1024 then S <<< 15 ||| 1 <<< 10
        else S <<< 15 ||| rne (8388608 + Y) (126 - X)
      else S <<< 15) := by
  unfold floatToHalfCore
  simp only []
  rw [shr_eq_div, shr_eq_div, and1_mod, and255_mod, and8388607_mod]
  rw [show (S * 2147483648 + X * 8388608 + Y) / 2 ^ 31 % 2 = S from by
    norm_num
    omega]
  rw [show (S * 2147483648 + X * 8388608 + Y) / 2 ^ 23 % 256 = X from by
    norm_num
    omega]
  rw [show (S * 2147483648 + X * 8388608 + Y) % 8388608 = Y from by omega]

theorem half_roundtrip (h : Nat) (hfin : IsFiniteHalf h) :
    floatToHalfCore (halfToFloatBits h) = h := by
  obtain ⟨hlt, hexp⟩ := hfin
  have hexp2 : h / 1024 % 32 ≠ 31 := by
    rw [shr_eq_div, and31_mod] at hexp
    norm_num at hexp
    exact hexp
  have hs : h >>> 15 &&& 1 = h / 32768 := by
    rw [shr_eq_div, and1_mod]
    norm_num
    omega
  have he : h >>> 10 &&& 31 = h / 1024 % 32 := by
    rw [shr_eq_div, and31_mod]
    norm_num
  have hm : h &&& 1023 = h % 1024 := and1023_mod h
  unfold halfToFloatBits
  simp only []
  rw [hs, he, hm]
  split_ifs with h1 h2
  · rw [show (h / 32768) <<< 31 =
      h / 32768 * 2147483648 + 0 * 8388608 + 0 from by
        rw [shl_eq_mul]
        norm_num]
    rw [floatToHalfCore_sum _ _ _ (by omega) (by omega) (by omega)]
    rw [if_neg (by omega), if_neg (by omega), if_neg (by omega)]
    rw [show (h / 32768) <<< 15 = h / 32768 * 32768 from by
      rw [shl_eq_mul]
      norm_num]
    omega
  · have hm0 : h % 1024 ≠ 0 := h2
    have hl1 : 2 ^ Nat.log2 (h % 1024) ≤ h % 1024 := Nat.log2_self_le hm0
    have hl2 : h % 1024 < 2 ^ (Nat.log2 (h % 1024) + 1) := Nat.lt_log2_self
    have hl9 : Nat.log2 (h % 1024) ≤ 9 := by
      by_contra hc
      push_neg at hc
      have h10 : (2:ℕ) ^ 10 ≤ 2 ^ Nat.log2 (h % 1024) :=
        Nat.pow_le_pow_right (by norm_num) hc
      have h1024 : (2:ℕ) ^ 10 = 1024 := by norm_num
      omega
    set l := Nat.log2 (h % 1024) with hldef
    have hpow : 2 ^ l * 2 ^ (23 - l) = 8388608 := by
      rw [← pow_add, show l + (23 - l) = 23 from by omega]
      norm_num
    have hxlo : 8388608 ≤ h % 1024 * 2 ^ (23 - l) := by
      calc 8388608 = 2 ^ l * 2 ^ (23 - l) := hpow.symm
        _ ≤ h % 1024 * 2 ^ (23 - l) := Nat.mul_le_mul_right _ hl1
    have hxhi : h % 1024 * 2 ^ (23 - l) < 16777216 := by
      have hstep : h % 1024 * 2 ^ (23 - l) < 2 ^ (l + 1) * 2 ^ (23 - l) :=
        mul_lt_mul_of_pos_right hl2 (by positivity)
      have h224 : (2:ℕ) ^ (l + 1) * 2 ^ (23 - l) = 16777216 := by
        rw [← pow_add, show l + 1 + (23 - l) = 24 from by omega]
        norm_num
      omega
    have hmask : (h % 1024) <<< (23 - l) &&& 8388607 =
        h % 1024 * 2 ^ (23 - l) - 8388608 := by
      rw [shl_eq_mul, and8388607_mod]
      omega
    rw [hmask]
    rw [or3_31_23 _ _ _ (by omega) (by omega)]
    rw [floatToHalfCore_sum _ _ _ (by omega) (by omega) (by omega)]
    rw [if_neg (by omega), if_neg (by omega), if_pos (by omega)]
    rw [show 8388608 + (h % 1024 * 2 ^ (23 - l) - 8388608) =
      h % 1024 * 2 ^ (23 - l) from by omega]
    rw [show 126 - (l + 103) = 23 - l from by omega]
    rw [rne_mul_pow]
    rw [if_neg (by omega : ¬ h % 1024 = 1024)]
    rw [or2_15 _ _ (by omega)]
    omega
  · rw [or3_31_23 _ _ _ (by omega) (by
      rw [shl_eq_mul]
      norm_num
      omega)]
    rw [floatToHalfCore_sum _ _ _ (by omega) (by omega) (by
      rw [shl_eq_mul]
      norm_num
      omega)]
    rw [if_neg (by omega), if_pos (by omega)]
    rw [show (h % 1024) <<< 13 = (h % 1024) * 2 ^ 13 from shl_eq_mul _ _,
      rne_mul_pow]
    rw [if_neg (by omega : ¬ h % 1024 = 1024)]
    rw [show h / 1024 % 32 + 112 - 112 = h / 1024 % 32 from by omega]
    rw [or3_15_10 _ _ _ (by omega) (by omega)]
    omega

theorem shl32_4_mod (x : Nat) : shl32 x 4 = x % 268435456 * 16 := by
  unfold shl32
  rw [shl_eq_mul]
  norm_num
  omega

theorem shl4_mask7ff0 (x : Nat) : shl32 x 4 &&& 32752 = x % 2048 * 16 := by
  rw [shl32_4_mod, show (32752 : Nat) = 2047 <<< 4 from rfl, and_shl,
    shr_eq_div, and2047_mod, shl_eq_mul]
  norm_num
  try omega

theorem sar7_mask7ff0 (x : Nat) : sar32 x 7 &&& 32752 = x / 2048 % 2048 * 16 := by
  unfold sar32
  rw [show (32752 : Nat) = 2047 <<< 4 from rfl]
  split
  · rw [and_shl, shr_eq_div, shr_eq_div, and2047_mod, shl_eq_mul]
    norm_num
    omega
  · rw [and_shl, shr_eq_div, shr_eq_div, shr_eq_div, and2047_mod, shl_eq_mul]
    norm_num
    omega

theorem sar17_mask7fe0 (x : Nat) : sar32 x 17 &&& 32736 = x / 4194304 % 1024 * 32 := by
  unfold sar32
  rw [show (32736 : Nat) = 1023 <<< 5 from rfl]
  split
  · rw [and_shl, shr_eq_div, shr_eq_div, and1023_mod, shl_eq_mul]
    norm_num
    omega
  · rw [and_shl, shr_eq_div, shr_eq_div, shr_eq_div, and1023_mod, shl_eq_mul]
    norm_num
    omega

theorem mask7ff0_val (f : Nat) (hf : f < 2048) : (f <<< 4) &&& 32752 = f * 16 := by
  rw [shl_eq_mul, show (32752 : Nat) = 2047 <<< 4 from rfl, and_shl,
    shr_eq_div, and2047_mod, shl_eq_mul]
  norm_num
  omega

theorem mask7fe0_val (f : Nat) (hf : f < 1024) : (f <<< 5) &&& 32736 = f * 32 := by
  rw [shl_eq_mul, show (32736 : Nat) = 1023 <<< 5 from rfl, and_shl,
    shr_eq_div, and1023_mod, shl_eq_mul]
  norm_num
  omega

theorem shr32_val16 (f : Nat) : shr32 (f * 16) 4 = f := by
  unfold shr32
  rw [shr_eq_div]
  norm_num

theorem shl4_shr10 (f : Nat) : (f <<< 4) >>> 10 &&& 31 = f >>> 6 &&& 31 := by
  rw [shl_eq_mul, shr_eq_div, shr_eq_div, and31_mod, and31_mod]
  norm_num
  omega

theorem shl5_shr10 (f : Nat) : (f <<< 5) >>> 10 &&& 31 = f >>> 5 &&& 31 := by
  rw [shl_eq_mul, shr_eq_div, shr_eq_div, and31_mod, and31_mod]
  norm_num
  omega

theorem halfToFloatBits_lt31 (h : Nat) (hh : h < 32768) :
    halfToFloatBits h < 2147483648 := by
  unfold halfToFloatBits
  simp only []
  have hs : h >>> 15 &&& 1 = 0 := by
    rw [shr_eq_div, and1_mod]
    norm_num
    omega
  rw [hs]
  have hm : h &&& 1023 = h % 1024 := and1023_mod h
  rw [hm]
  have he : h >>> 10 &&& 31 = h / 1024 % 32 := by
    rw [shr_eq_div, and31_mod]
    norm_num
  rw [he]
  split_ifs with h1 h2 h3
  · rw [shl_eq_mul]
    norm_num
  · have hm0 : h % 1024 ≠ 0 := h2
    have hl1 : 2 ^ Nat.log2 (h % 1024) ≤ h % 1024 := Nat.log2_self_le hm0
    have hl9 : Nat.log2 (h % 1024) ≤ 9 := by
      by_contra hc
      push_neg at hc
      have h10 : (2:ℕ) ^ 10 ≤ 2 ^ Nat.log2 (h % 1024) :=
        Nat.pow_le_pow_right (by norm_num) hc
      have h1024 : (2:ℕ) ^ 10 = 1024 := by norm_num
      omega
    have hmasked : (h % 1024) <<< (23 - Nat.log2 (h % 1024)) &&& 8388607 < 8388608 := by
      rw [and8388607_mod]
      omega
    rw [or3_31_23 _ _ _ (by omega) hmasked]
    omega
  · rw [or3_31_23 _ _ _ (by omega) (by rw [shl_eq_mul]; norm_num; try omega)]
    rw [shl_eq_mul]
    norm_num
    omega
  · rw [or3_31_23 _ _ _ (by omega) (by rw [shl_eq_mul]; norm_num; try omega)]
    rw [shl_eq_mul]
    norm_num
    omega

theorem fmaxZeroBits_id (w : Nat) (hw : w < 2147483648) : fmaxZeroBits w = w := by
  unfold fmaxZeroBits
  rw [if_neg]
  rw [shr_eq_div]
  norm_num
  omega

theorem rt_R32G32B32A32_SFLOAT (pow24 : ℚ → ℚ) (v : Fin 4 → Chan)
    (hrep : Rep VkFormat.R32G32B32A32_SFLOAT v) :
    RoundTripClose VkFormat.R32G32B32A32_SFLOAT v
      (fun c => decodeTexel pow24 VkFormat.R32G32B32A32_SFLOAT ![(v 0).intW, (v 1).intW, (v 2).intW, (v 3).intW] c) := by
  funext c
  fin_cases c
  · obtain ⟨w, hw, hlt⟩ := hrep 0
    show Chan.raw ((v 0).intW) = v 0
    rw [hw]
    rfl
  · obtain ⟨w, hw, hlt⟩ := hrep 1
    show Chan.raw ((v 1).intW) = v 1
    rw [hw]
    rfl
  · obtain ⟨w, hw, hlt⟩ := hrep 2
    show Chan.raw ((v 2).intW) = v 2
    rw [hw]
    rfl
  · obtain ⟨w, hw, hlt⟩ := hrep 3
    show Chan.raw ((v 3).intW) = v 3
    rw [hw]
    rfl

theorem rt_R32G32B32A32_SINT (pow24 : ℚ → ℚ) (v : Fin 4 → Chan)
    (hrep : Rep VkFormat.R32G32B32A32_SINT v) :
    RoundTripClose VkFormat.R32G32B32A32_SINT v
      (fun c => decodeTexel pow24 VkFormat.R32G32B32A32_SINT ![(v 0).intW, (v 1).intW, (v 2).intW, (v 3).intW] c) := by
  funext c
  fin_cases c
  · obtain ⟨z, hz, h1, h2⟩ := hrep 0
    show Chan.i (toInt32 ((v 0).intW)) = v 0
    rw [hz]
    show Chan.i (toInt32 (ofInt32 z)) = Chan.i z
    rw [toInt32_ofInt32 z h1 h2]
  · obtain ⟨z, hz, h1, h2⟩ := hrep 1
    show Chan.i (toInt32 ((v 1).intW)) = v 1
    rw [hz]
    show Chan.i (toInt32 (ofInt32 z)) = Chan.i z
    rw [toInt32_ofInt32 z h1 h2]
  · obtain ⟨z, hz, h1, h2⟩ := hrep 2
    show Chan.i (toInt32 ((v 2).intW)) = v 2
    rw [hz]
    show Chan.i (toInt32 (ofInt32 z)) = Chan.i z
    rw [toInt32_ofInt32 z h1 h2]
  · obtain ⟨z, hz, h1, h2⟩ := hrep 3
    show Chan.i (toInt32 ((v 3).intW)) = v 3
    rw [hz]
    show Chan.i (toInt32 (ofInt32 z)) = Chan.i z
    rw [toInt32_ofInt32 z h1 h2]

theorem rt_R32G32B32A32_UINT (pow24 : ℚ → ℚ) (v : Fin 4 → Chan)
    (hrep : Rep VkFormat.R32G32B32A32_UINT v) :
    RoundTripClose VkFormat.R32G32B32A32_UINT v
      (fun c => decodeTexel pow24 VkFormat.R32G32B32A32_UINT ![(v 0).intW, (v 1).intW, (v 2).intW, (v 3).intW] c) := by
  funext c
  fin_cases c
  · obtain ⟨n, hn, hlt⟩ := hrep 0
    show Chan.u ((v 0).intW) = v 0
    rw [hn]
    show Chan.u (ofInt32 (n : Int)) = Chan.u n
    rw [ofInt32_natCast n hlt]
  · obtain ⟨n, hn, hlt⟩ := hrep 1
    show Chan.u ((v 1).intW) = v 1
    rw [hn]
    show Chan.u (ofInt32 (n : Int)) = Chan.u n
    rw [ofInt32_natCast n hlt]
  · obtain ⟨n, hn, hlt⟩ := hrep 2
    show Chan.u ((v 2).intW) = v 2
    rw [hn]
    show Chan.u (ofInt32 (n : Int)) = Chan.u n
    rw [ofInt32_natCast n hlt]
  · obtain ⟨n, hn, hlt⟩ := hrep 3
    show Chan.u ((v 3).intW) = v 3
    rw [hn]
    show Chan.u (ofInt32 (n : Int)) = Chan.u n
    rw [ofInt32_natCast n hlt]

theorem rt_R32_SINT (pow24 : ℚ → ℚ) (v : Fin 4 → Chan)
    (hrep : Rep VkFormat.R32_SINT v) :
    RoundTripClose VkFormat.R32_SINT v
      (fun c => decodeTexel pow24 VkFormat.R32_SINT ![(v 0).intW, 0, 0, 0] c) := by
  obtain ⟨⟨z, hz, h1, h2⟩, e1, e2, e3⟩ := hrep
  funext c
  fin_cases c
  · show Chan.i (toInt32 ((v 0).intW)) = v 0
    rw [hz]
    show Chan.i (toInt32 (ofInt32 z)) = Chan.i z
    rw [toInt32_ofInt32 z h1 h2]
  · show Chan.i 0 = v 1
    rw [e1]
  · show Chan.i 0 = v 2
    rw [e2]
  · show Chan.i 1 = v 3
    rw [e3]

theorem rt_R32_UINT (pow24 : ℚ → ℚ) (v : Fin 4 → Chan)
    (hrep : Rep VkFormat.R32_UINT v) :
    RoundTripClose VkFormat.R32_UINT v
      (fun c => decodeTexel pow24 VkFormat.R32_UINT ![(v 0).intW, 0, 0, 0] c) := by
  obtain ⟨⟨n, hn, hlt⟩, e1, e2, e3⟩ := hrep
  funext c
  fin_cases c
  · show Chan.u ((v 0).intW) = v 0
    rw [hn]
    show Chan.u (ofInt32 (n : Int)) = Chan.u n
    rw [ofInt32_natCast n hlt]
  · show Chan.i 0 = v 1
    rw [e1]
  · show Chan.i 0 = v 2
    rw [e2]
  · show Chan.i 1 = v 3
    rw [e3]

theorem rt_R32_SFLOAT (pow24 : ℚ → ℚ) (v : Fin 4 → Chan)
    (hrep : Rep VkFormat.R32_SFLOAT v) :
    RoundTripClose VkFormat.R32_SFLOAT v
      (fun c => decodeTexel pow24 VkFormat.R32_SFLOAT ![(v 0).intW, 0, 0, 0] c) := by
  obtain ⟨⟨w, hw, hlt⟩, e1, e2, e3⟩ := hrep
  funext c
  fin_cases c
  · show Chan.raw ((v 0).intW) = v 0
    rw [hw]
    rfl
  · show Chan.f 0 = v 1
    rw [e1]
  · show Chan.f 0 = v 2
    rw [e2]
  · show Chan.f 1 = v 3
    rw [e3]

theorem rt_R16G16B16A16_UNORM (pow24 : ℚ → ℚ) (v : Fin 4 → Chan)
    (hrep : Rep VkFormat.R16G16B16A16_UNORM v) :
    RoundTripClose VkFormat.R16G16B16A16_UNORM v
      (fun c => decodeTexel pow24 VkFormat.R16G16B16A16_UNORM ![unormRound ((v 0).floatQ) 0xFFFF ||| shl32 (unormRound ((v 1).floatQ) 0xFFFF) 16, unormRound ((v 2).floatQ) 0xFFFF ||| shl32 (unormRound ((v 3).floatQ) 0xFFFF) 16, 0, 0] c) := by
  obtain ⟨q0, hq0, h00, h01⟩ := hrep 0
  obtain ⟨q1, hq1, h10, h11⟩ := hrep 1
  obtain ⟨q2, hq2, h20, h21⟩ := hrep 2
  obtain ⟨q3, hq3, h30, h31⟩ := hrep 3
  have hc0 := unorm_channel q0 65535 65535 (by norm_num) (by norm_num) h00 h01
  have hc1 := unorm_channel q1 65535 65535 (by norm_num) (by norm_num) h10 h11
  have hc2 := unorm_channel q2 65535 65535 (by norm_num) (by norm_num) h20 h21
  have hc3 := unorm_channel q3 65535 65535 (by norm_num) (by norm_num) h30 h31
  have hb0 := hc0.1
  have hb1 := hc1.1
  have hb2 := hc2.1
  have hb3 := hc3.1
  have hP0 : unormRound ((v 0).floatQ) 0xFFFF ||| shl32 (unormRound ((v 1).floatQ) 0xFFFF) 16 = unormRound q0 65535 + unormRound q1 65535 * 65536 := by
    rw [hq0, hq1]
    show unormRound q0 65535 ||| shl32 (unormRound q1 65535) 16 = _
    rw [pack16 _ _ (by omega) (by omega)]
  have hP1 : unormRound ((v 2).floatQ) 0xFFFF ||| shl32 (unormRound ((v 3).floatQ) 0xFFFF) 16 = unormRound q2 65535 + unormRound q3 65535 * 65536 := by
    rw [hq2, hq3]
    show unormRound q2 65535 ||| shl32 (unormRound q3 65535) 16 = _
    rw [pack16 _ _ (by omega) (by omega)]
  rw [hP0, hP1]
  unfold RoundTripClose
  intro c
  fin_cases c
  · refine ⟨q0, _, hq0, rfl, ?_⟩
    show |intToFloatQ ((unormRound q0 65535 + unormRound q1 65535 * 65536) &&& 65535) * (1 / 65535) - q0| ≤ 1 / 65535
    rw [and65535_mod]
    have ee0 : (unormRound q0 65535 + unormRound q1 65535 * 65536) % 65536 = unormRound q0 65535 := by omega
    rw [ee0, intToFloatQ_small _ (by omega)]
    exact hc0.2
  · refine ⟨q1, _, hq1, rfl, ?_⟩
    show |intToFloatQ (sar32 (unormRound q0 65535 + unormRound q1 65535 * 65536) 16 &&& 65535) * (1 / 65535) - q1| ≤ 1 / 65535
    rw [sar16_16]
    have ee1 : (unormRound q0 65535 + unormRound q1 65535 * 65536) / 65536 % 65536 = unormRound q1 65535 := by omega
    rw [ee1, intToFloatQ_small _ (by omega)]
    exact hc1.2
  · refine ⟨q2, _, hq2, rfl, ?_⟩
    show |intToFloatQ ((unormRound q2 65535 + unormRound q3 65535 * 65536) &&& 65535) * (1 / 65535) - q2| ≤ 1 / 65535
    rw [and65535_mod]
    have ee2 : (unormRound q2 65535 + unormRound q3 65535 * 65536) % 65536 = unormRound q2 65535 := by omega
    rw [ee2, intToFloatQ_small _ (by omega)]
    exact hc2.2
  · refine ⟨q3, _, hq3, rfl, ?_⟩
    show |intToFloatQ (sar32 (unormRound q2 65535 + unormRound q3 65535 * 65536) 16 &&& 65535) * (1 / 65535) - q3| ≤ 1 / 65535
    rw [sar16_16]
    have ee3 : (unormRound q2 65535 + unormRound q3 65535 * 65536) / 65536 % 65536 = unormRound q3 65535 := by omega
    rw [ee3, intToFloatQ_small _ (by omega)]
    exact hc3.2

theorem rt_R16G16B16A16_SNORM (pow24 : ℚ → ℚ) (v : Fin 4 → Chan)
    (hrep : Rep VkFormat.R16G16B16A16_SNORM v) :
    RoundTripClose VkFormat.R16G16B16A16_SNORM v
      (fun c => decodeTexel pow24 VkFormat.R16G16B16A16_SNORM ![(snormRound ((v 0).floatQ) 0x7FFF &&& 0xFFFF) ||| shl32 (snormRound ((v 1).floatQ) 0x7FFF) 16, (snormRound ((v 2).floatQ) 0x7FFF &&& 0xFFFF) ||| shl32 (snormRound ((v 3).floatQ) 0x7FFF) 16, 0, 0] c) := by
  obtain ⟨q0, hq0, h00, h01⟩ := hrep 0
  obtain ⟨q1, hq1, h10, h11⟩ := hrep 1
  obtain ⟨q2, hq2, h20, h21⟩ := hrep 2
  obtain ⟨q3, hq3, h30, h31⟩ := hrep 3
  obtain ⟨z0, hz0, hlo0, hhi0, hnear0, hneg0⟩ :=
    snorm_channel q0 32767 32767 (by norm_num) (by norm_num) h00 h01
  obtain ⟨z1, hz1, hlo1, hhi1, hnear1, hneg1⟩ :=
    snorm_channel q1 32767 32767 (by norm_num) (by norm_num) h10 h11
  obtain ⟨z2, hz2, hlo2, hhi2, hnear2, hneg2⟩ :=
    snorm_channel q2 32767 32767 (by norm_num) (by norm_num) h20 h21
  obtain ⟨z3, hz3, hlo3, hhi3, hnear3, hneg3⟩ :=
    snorm_channel q3 32767 32767 (by norm_num) (by norm_num) h30 h31
  have hP0 : (snormRound ((v 0).floatQ) 0x7FFF &&& 0xFFFF) ||| shl32 (snormRound ((v 1).floatQ) 0x7FFF) 16 = ofInt32 z0 % 65536 + ofInt32 z1 % 65536 * 65536 := by
    rw [hq0, hq1]
    show (snormRound q0 32767 &&& 65535) ||| shl32 (snormRound q1 32767) 16 = _
    rw [hz0, hz1, and65535_mod, shl32_mod_shl16,
      lor_shl_add _ _ 16 (by norm_num; omega)]
    norm_num
  have hP1 : (snormRound ((v 2).floatQ) 0x7FFF &&& 0xFFFF) ||| shl32 (snormRound ((v 3).floatQ) 0x7FFF) 16 = ofInt32 z2 % 65536 + ofInt32 z3 % 65536 * 65536 := by
    rw [hq2, hq3]
    show (snormRound q2 32767 &&& 65535) ||| shl32 (snormRound q3 32767) 16 = _
    rw [hz2, hz3, and65535_mod, shl32_mod_shl16,
      lor_shl_add _ _ 16 (by norm_num; omega)]
    norm_num
  rw [hP0, hP1]
  unfold RoundTripClose
  intro c
  fin_cases c
  · refine ⟨q0, _, hq0, rfl, ?_⟩
    show |max (intToFloatQ ((shl32 (ofInt32 z0 % 65536 + ofInt32 z1 % 65536 * 65536) 16) &&& 4294901760) * (1 / 2147418112)) (-1) - q0| ≤ 1 / 32767
    rw [snx_shl16_top16]
    have ee0 : (ofInt32 z0 % 65536 + ofInt32 z1 % 65536 * 65536) % 65536 = ofInt32 z0 % 65536 := by omega
    rw [ee0, snorm16_value z0 (by omega) (by omega), max_eq_left hneg0]
    exact hnear0
  · refine ⟨q1, _, hq1, rfl, ?_⟩
    show |max (intToFloatQ (((ofInt32 z0 % 65536 + ofInt32 z1 % 65536 * 65536)) &&& 4294901760) * (1 / 2147418112)) (-1) - q1| ≤ 1 / 32767
    rw [snx_plain_top16]
    have ee1 : (ofInt32 z0 % 65536 + ofInt32 z1 % 65536 * 65536) / 65536 % 65536 = ofInt32 z1 % 65536 := by omega
    rw [ee1, snorm16_value z1 (by omega) (by omega), max_eq_left hneg1]
    exact hnear1
  · refine ⟨q2, _, hq2, rfl, ?_⟩
    show |max (intToFloatQ ((shl32 (ofInt32 z2 % 65536 + ofInt32 z3 % 65536 * 65536) 16) &&& 4294901760) * (1 / 2147418112)) (-1) - q2| ≤ 1 / 32767
    rw [snx_shl16_top16]
    have ee2 : (ofInt32 z2 % 65536 + ofInt32 z3 % 65536 * 65536) % 65536 = ofInt32 z2 % 65536 := by omega
    rw [ee2, snorm16_value z2 (by omega) (by omega), max_eq_left hneg2]
    exact hnear2
  · refine ⟨q3, _, hq3, rfl, ?_⟩
    show |max (intToFloatQ (((ofInt32 z2 % 65536 + ofInt32 z3 % 65536 * 65536)) &&& 4294901760) * (1 / 2147418112)) (-1) - q3| ≤ 1 / 32767
    rw [snx_plain_top16]
    have ee3 : (ofInt32 z2 % 65536 + ofInt32 z3 % 65536 * 65536) / 65536 % 65536 = ofInt32 z3 % 65536 := by omega
    rw [ee3, snorm16_value z3 (by omega) (by omega), max_eq_left hneg3]
    exact hnear3

theorem rt_R16G16B16A16_SINT (pow24 : ℚ → ℚ) (v : Fin 4 → Chan)
    (hrep : Rep VkFormat.R16G16B16A16_SINT v) :
    RoundTripClose VkFormat.R16G16B16A16_SINT v
      (fun c => decodeTexel pow24 VkFormat.R16G16B16A16_SINT ![((v 0).intW &&& 0xFFFF) ||| shl32 ((v 1).intW &&& 0xFFFF) 16, ((v 2).intW &&& 0xFFFF) ||| shl32 ((v 3).intW &&& 0xFFFF) 16, 0, 0] c) := by
  obtain ⟨z0, hz0, h0a, h0b⟩ := hrep 0
  obtain ⟨z1, hz1, h1a, h1b⟩ := hrep 1
  obtain ⟨z2, hz2, h2a, h2b⟩ := hrep 2
  obtain ⟨z3, hz3, h3a, h3b⟩ := hrep 3
  have hP0 : ((v 0).intW &&& 0xFFFF) ||| shl32 ((v 1).intW &&& 0xFFFF) 16 = ofInt32 z0 % 65536 + ofInt32 z1 % 65536 * 65536 := by
    rw [hz0, hz1]
    simp only [Chan.intW]
    simp only [and65535_mod]
    rw [pack16 _ _ (by omega) (by omega)]
  have hP1 : ((v 2).intW &&& 0xFFFF) ||| shl32 ((v 3).intW &&& 0xFFFF) 16 = ofInt32 z2 % 65536 + ofInt32 z3 % 65536 * 65536 := by
    rw [hz2, hz3]
    simp only [Chan.intW]
    simp only [and65535_mod]
    rw [pack16 _ _ (by omega) (by omega)]
  rw [hP0, hP1]
  unfold RoundTripClose
  funext c
  fin_cases c
  · show Chan.i (toInt32 (sar32 (shl32 (ofInt32 z0 % 65536 + ofInt32 z1 % 65536 * 65536) 16) 16)) = v 0
    rw [sdec16_sh16, hz0]
    refine congrArg Chan.i ?_
    have e0 : (ofInt32 z0 % 65536 + ofInt32 z1 % 65536 * 65536) % 65536 = ofInt32 z0 % 65536 := by omega
    rw [e0]
    exact sfield16 z0 h0a (by omega)
  · show Chan.i (toInt32 (sar32 (ofInt32 z0 % 65536 + ofInt32 z1 % 65536 * 65536) 16)) = v 1
    rw [sdec16_plain (ofInt32 z0 % 65536 + ofInt32 z1 % 65536 * 65536) (by omega), hz1]
    refine congrArg Chan.i ?_
    have e1 : (ofInt32 z0 % 65536 + ofInt32 z1 % 65536 * 65536) / 65536 % 65536 = ofInt32 z1 % 65536 := by omega
    rw [e1]
    exact sfield16 z1 h1a (by omega)
  · show Chan.i (toInt32 (sar32 (shl32 (ofInt32 z2 % 65536 + ofInt32 z3 % 65536 * 65536) 16) 16)) = v 2
    rw [sdec16_sh16, hz2]
    refine congrArg Chan.i ?_
    have e2 : (ofInt32 z2 % 65536 + ofInt32 z3 % 65536 * 65536) % 65536 = ofInt32 z2 % 65536 := by omega
    rw [e2]
    exact sfield16 z2 h2a (by omega)
  · show Chan.i (toInt32 (sar32 (ofInt32 z2 % 65536 + ofInt32 z3 % 65536 * 65536) 16)) = v 3
    rw [sdec16_plain (ofInt32 z2 % 65536 + ofInt32 z3 % 65536 * 65536) (by omega), hz3]
    refine congrArg Chan.i ?_
    have e3 : (ofInt32 z2 % 65536 + ofInt32 z3 % 65536 * 65536) / 65536 % 65536 = ofInt32 z3 % 65536 := by omega
    rw [e3]
    exact sfield16 z3 h3a (by omega)

theorem rt_R16G16B16A16_UINT (pow24 : ℚ → ℚ) (v : Fin 4 → Chan)
    (hrep : Rep VkFormat.R16G16B16A16_UINT v) :
    RoundTripClose VkFormat.R16G16B16A16_UINT v
      (fun c => decodeTexel pow24 VkFormat.R16G16B16A16_UINT ![((v 0).intW &&& 0xFFFF) ||| shl32 ((v 1).intW &&& 0xFFFF) 16, ((v 2).intW &&& 0xFFFF) ||| shl32 ((v 3).intW &&& 0xFFFF) 16, 0, 0] c) := by
  obtain ⟨n0, hn0, hb0⟩ := hrep 0
  obtain ⟨n1, hn1, hb1⟩ := hrep 1
  obtain ⟨n2, hn2, hb2⟩ := hrep 2
  obtain ⟨n3, hn3, hb3⟩ := hrep 3
  have hP0 : ((v 0).intW &&& 0xFFFF) ||| shl32 ((v 1).intW &&& 0xFFFF) 16 = n0 + n1 * 65536 := by
    rw [hn0, hn1]
    simp only [Chan.u, Chan.intW]
    rw [ofInt32_natCast n0 (by omega), ofInt32_natCast n1 (by omega)]
    simp only [and65535_mod]
    rw [Nat.mod_eq_of_lt (show n0 < 65536 by omega),
      Nat.mod_eq_of_lt (show n1 < 65536 by omega),
      pack16 n0 n1 (by omega) (by omega)]
  have hP1 : ((v 2).intW &&& 0xFFFF) ||| shl32 ((v 3).intW &&& 0xFFFF) 16 = n2 + n3 * 65536 := by
    rw [hn2, hn3]
    simp only [Chan.u, Chan.intW]
    rw [ofInt32_natCast n2 (by omega), ofInt32_natCast n3 (by omega)]
    simp only [and65535_mod]
    rw [Nat.mod_eq_of_lt (show n2 < 65536 by omega),
      Nat.mod_eq_of_lt (show n3 < 65536 by omega),
      pack16 n2 n3 (by omega) (by omega)]
  rw [hP0, hP1]
  unfold RoundTripClose
  funext c
  fin_cases c
  · show Chan.u ((n0 + n1 * 65536) &&& 65535) = v 0
    rw [hn0, and65535_mod]
    exact congrArg Chan.u (by omega)
  · show Chan.u (sar32 (n0 + n1 * 65536) 16 &&& 65535) = v 1
    rw [hn1, sar16_16]
    exact congrArg Chan.u (by omega)
  · show Chan.u ((n2 + n3 * 65536) &&& 65535) = v 2
    rw [hn2, and65535_mod]
    exact congrArg Chan.u (by omega)
  · show Chan.u (sar32 (n2 + n3 * 65536) 16 &&& 65535) = v 3
    rw [hn3, sar16_16]
    exact congrArg Chan.u (by omega)

theorem rt_R16G16B16A16_SFLOAT (pow24 : ℚ → ℚ) (v : Fin 4 → Chan)
    (hrep : Rep VkFormat.R16G16B16A16_SFLOAT v) :
    RoundTripClose VkFormat.R16G16B16A16_SFLOAT v
      (fun c => decodeTexel pow24 VkFormat.R16G16B16A16_SFLOAT ![floatToHalfBits ((v 0).intW) false ||| floatToHalfBits ((v 1).intW) true, floatToHalfBits ((v 2).intW) false ||| floatToHalfBits ((v 3).intW) true, 0, 0] c) := by
  obtain ⟨h0, hfin0, hv0⟩ := hrep 0
  obtain ⟨h1, hfin1, hv1⟩ := hrep 1
  obtain ⟨h2, hfin2, hv2⟩ := hrep 2
  obtain ⟨h3, hfin3, hv3⟩ := hrep 3
  have hb0 := hfin0.1
  have hb1 := hfin1.1
  have hb2 := hfin2.1
  have hb3 := hfin3.1
  have hP0 : floatToHalfBits ((v 0).intW) false ||| floatToHalfBits ((v 1).intW) true = h0 + h1 * 65536 := by
    rw [hv0, hv1]
    show floatToHalfCore (halfToFloatBits h0) |||
      floatToHalfCore (halfToFloatBits h1) <<< 16 = _
    rw [half_roundtrip h0 hfin0, half_roundtrip h1 hfin1]
    rw [lor_eq_add_of_mod2 _ _ 16 (by norm_num; omega)
      (by rw [shl_eq_mul]; norm_num; try omega)]
    rw [shl_eq_mul]
    norm_num
  have hP1 : floatToHalfBits ((v 2).intW) false ||| floatToHalfBits ((v 3).intW) true = h2 + h3 * 65536 := by
    rw [hv2, hv3]
    show floatToHalfCore (halfToFloatBits h2) |||
      floatToHalfCore (halfToFloatBits h3) <<< 16 = _
    rw [half_roundtrip h2 hfin2, half_roundtrip h3 hfin3]
    rw [lor_eq_add_of_mod2 _ _ 16 (by norm_num; omega)
      (by rw [shl_eq_mul]; norm_num; try omega)]
    rw [shl_eq_mul]
    norm_num
  rw [hP0, hP1]
  unfold RoundTripClose
  funext c
  fin_cases c
  · show Chan.raw (halfToFloatBits ((h0 + h1 * 65536) &&& 65535)) = v 0
    rw [and65535_mod]
    have ee0 : (h0 + h1 * 65536) % 65536 = h0 := by omega
    rw [ee0, hv0]
  · show Chan.raw (halfToFloatBits (shr32 ((h0 + h1 * 65536) &&& 4294901760) 16)) = v 1
    have ee1 : shr32 ((h0 + h1 * 65536) &&& 4294901760) 16 = h1 := by
      rw [snx_plain_top16]
      unfold shr32
      rw [shr_eq_div]
      norm_num
      omega
    rw [ee1, hv1]
  · show Chan.raw (halfToFloatBits ((h2 + h3 * 65536) &&& 65535)) = v 2
    rw [and65535_mod]
    have ee2 : (h2 + h3 * 65536) % 65536 = h2 := by omega
    rw [ee2, hv2]
  · show Chan.raw (halfToFloatBits (shr32 ((h2 + h3 * 65536) &&& 4294901760) 16)) = v 3
    have ee3 : shr32 ((h2 + h3 * 65536) &&& 4294901760) 16 = h3 := by
      rw [snx_plain_top16]
      unfold shr32
      rw [shr_eq_div]
      norm_num
      omega
    rw [ee3, hv3]

theorem rt_R8G8B8A8_SNORM (pow24 : ℚ → ℚ) (v : Fin 4 → Chan)
    (hrep : Rep VkFormat.R8G8B8A8_SNORM v) :
    RoundTripClose VkFormat.R8G8B8A8_SNORM v
      (fun c => decodeTexel pow24 VkFormat.R8G8B8A8_SNORM ![(snormRound ((v 0).floatQ) 0x7F &&& 0xFF) ||| shl32 (snormRound ((v 1).floatQ) 0x7F &&& 0xFF) 8 ||| shl32 (snormRound ((v 2).floatQ) 0x7F &&& 0xFF) 16 ||| shl32 (snormRound ((v 3).floatQ) 0x7F &&& 0xFF) 24, 0, 0, 0] c) := by
  obtain ⟨q0, hq0, h00, h01⟩ := hrep 0
  obtain ⟨q1, hq1, h10, h11⟩ := hrep 1
  obtain ⟨q2, hq2, h20, h21⟩ := hrep 2
  obtain ⟨q3, hq3, h30, h31⟩ := hrep 3
  obtain ⟨z0, hz0, hlo0, hhi0, hnear0, hneg0⟩ :=
    snorm_channel q0 127 127 (by norm_num) (by norm_num) h00 h01
  obtain ⟨z1, hz1, hlo1, hhi1, hnear1, hneg1⟩ :=
    snorm_channel q1 127 127 (by norm_num) (by norm_num) h10 h11
  obtain ⟨z2, hz2, hlo2, hhi2, hnear2, hneg2⟩ :=
    snorm_channel q2 127 127 (by norm_num) (by norm_num) h20 h21
  obtain ⟨z3, hz3, hlo3, hhi3, hnear3, hneg3⟩ :=
    snorm_channel q3 127 127 (by norm_num) (by norm_num) h30 h31
  have hP : (snormRound ((v 0).floatQ) 0x7F &&& 0xFF) ||| shl32 (snormRound ((v 1).floatQ) 0x7F &&& 0xFF) 8 ||| shl32 (snormRound ((v 2).floatQ) 0x7F &&& 0xFF) 16 ||| shl32 (snormRound ((v 3).floatQ) 0x7F &&& 0xFF) 24 = ofInt32 z0 % 256 + ofInt32 z1 % 256 * 256 + ofInt32 z2 % 256 * 65536 + ofInt32 z3 % 256 * 16777216 := by
    rw [hq0, hq1, hq2, hq3]
    show (snormRound q0 127 &&& 255) ||| shl32 (snormRound q1 127 &&& 255) 8 ||| shl32 (snormRound q2 127 &&& 255) 16 ||| shl32 (snormRound q3 127 &&& 255) 24 = _
    rw [hz0, hz1, hz2, hz3]
    simp only [and255_mod]
    rw [pack8 _ _ _ _ (by omega) (by omega) (by omega) (by omega)]
  rw [hP]
  unfold RoundTripClose
  intro c
  fin_cases c
  · refine ⟨q0, _, hq0, rfl, ?_⟩
    show |max (intToFloatQ ((shl32 (ofInt32 z0 % 256 + ofInt32 z1 % 256 * 256 + ofInt32 z2 % 256 * 65536 + ofInt32 z3 % 256 * 16777216) 24) &&& 4278190080) * (1 / 2130706432)) (-1) - q0| ≤ 1 / 127
    rw [snx_top8]
    have ee0 : (ofInt32 z0 % 256 + ofInt32 z1 % 256 * 256 + ofInt32 z2 % 256 * 65536 + ofInt32 z3 % 256 * 16777216) % 256 = ofInt32 z0 % 256 := by omega
    rw [ee0, snorm8_value z0 (by omega) (by omega), max_eq_left hneg0]
    exact hnear0
  · refine ⟨q1, _, hq1, rfl, ?_⟩
    show |max (intToFloatQ ((shl32 (ofInt32 z0 % 256 + ofInt32 z1 % 256 * 256 + ofInt32 z2 % 256 * 65536 + ofInt32 z3 % 256 * 16777216) 16) &&& 4278190080) * (1 / 2130706432)) (-1) - q1| ≤ 1 / 127
    rw [snx_shl16_top8]
    have ee1 : (ofInt32 z0 % 256 + ofInt32 z1 % 256 * 256 + ofInt32 z2 % 256 * 65536 + ofInt32 z3 % 256 * 16777216) / 256 % 256 = ofInt32 z1 % 256 := by omega
    rw [ee1, snorm8_value z1 (by omega) (by omega), max_eq_left hneg1]
    exact hnear1
  · refine ⟨q2, _, hq2, rfl, ?_⟩
    show |max (intToFloatQ ((shl32 (ofInt32 z0 % 256 + ofInt32 z1 % 256 * 256 + ofInt32 z2 % 256 * 65536 + ofInt32 z3 % 256 * 16777216) 8) &&& 4278190080) * (1 / 2130706432)) (-1) - q2| ≤ 1 / 127
    rw [snx_shl8_top8]
    have ee2 : (ofInt32 z0 % 256 + ofInt32 z1 % 256 * 256 + ofInt32 z2 % 256 * 65536 + ofInt32 z3 % 256 * 16777216) / 65536 % 256 = ofInt32 z2 % 256 := by omega
    rw [ee2, snorm8_value z2 (by omega) (by omega), max_eq_left hneg2]
    exact hnear2
  · refine ⟨q3, _, hq3, rfl, ?_⟩
    show |max (intToFloatQ (((ofInt32 z0 % 256 + ofInt32 z1 % 256 * 256 + ofInt32 z2 % 256 * 65536 + ofInt32 z3 % 256 * 16777216)) &&& 4278190080) * (1 / 2130706432)) (-1) - q3| ≤ 1 / 127
    rw [snx_plain_top8]
    have ee3 : (ofInt32 z0 % 256 + ofInt32 z1 % 256 * 256 + ofInt32 z2 % 256 * 65536 + ofInt32 z3 % 256 * 16777216) / 16777216 % 256 = ofInt32 z3 % 256 := by omega
    rw [ee3, snorm8_value z3 (by omega) (by omega), max_eq_left hneg3]
    exact hnear3

theorem rt_R8G8B8A8_UNORM (pow24 : ℚ → ℚ) (v : Fin 4 → Chan)
    (hrep : Rep VkFormat.R8G8B8A8_UNORM v) :
    RoundTripClose VkFormat.R8G8B8A8_UNORM v
      (fun c => decodeTexel pow24 VkFormat.R8G8B8A8_UNORM ![unormRound ((v 0).floatQ) 0xFF ||| shl32 (unormRound ((v 1).floatQ) 0xFF) 8 ||| shl32 (unormRound ((v 2).floatQ) 0xFF) 16 ||| shl32 (unormRound ((v 3).floatQ) 0xFF) 24, 0, 0, 0] c) := by
  obtain ⟨q0, hq0, h00, h01⟩ := hrep 0
  obtain ⟨q1, hq1, h10, h11⟩ := hrep 1
  obtain ⟨q2, hq2, h20, h21⟩ := hrep 2
  obtain ⟨q3, hq3, h30, h31⟩ := hrep 3
  have hc0 := unorm_channel q0 255 255 (by norm_num) (by norm_num) h00 h01
  have hc1 := unorm_channel q1 255 255 (by norm_num) (by norm_num) h10 h11
  have hc2 := unorm_channel q2 255 255 (by norm_num) (by norm_num) h20 h21
  have hc3 := unorm_channel q3 255 255 (by norm_num) (by norm_num) h30 h31
  have hb0 := hc0.1
  have hb1 := hc1.1
  have hb2 := hc2.1
  have hb3 := hc3.1
  have hP : unormRound ((v 0).floatQ) 0xFF ||| shl32 (unormRound ((v 1).floatQ) 0xFF) 8 ||| shl32 (unormRound ((v 2).floatQ) 0xFF) 16 ||| shl32 (unormRound ((v 3).floatQ) 0xFF) 24 = unormRound q0 255 + unormRound q1 255 * 256 + unormRound q2 255 * 65536 + unormRound q3 255 * 16777216 := by
    rw [hq0, hq1, hq2, hq3]
    show unormRound q0 255 ||| shl32 (unormRound q1 255) 8 ||| shl32 (unormRound q2 255) 16 ||| shl32 (unormRound q3 255) 24 = _
    rw [pack8 _ _ _ _ (by omega) (by omega) (by omega) (by omega)]
  rw [hP]
  unfold RoundTripClose
  intro c
  fin_cases c
  · refine ⟨q0, _, hq0, rfl, ?_⟩
    show |intToFloatQ ((unormRound q0 255 + unormRound q1 255 * 256 + unormRound q2 255 * 65536 + unormRound q3 255 * 16777216) &&& 255) * (1 / 255) - q0| ≤ 1 / 255
    rw [and255_mod]
    have ee0 : (unormRound q0 255 + unormRound q1 255 * 256 + unormRound q2 255 * 65536 + unormRound q3 255 * 16777216) % 256 = unormRound q0 255 := by omega
    rw [ee0, intToFloatQ_small _ (by omega)]
    exact hc0.2
  · refine ⟨q1, _, hq1, rfl, ?_⟩
    show |intToFloatQ (sar32 (unormRound q0 255 + unormRound q1 255 * 256 + unormRound q2 255 * 65536 + unormRound q3 255 * 16777216) 8 &&& 255) * (1 / 255) - q1| ≤ 1 / 255
    rw [sar8_8]
    have ee1 : (unormRound q0 255 + unormRound q1 255 * 256 + unormRound q2 255 * 65536 + unormRound q3 255 * 16777216) / 256 % 256 = unormRound q1 255 := by omega
    rw [ee1, intToFloatQ_small _ (by omega)]
    exact hc1.2
  · refine ⟨q2, _, hq2, rfl, ?_⟩
    show |intToFloatQ (sar32 (unormRound q0 255 + unormRound q1 255 * 256 + unormRound q2 255 * 65536 + unormRound q3 255 * 16777216) 16 &&& 255) * (1 / 255) - q2| ≤ 1 / 255
    rw [sar8_16]
    have ee2 : (unormRound q0 255 + unormRound q1 255 * 256 + unormRound q2 255 * 65536 + unormRound q3 255 * 16777216) / 65536 % 256 = unormRound q2 255 := by omega
    rw [ee2, intToFloatQ_small _ (by omega)]
    exact hc2.2
  · refine ⟨q3, _, hq3, rfl, ?_⟩
    show |intToFloatQ (sar32 (unormRound q0 255 + unormRound q1 255 * 256 + unormRound q2 255 * 65536 + unormRound q3 255 * 16777216) 24 &&& 255) * (1 / 255) - q3| ≤ 1 / 255
    rw [sar8_24]
    have ee3 : (unormRound q0 255 + unormRound q1 255 * 256 + unormRound q2 255 * 65536 + unormRound q3 255 * 16777216) / 16777216 % 256 = unormRound q3 255 := by omega
    rw [ee3, intToFloatQ_small _ (by omega)]
    exact hc3.2

theorem rt_R8G8B8A8_UINT (pow24 : ℚ → ℚ) (v : Fin 4 → Chan)
    (hrep : Rep VkFormat.R8G8B8A8_UINT v) :
    RoundTripClose VkFormat.R8G8B8A8_UINT v
      (fun c => decodeTexel pow24 VkFormat.R8G8B8A8_UINT ![((v 0).intW &&& 0xFF) ||| shl32 ((v 1).intW &&& 0xFF) 8 ||| shl32 ((v 2).intW &&& 0xFF) 16 ||| shl32 ((v 3).intW &&& 0xFF) 24, 0, 0, 0] c) := by
  obtain ⟨n0, hn0, hb0⟩ := hrep 0
  obtain ⟨n1, hn1, hb1⟩ := hrep 1
  obtain ⟨n2, hn2, hb2⟩ := hrep 2
  obtain ⟨n3, hn3, hb3⟩ := hrep 3
  have hP : ((v 0).intW &&& 0xFF) ||| shl32 ((v 1).intW &&& 0xFF) 8 ||| shl32 ((v 2).intW &&& 0xFF) 16 ||| shl32 ((v 3).intW &&& 0xFF) 24 = n0 + n1 * 256 + n2 * 65536 + n3 * 16777216 := by
    rw [hn0, hn1, hn2, hn3]
    simp only [Chan.u, Chan.intW]
    rw [ofInt32_natCast n0 (by omega), ofInt32_natCast n1 (by omega),
      ofInt32_natCast n2 (by omega), ofInt32_natCast n3 (by omega)]
    simp only [and255_mod]
    rw [Nat.mod_eq_of_lt (show n0 < 256 by omega),
      Nat.mod_eq_of_lt (show n1 < 256 by omega),
      Nat.mod_eq_of_lt (show n2 < 256 by omega),
      Nat.mod_eq_of_lt (show n3 < 256 by omega),
      pack8 n0 n1 n2 n3 (by omega) (by omega) (by omega) (by omega)]
  rw [hP]
  unfold RoundTripClose
  funext c
  fin_cases c
  · show Chan.u ((n0 + n1 * 256 + n2 * 65536 + n3 * 16777216) &&& 255) = v 0
    rw [hn0, and255_mod]
    exact congrArg Chan.u (by omega)
  · show Chan.u (shr32 (n0 + n1 * 256 + n2 * 65536 + n3 * 16777216) 8 &&& 255) = v 1
    rw [hn1, shr8_8]
    exact congrArg Chan.u (by omega)
  · show Chan.u (shr32 (n0 + n1 * 256 + n2 * 65536 + n3 * 16777216) 16 &&& 255) = v 2
    rw [hn2, shr8_16]
    exact congrArg Chan.u (by omega)
  · show Chan.u (shr32 (n0 + n1 * 256 + n2 * 65536 + n3 * 16777216) 24 &&& 255) = v 3
    rw [hn3, shr8_24]
    exact congrArg Chan.u (by omega)

theorem rt_R8G8B8A8_SINT (pow24 : ℚ → ℚ) (v : Fin 4 → Chan)
    (hrep : Rep VkFormat.R8G8B8A8_SINT v) :
    RoundTripClose VkFormat.R8G8B8A8_SINT v
      (fun c => decodeTexel pow24 VkFormat.R8G8B8A8_SINT ![((v 0).intW &&& 0xFF) ||| shl32 ((v 1).intW &&& 0xFF) 8 ||| shl32 ((v 2).intW &&& 0xFF) 16 ||| shl32 ((v 3).intW &&& 0xFF) 24, 0, 0, 0] c) := by
  obtain ⟨z0, hz0, h0a, h0b⟩ := hrep 0
  obtain ⟨z1, hz1, h1a, h1b⟩ := hrep 1
  obtain ⟨z2, hz2, h2a, h2b⟩ := hrep 2
  obtain ⟨z3, hz3, h3a, h3b⟩ := hrep 3
  have hP : ((v 0).intW &&& 0xFF) ||| shl32 ((v 1).intW &&& 0xFF) 8 ||| shl32 ((v 2).intW &&& 0xFF) 16 ||| shl32 ((v 3).intW &&& 0xFF) 24 = ofInt32 z0 % 256 + ofInt32 z1 % 256 * 256 + ofInt32 z2 % 256 * 65536 + ofInt32 z3 % 256 * 16777216 := by
    rw [hz0, hz1, hz2, hz3]
    simp only [Chan.intW]
    simp only [and255_mod]
    rw [pack8 _ _ _ _ (by omega) (by omega) (by omega) (by omega)]
  rw [hP]
  unfold RoundTripClose
  funext c
  fin_cases c
  · show Chan.i (toInt32 (sar32 (shl32 (ofInt32 z0 % 256 + ofInt32 z1 % 256 * 256 + ofInt32 z2 % 256 * 65536 + ofInt32 z3 % 256 * 16777216) 24) 24)) = v 0
    rw [sdec8_sh24, hz0]
    refine congrArg Chan.i ?_
    have e0 : (ofInt32 z0 % 256 + ofInt32 z1 % 256 * 256 + ofInt32 z2 % 256 * 65536 + ofInt32 z3 % 256 * 16777216) % 256 = ofInt32 z0 % 256 := by omega
    rw [e0]
    exact sfield8 z0 h0a (by omega)
  · show Chan.i (toInt32 (sar32 (shl32 (ofInt32 z0 % 256 + ofInt32 z1 % 256 * 256 + ofInt32 z2 % 256 * 65536 + ofInt32 z3 % 256 * 16777216) 16) 24)) = v 1
    rw [sdec8_sh16, hz1]
    refine congrArg Chan.i ?_
    have e1 : (ofInt32 z0 % 256 + ofInt32 z1 % 256 * 256 + ofInt32 z2 % 256 * 65536 + ofInt32 z3 % 256 * 16777216) / 256 % 256 = ofInt32 z1 % 256 := by omega
    rw [e1]
    exact sfield8 z1 h1a (by omega)
  · show Chan.i (toInt32 (sar32 (shl32 (ofInt32 z0 % 256 + ofInt32 z1 % 256 * 256 + ofInt32 z2 % 256 * 65536 + ofInt32 z3 % 256 * 16777216) 8) 24)) = v 2
    rw [sdec8_sh8, hz2]
    refine congrArg Chan.i ?_
    have e2 : (ofInt32 z0 % 256 + ofInt32 z1 % 256 * 256 + ofInt32 z2 % 256 * 65536 + ofInt32 z3 % 256 * 16777216) / 65536 % 256 = ofInt32 z2 % 256 := by omega
    rw [e2]
    exact sfield8 z2 h2a (by omega)
  · show Chan.i (toInt32 (sar32 (ofInt32 z0 % 256 + ofInt32 z1 % 256 * 256 + ofInt32 z2 % 256 * 65536 + ofInt32 z3 % 256 * 16777216) 24)) = v 3
    rw [sdec8_plain (ofInt32 z0 % 256 + ofInt32 z1 % 256 * 256 + ofInt32 z2 % 256 * 65536 + ofInt32 z3 % 256 * 16777216) (by omega), hz3]
    refine congrArg Chan.i ?_
    have e3 : (ofInt32 z0 % 256 + ofInt32 z1 % 256 * 256 + ofInt32 z2 % 256 * 65536 + ofInt32 z3 % 256 * 16777216) / 16777216 % 256 = ofInt32 z3 % 256 := by omega
    rw [e3]
    exact sfield8 z3 h3a (by omega)

theorem rt_R8_UNORM (pow24 : ℚ → ℚ) (v : Fin 4 → Chan)
    (hrep : Rep VkFormat.R8_UNORM v) :
    RoundTripClose VkFormat.R8_UNORM v
      (fun c => decodeTexel pow24 VkFormat.R8_UNORM ![unormRound ((v 0).floatQ) 0xFF, 0, 0, 0] c) := by
  obtain ⟨⟨q0, hq0, h00, h01⟩, e1, e2, e3⟩ := hrep
  have hc0 := unorm_channel q0 255 255 (by norm_num) (by norm_num) h00 h01
  have hP : unormRound ((v 0).floatQ) 0xFF = unormRound q0 255 := by
    rw [hq0]
    rfl
  rw [hP]
  unfold RoundTripClose
  refine ⟨?_, ?_, ?_, ?_⟩
  · refine ⟨q0, _, hq0, rfl, ?_⟩
    have hb := hc0.1
    show |intToFloatQ (unormRound q0 255 &&& 255) * (1 / 255) - q0| ≤ 1 / 255
    rw [and255_mod, Nat.mod_eq_of_lt (by omega),
      intToFloatQ_small _ (by omega)]
    exact hc0.2
  · show Chan.f 0 = v 1
    rw [e1]
  · show Chan.f 0 = v 2
    rw [e2]
  · show Chan.f 1 = v 3
    rw [e3]

theorem rt_R8_SNORM (pow24 : ℚ → ℚ) (v : Fin 4 → Chan)
    (hrep : Rep VkFormat.R8_SNORM v) :
    RoundTripClose VkFormat.R8_SNORM v
      (fun c => decodeTexel pow24 VkFormat.R8_SNORM ![snormRound ((v 0).floatQ) 0x7F, 0, 0, 0] c) := by
  obtain ⟨⟨q0, hq0, h00, h01⟩, e1, e2, e3⟩ := hrep
  obtain ⟨z0, hz0, hlo0, hhi0, hnear0, hneg0⟩ :=
    snorm_channel q0 127 127 (by norm_num) (by norm_num) h00 h01
  have hP : snormRound ((v 0).floatQ) 0x7F = ofInt32 z0 := by
    rw [hq0]
    show snormRound q0 127 = _
    rw [hz0]
  rw [hP]
  unfold RoundTripClose
  refine ⟨?_, ?_, ?_, ?_⟩
  · refine ⟨q0, _, hq0, rfl, ?_⟩
    show |max (intToFloatQ ((shl32 (ofInt32 z0) 24) &&& 4278190080) * (1 / 2130706432)) (-1) - q0| ≤ 1 / 127
    rw [snx_top8]
    have ee0 : (ofInt32 z0) % 256 = ofInt32 z0 % 256 := by omega
    rw [ee0, snorm8_value z0 (by omega) (by omega), max_eq_left hneg0]
    exact hnear0
  · show Chan.f 0 = v 1
    rw [e1]
  · show Chan.f 0 = v 2
    rw [e2]
  · show Chan.f 1 = v 3
    rw [e3]

theorem rt_R8_UINT (pow24 : ℚ → ℚ) (v : Fin 4 → Chan)
    (hrep : Rep VkFormat.R8_UINT v) :
    RoundTripClose VkFormat.R8_UINT v
      (fun c => decodeTexel pow24 VkFormat.R8_UINT ![(v 0).intW &&& 0xFF, 0, 0, 0] c) := by
  obtain ⟨⟨n, hn, hb⟩, e1, e2, e3⟩ := hrep
  have hP : (v 0).intW &&& 0xFF = n := by
    rw [hn]
    simp only [Chan.u, Chan.intW]
    rw [ofInt32_natCast n (by omega), and255_mod]
    omega
  rw [hP]
  unfold RoundTripClose
  funext c
  fin_cases c
  · show Chan.u (n &&& 255) = v 0
    rw [hn, and255_mod]
    exact congrArg Chan.u (by omega)
  · show Chan.i 0 = v 1
    rw [e1]
  · show Chan.i 0 = v 2
    rw [e2]
  · show Chan.i 1 = v 3
    rw [e3]

theorem rt_R8_SINT (pow24 : ℚ → ℚ) (v : Fin 4 → Chan)
    (hrep : Rep VkFormat.R8_SINT v) :
    RoundTripClose VkFormat.R8_SINT v
      (fun c => decodeTexel pow24 VkFormat.R8_SINT ![(v 0).intW &&& 0xFF, 0, 0, 0] c) := by
  obtain ⟨⟨z0, hz0, h0a, h0b⟩, e1, e2, e3⟩ := hrep
  have hP : (v 0).intW &&& 0xFF = ofInt32 z0 % 256 := by
    rw [hz0]
    simp only [Chan.intW]
    rw [and255_mod]
  rw [hP]
  unfold RoundTripClose
  funext c
  fin_cases c
  · show Chan.i (toInt32 (sar32 (shl32 (ofInt32 z0 % 256) 24) 24)) = v 0
    rw [sdec8_sh24, hz0]
    refine congrArg Chan.i ?_
    have e0 : (ofInt32 z0 % 256) % 256 = ofInt32 z0 % 256 := by omega
    rw [e0]
    exact sfield8 z0 h0a (by omega)
  · show Chan.i 0 = v 1
    rw [e1]
  · show Chan.i 0 = v 2
    rw [e2]
  · show Chan.i 1 = v 3
    rw [e3]

theorem rt_R8G8_UNORM (pow24 : ℚ → ℚ) (v : Fin 4 → Chan)
    (hrep : Rep VkFormat.R8G8_UNORM v) :
    RoundTripClose VkFormat.R8G8_UNORM v
      (fun c => decodeTexel pow24 VkFormat.R8G8_UNORM ![unormRound ((v 0).floatQ) 0xFF ||| shl32 (unormRound ((v 1).floatQ) 0xFF) 8, 0, 0, 0] c) := by
  obtain ⟨⟨q0, hq0, h00, h01⟩, ⟨q1, hq1, h10, h11⟩, e2, e3⟩ := hrep
  have hc0 := unorm_channel q0 255 255 (by norm_num) (by norm_num) h00 h01
  have hc1 := unorm_channel q1 255 255 (by norm_num) (by norm_num) h10 h11
  have hb0 := hc0.1
  have hb1 := hc1.1
  have hP : unormRound ((v 0).floatQ) 0xFF ||| shl32 (unormRound ((v 1).floatQ) 0xFF) 8 = unormRound q0 255 + unormRound q1 255 * 256 := by
    rw [hq0, hq1]
    show unormRound q0 255 ||| shl32 (unormRound q1 255) 8 = _
    rw [pack8b _ _ (by omega) (by omega)]
  rw [hP]
  unfold RoundTripClose
  refine ⟨?_, ?_, ?_, ?_⟩
  · refine ⟨q0, _, hq0, rfl, ?_⟩
    show |intToFloatQ ((unormRound q0 255 + unormRound q1 255 * 256) &&& 255) * (1 / 255) - q0| ≤ 1 / 255
    rw [and255_mod]
    have ee0 : (unormRound q0 255 + unormRound q1 255 * 256) % 256 = unormRound q0 255 := by omega
    rw [ee0, intToFloatQ_small _ (by omega)]
    exact hc0.2
  · refine ⟨q1, _, hq1, rfl, ?_⟩
    show |intToFloatQ (sar32 (unormRound q0 255 + unormRound q1 255 * 256) 8 &&& 255) * (1 / 255) - q1| ≤ 1 / 255
    rw [sar8_8]
    have ee1 : (unormRound q0 255 + unormRound q1 255 * 256) / 256 % 256 = unormRound q1 255 := by omega
    rw [ee1, intToFloatQ_small _ (by omega)]
    exact hc1.2
  · show Chan.f 0 = v 2
    rw [e2]
  · show Chan.f 1 = v 3
    rw [e3]

theorem rt_R8G8_SNORM (pow24 : ℚ → ℚ) (v : Fin 4 → Chan)
    (hrep : Rep VkFormat.R8G8_SNORM v) :
    RoundTripClose VkFormat.R8G8_SNORM v
      (fun c => decodeTexel pow24 VkFormat.R8G8_SNORM ![(snormRound ((v 0).floatQ) 0x7F &&& 0xFF) ||| shl32 (snormRound ((v 1).floatQ) 0x7F) 8, 0, 0, 0] c) := by
  obtain ⟨⟨q0, hq0, h00, h01⟩, ⟨q1, hq1, h10, h11⟩, e2, e3⟩ := hrep
  obtain ⟨z0, hz0, hlo0, hhi0, hnear0, hneg0⟩ :=
    snorm_channel q0 127 127 (by norm_num) (by norm_num) h00 h01
  obtain ⟨z1, hz1, hlo1, hhi1, hnear1, hneg1⟩ :=
    snorm_channel q1 127 127 (by norm_num) (by norm_num) h10 h11
  have hP : (snormRound ((v 0).floatQ) 0x7F &&& 0xFF) ||| shl32 (snormRound ((v 1).floatQ) 0x7F) 8 = ofInt32 z0 % 256 + ofInt32 z1 % 16777216 * 256 := by
    rw [hq0, hq1]
    show (snormRound q0 127 &&& 255) ||| shl32 (snormRound q1 127) 8 = _
    rw [hz0, hz1, and255_mod, shl32_mod_shl8,
      lor_shl_add _ _ 8 (by norm_num; omega)]
    norm_num
  rw [hP]
  unfold RoundTripClose
  refine ⟨?_, ?_, ?_, ?_⟩
  · refine ⟨q0, _, hq0, rfl, ?_⟩
    show |max (intToFloatQ ((shl32 (ofInt32 z0 % 256 + ofInt32 z1 % 16777216 * 256) 24) &&& 4278190080) * (1 / 2130706432)) (-1) - q0| ≤ 1 / 127
    rw [snx_top8]
    have ee0 : (ofInt32 z0 % 256 + ofInt32 z1 % 16777216 * 256) % 256 = ofInt32 z0 % 256 := by omega
    rw [ee0, snorm8_value z0 (by omega) (by omega), max_eq_left hneg0]
    exact hnear0
  · refine ⟨q1, _, hq1, rfl, ?_⟩
    show |max (intToFloatQ ((shl32 (ofInt32 z0 % 256 + ofInt32 z1 % 16777216 * 256) 16) &&& 4278190080) * (1 / 2130706432)) (-1) - q1| ≤ 1 / 127
    rw [snx_shl16_top8]
    have ee1 : (ofInt32 z0 % 256 + ofInt32 z1 % 16777216 * 256) / 256 % 256 = ofInt32 z1 % 256 := by omega
    rw [ee1, snorm8_value z1 (by omega) (by omega), max_eq_left hneg1]
    exact hnear1
  · show Chan.f 0 = v 2
    rw [e2]
  · show Chan.f 1 = v 3
    rw [e3]

theorem rt_R8G8_UINT (pow24 : ℚ → ℚ) (v : Fin 4 → Chan)
    (hrep : Rep VkFormat.R8G8_UINT v) :
    RoundTripClose VkFormat.R8G8_UINT v
      (fun c => decodeTexel pow24 VkFormat.R8G8_UINT ![((v 0).intW &&& 0xFF) ||| shl32 ((v 1).intW &&& 0xFF) 8, 0, 0, 0] c) := by
  obtain ⟨⟨n0, hn0, hb0⟩, ⟨n1, hn1, hb1⟩, e2, e3⟩ := hrep
  have hP : ((v 0).intW &&& 0xFF) ||| shl32 ((v 1).intW &&& 0xFF) 8 = n0 + n1 * 256 := by
    rw [hn0, hn1]
    simp only [Chan.u, Chan.intW]
    rw [ofInt32_natCast n0 (by omega), ofInt32_natCast n1 (by omega)]
    simp only [and255_mod]
    rw [Nat.mod_eq_of_lt (show n0 < 256 by omega),
      Nat.mod_eq_of_lt (show n1 < 256 by omega),
      pack8b n0 n1 (by omega) (by omega)]
  rw [hP]
  unfold RoundTripClose
  funext c
  fin_cases c
  · show Chan.u ((n0 + n1 * 256) &&& 255) = v 0
    rw [hn0, and255_mod]
    exact congrArg Chan.u (by omega)
  · show Chan.u (shr32 (n0 + n1 * 256) 8 &&& 255) = v 1
    rw [hn1, shr8_8]
    exact congrArg Chan.u (by omega)
  · show Chan.i 0 = v 2
    rw [e2]
  · show Chan.i 1 = v 3
    rw [e3]

theorem rt_R8G8_SINT (pow24 : ℚ → ℚ) (v : Fin 4 → Chan)
    (hrep : Rep VkFormat.R8G8_SINT v) :
    RoundTripClose VkFormat.R8G8_SINT v
      (fun c => decodeTexel pow24 VkFormat.R8G8_SINT ![((v 0).intW &&& 0xFF) ||| shl32 ((v 1).intW &&& 0xFF) 8, 0, 0, 0] c) := by
  obtain ⟨⟨z0, hz0, h0a, h0b⟩, ⟨z1, hz1, h1a, h1b⟩, e2, e3⟩ := hrep
  have hP : ((v 0).intW &&& 0xFF) ||| shl32 ((v 1).intW &&& 0xFF) 8 = ofInt32 z0 % 256 + ofInt32 z1 % 256 * 256 := by
    rw [hz0, hz1]
    simp only [Chan.intW]
    simp only [and255_mod]
    rw [pack8b _ _ (by omega) (by omega)]
  rw [hP]
  unfold RoundTripClose
  funext c
  fin_cases c
  · show Chan.i (toInt32 (sar32 (shl32 (ofInt32 z0 % 256 + ofInt32 z1 % 256 * 256) 24) 24)) = v 0
    rw [sdec8_sh24, hz0]
    refine congrArg Chan.i ?_
    have e0 : (ofInt32 z0 % 256 + ofInt32 z1 % 256 * 256) % 256 = ofInt32 z0 % 256 := by omega
    rw [e0]
    exact sfield8 z0 h0a (by omega)
  · show Chan.i (toInt32 (sar32 (shl32 (ofInt32 z0 % 256 + ofInt32 z1 % 256 * 256) 16) 24)) = v 1
    rw [sdec8_sh16, hz1]
    refine congrArg Chan.i ?_
    have e1 : (ofInt32 z0 % 256 + ofInt32 z1 % 256 * 256) / 256 % 256 = ofInt32 z1 % 256 := by omega
    rw [e1]
    exact sfield8 z1 h1a (by omega)
  · show Chan.i 0 = v 2
    rw [e2]
  · show Chan.i 1 = v 3
    rw [e3]

theorem rt_R16_SFLOAT (pow24 : ℚ → ℚ) (v : Fin 4 → Chan)
    (hrep : Rep VkFormat.R16_SFLOAT v) :
    RoundTripClose VkFormat.R16_SFLOAT v
      (fun c => decodeTexel pow24 VkFormat.R16_SFLOAT ![floatToHalfBits ((v 0).intW) false, 0, 0, 0] c) := by
  obtain ⟨⟨h0, hfin0, hv0⟩, e1, e2, e3⟩ := hrep
  have hP : floatToHalfBits ((v 0).intW) false = h0 := by
    rw [hv0]
    show floatToHalfCore (halfToFloatBits h0) = h0
    exact half_roundtrip h0 hfin0
  rw [hP]
  unfold RoundTripClose
  funext c
  fin_cases c
  · show Chan.raw (halfToFloatBits (h0 &&& 65535)) = v 0
    rw [and65535_mod, Nat.mod_eq_of_lt hfin0.1, hv0]
  · show Chan.f 0 = v 1
    rw [e1]
  · show Chan.f 0 = v 2
    rw [e2]
  · show Chan.f 1 = v 3
    rw [e3]

theorem rt_R16_UNORM (pow24 : ℚ → ℚ) (v : Fin 4 → Chan)
    (hrep : Rep VkFormat.R16_UNORM v) :
    RoundTripClose VkFormat.R16_UNORM v
      (fun c => decodeTexel pow24 VkFormat.R16_UNORM ![unormRound ((v 0).floatQ) 0xFFFF, 0, 0, 0] c) := by
  obtain ⟨⟨q0, hq0, h00, h01⟩, e1, e2, e3⟩ := hrep
  have hc0 := unorm_channel q0 65535 65535 (by norm_num) (by norm_num) h00 h01
  have hb0 := hc0.1
  have hP : unormRound ((v 0).floatQ) 0xFFFF = unormRound q0 65535 := by
    rw [hq0]
    rfl
  rw [hP]
  unfold RoundTripClose
  refine ⟨?_, ?_, ?_, ?_⟩
  · refine ⟨q0, _, hq0, rfl, ?_⟩
    show |intToFloatQ (unormRound q0 65535 &&& 65535) * (1 / 65535) - q0| ≤ 1 / 65535
    rw [and65535_mod, Nat.mod_eq_of_lt (by omega),
      intToFloatQ_small _ (by omega)]
    exact hc0.2
  · show Chan.f 0 = v 1
    rw [e1]
  · show Chan.f 0 = v 2
    rw [e2]
  · show Chan.f 1 = v 3
    rw [e3]

theorem rt_R16_SNORM (pow24 : ℚ → ℚ) (v : Fin 4 → Chan)
    (hrep : Rep VkFormat.R16_SNORM v) :
    RoundTripClose VkFormat.R16_SNORM v
      (fun c => decodeTexel pow24 VkFormat.R16_SNORM ![snormRound ((v 0).floatQ) 0x7FFF, 0, 0, 0] c) := by
  obtain ⟨⟨q0, hq0, h00, h01⟩, e1, e2, e3⟩ := hrep
  obtain ⟨z0, hz0, hlo0, hhi0, hnear0, hneg0⟩ :=
    snorm_channel q0 32767 32767 (by norm_num) (by norm_num) h00 h01
  have hP : snormRound ((v 0).floatQ) 0x7FFF = ofInt32 z0 := by
    rw [hq0]
    show snormRound q0 32767 = _
    rw [hz0]
  rw [hP]
  unfold RoundTripClose
  refine ⟨?_, ?_, ?_, ?_⟩
  · refine ⟨q0, _, hq0, rfl, ?_⟩
    show |max (intToFloatQ ((shl32 (ofInt32 z0) 16) &&& 4294901760) * (1 / 2147418112)) (-1) - q0| ≤ 1 / 32767
    rw [snx_shl16_top16]
    have ee0 : (ofInt32 z0) % 65536 = ofInt32 z0 % 65536 := by omega
    rw [ee0, snorm16_value z0 (by omega) (by omega), max_eq_left hneg0]
    exact hnear0
  · show Chan.f 0 = v 1
    rw [e1]
  · show Chan.f 0 = v 2
    rw [e2]
  · show Chan.f 1 = v 3
    rw [e3]

theorem rt_R16_UINT (pow24 : ℚ → ℚ) (v : Fin 4 → Chan)
    (hrep : Rep VkFormat.R16_UINT v) :
    RoundTripClose VkFormat.R16_UINT v
      (fun c => decodeTexel pow24 VkFormat.R16_UINT ![(v 0).intW &&& 0xFFFF, 0, 0, 0] c) := by
  obtain ⟨⟨n, hn, hb⟩, e1, e2, e3⟩ := hrep
  have hP : (v 0).intW &&& 0xFFFF = n := by
    rw [hn]
    simp only [Chan.u, Chan.intW]
    rw [ofInt32_natCast n (by omega), and65535_mod]
    omega
  rw [hP]
  unfold RoundTripClose
  funext c
  fin_cases c
  · show Chan.u (n &&& 65535) = v 0
    rw [hn, and65535_mod]
    exact congrArg Chan.u (by omega)
  · show Chan.i 0 = v 1
    rw [e1]
  · show Chan.i 0 = v 2
    rw [e2]
  · show Chan.i 1 = v 3
    rw [e3]

theorem rt_R16_SINT (pow24 : ℚ → ℚ) (v : Fin 4 → Chan)
    (hrep : Rep VkFormat.R16_SINT v) :
    RoundTripClose VkFormat.R16_SINT v
      (fun c => decodeTexel pow24 VkFormat.R16_SINT ![(v 0).intW &&& 0xFFFF, 0, 0, 0] c) := by
  obtain ⟨⟨z0, hz0, h0a, h0b⟩, e1, e2, e3⟩ := hrep
  have hP : (v 0).intW &&& 0xFFFF = ofInt32 z0 % 65536 := by
    rw [hz0]
    simp only [Chan.intW]
    rw [and65535_mod]
  rw [hP]
  unfold RoundTripClose
  funext c
  fin_cases c
  · show Chan.i (toInt32 (sar32 (shl32 (ofInt32 z0 % 65536) 16) 16)) = v 0
    rw [sdec16_sh16, hz0]
    refine congrArg Chan.i ?_
    have e0 : (ofInt32 z0 % 65536) % 65536 = ofInt32 z0 % 65536 := by omega
    rw [e0]
    exact sfield16 z0 h0a (by omega)
  · show Chan.i 0 = v 1
    rw [e1]
  · show Chan.i 0 = v 2
    rw [e2]
  · show Chan.i 1 = v 3
    rw [e3]

theorem rt_R16G16_SFLOAT (pow24 : ℚ → ℚ) (v : Fin 4 → Chan)
    (hrep : Rep VkFormat.R16G16_SFLOAT v) :
    RoundTripClose VkFormat.R16G16_SFLOAT v
      (fun c => decodeTexel pow24 VkFormat.R16G16_SFLOAT ![floatToHalfBits ((v 0).intW) false ||| floatToHalfBits ((v 1).intW) true, 0, 0, 0] c) := by
  obtain ⟨⟨h0, hfin0, hv0⟩, ⟨h1, hfin1, hv1⟩, e2, e3⟩ := hrep
  have hb0 := hfin0.1
  have hb1 := hfin1.1
  have hP : floatToHalfBits ((v 0).intW) false ||| floatToHalfBits ((v 1).intW) true = h0 + h1 * 65536 := by
    rw [hv0, hv1]
    show floatToHalfCore (halfToFloatBits h0) |||
      floatToHalfCore (halfToFloatBits h1) <<< 16 = _
    rw [half_roundtrip h0 hfin0, half_roundtrip h1 hfin1]
    rw [lor_eq_add_of_mod2 _ _ 16 (by norm_num; omega)
      (by rw [shl_eq_mul]; norm_num; try omega)]
    rw [shl_eq_mul]
    norm_num
  rw [hP]
  unfold RoundTripClose
  funext c
  fin_cases c
  · show Chan.raw (halfToFloatBits ((h0 + h1 * 65536) &&& 65535)) = v 0
    rw [and65535_mod]
    have ee0 : (h0 + h1 * 65536) % 65536 = h0 := by omega
    rw [ee0, hv0]
  · show Chan.raw (halfToFloatBits (shr32 ((h0 + h1 * 65536) &&& 4294901760) 16)) = v 1
    have ee1 : shr32 ((h0 + h1 * 65536) &&& 4294901760) 16 = h1 := by
      rw [snx_plain_top16]
      unfold shr32
      rw [shr_eq_div]
      norm_num
      omega
    rw [ee1, hv1]
  · show Chan.f 0 = v 2
    rw [e2]
  · show Chan.f 1 = v 3
    rw [e3]

theorem rt_R16G16_UNORM (pow24 : ℚ → ℚ) (v : Fin 4 → Chan)
    (hrep : Rep VkFormat.R16G16_UNORM v) :
    RoundTripClose VkFormat.R16G16_UNORM v
      (fun c => decodeTexel pow24 VkFormat.R16G16_UNORM ![unormRound ((v 0).floatQ) 0xFFFF ||| shl32 (unormRound ((v 1).floatQ) 0xFFFF) 16, 0, 0, 0] c) := by
  obtain ⟨⟨q0, hq0, h00, h01⟩, ⟨q1, hq1, h10, h11⟩, e2, e3⟩ := hrep
  have hc0 := unorm_channel q0 65535 65535 (by norm_num) (by norm_num) h00 h01
  have hc1 := unorm_channel q1 65535 65535 (by norm_num) (by norm_num) h10 h11
  have hb0 := hc0.1
  have hb1 := hc1.1
  have hP : unormRound ((v 0).floatQ) 0xFFFF ||| shl32 (unormRound ((v 1).floatQ) 0xFFFF) 16 = unormRound q0 65535 + unormRound q1 65535 * 65536 := by
    rw [hq0, hq1]
    show unormRound q0 65535 ||| shl32 (unormRound q1 65535) 16 = _
    rw [pack16 _ _ (by omega) (by omega)]
  rw [hP]
  unfold RoundTripClose
  refine ⟨?_, ?_, ?_, ?_⟩
  · refine ⟨q0, _, hq0, rfl, ?_⟩
    show |intToFloatQ ((unormRound q0 65535 + unormRound q1 65535 * 65536) &&& 65535) * (1 / 65535) - q0| ≤ 1 / 65535
    rw [and65535_mod]
    have ee0 : (unormRound q0 65535 + unormRound q1 65535 * 65536) % 65536 = unormRound q0 65535 := by omega
    rw [ee0, intToFloatQ_small _ (by omega)]
    exact hc0.2
  · refine ⟨q1, _, hq1, rfl, ?_⟩
    show |uintToFloatQ (shr32 (unormRound q0 65535 + unormRound q1 65535 * 65536) 16) * (1 / 65535) - q1| ≤ 1 / 65535
    have ee1 : shr32 (unormRound q0 65535 + unormRound q1 65535 * 65536) 16 = unormRound q1 65535 := by
      unfold shr32
      rw [shr_eq_div]
      norm_num
      omega
    rw [ee1]
    show |((unormRound q1 65535 : ℕ) : ℚ) * (1 / 65535) - q1| ≤ 1 / 65535
    exact hc1.2
  · show Chan.f 0 = v 2
    rw [e2]
  · show Chan.f 1 = v 3
    rw [e3]

theorem rt_R16G16_SNORM (pow24 : ℚ → ℚ) (v : Fin 4 → Chan)
    (hrep : Rep VkFormat.R16G16_SNORM v) :
    RoundTripClose VkFormat.R16G16_SNORM v
      (fun c => decodeTexel pow24 VkFormat.R16G16_SNORM ![(snormRound ((v 0).floatQ) 0x7FFF &&& 0xFFFF) ||| shl32 (snormRound ((v 1).floatQ) 0x7FFF) 16, 0, 0, 0] c) := by
  obtain ⟨⟨q0, hq0, h00, h01⟩, ⟨q1, hq1, h10, h11⟩, e2, e3⟩ := hrep
  obtain ⟨z0, hz0, hlo0, hhi0, hnear0, hneg0⟩ :=
    snorm_channel q0 32767 32767 (by norm_num) (by norm_num) h00 h01
  obtain ⟨z1, hz1, hlo1, hhi1, hnear1, hneg1⟩ :=
    snorm_channel q1 32767 32767 (by norm_num) (by norm_num) h10 h11
  have hP : (snormRound ((v 0).floatQ) 0x7FFF &&& 0xFFFF) ||| shl32 (snormRound ((v 1).floatQ) 0x7FFF) 16 = ofInt32 z0 % 65536 + ofInt32 z1 % 65536 * 65536 := by
    rw [hq0, hq1]
    show (snormRound q0 32767 &&& 65535) ||| shl32 (snormRound q1 32767) 16 = _
    rw [hz0, hz1, and65535_mod, shl32_mod_shl16,
      lor_shl_add _ _ 16 (by norm_num; omega)]
    norm_num
  rw [hP]
  unfold RoundTripClose
  refine ⟨?_, ?_, ?_, ?_⟩
  · refine ⟨q0, _, hq0, rfl, ?_⟩
    show |max (intToFloatQ ((shl32 (ofInt32 z0 % 65536 + ofInt32 z1 % 65536 * 65536) 16) &&& 4294901760) * (1 / 2147418112)) (-1) - q0| ≤ 1 / 32767
    rw [snx_shl16_top16]
    have ee0 : (ofInt32 z0 % 65536 + ofInt32 z1 % 65536 * 65536) % 65536 = ofInt32 z0 % 65536 := by omega
    rw [ee0, snorm16_value z0 (by omega) (by omega), max_eq_left hneg0]
    exact hnear0
  · refine ⟨q1, _, hq1, rfl, ?_⟩
    show |max (intToFloatQ (((ofInt32 z0 % 65536 + ofInt32 z1 % 65536 * 65536)) &&& 4294901760) * (1 / 2147418112)) (-1) - q1| ≤ 1 / 32767
    rw [snx_plain_top16]
    have ee1 : (ofInt32 z0 % 65536 + ofInt32 z1 % 65536 * 65536) / 65536 % 65536 = ofInt32 z1 % 65536 := by omega
    rw [ee1, snorm16_value z1 (by omega) (by omega), max_eq_left hneg1]
    exact hnear1
  · show Chan.f 0 = v 2
    rw [e2]
  · show Chan.f 1 = v 3
    rw [e3]

theorem rt_R16G16_UINT (pow24 : ℚ → ℚ) (v : Fin 4 → Chan)
    (hrep : Rep VkFormat.R16G16_UINT v) :
    RoundTripClose VkFormat.R16G16_UINT v
      (fun c => decodeTexel pow24 VkFormat.R16G16_UINT ![((v 0).intW &&& 0xFFFF) ||| shl32 ((v 1).intW &&& 0xFFFF) 16, 0, 0, 0] c) := by
  obtain ⟨⟨n0, hn0, hb0⟩, ⟨n1, hn1, hb1⟩, e2, e3⟩ := hrep
  have hP : ((v 0).intW &&& 0xFFFF) ||| shl32 ((v 1).intW &&& 0xFFFF) 16 = n0 + n1 * 65536 := by
    rw [hn0, hn1]
    simp only [Chan.u, Chan.intW]
    rw [ofInt32_natCast n0 (by omega), ofInt32_natCast n1 (by omega)]
    simp only [and65535_mod]
    rw [Nat.mod_eq_of_lt (show n0 < 65536 by omega),
      Nat.mod_eq_of_lt (show n1 < 65536 by omega),
      pack16 n0 n1 (by omega) (by omega)]
  rw [hP]
  unfold RoundTripClose
  funext c
  fin_cases c
  · show Chan.u ((n0 + n1 * 65536) &&& 65535) = v 0
    rw [hn0, and65535_mod]
    exact congrArg Chan.u (by omega)
  · show Chan.u (sar32 (n0 + n1 * 65536) 16 &&& 65535) = v 1
    rw [hn1, sar16_16]
    exact congrArg Chan.u (by omega)
  · show Chan.i 0 = v 2
    rw [e2]
  · show Chan.i 1 = v 3
    rw [e3]

theorem rt_R16G16_SINT (pow24 : ℚ → ℚ) (v : Fin 4 → Chan)
    (hrep : Rep VkFormat.R16G16_SINT v) :
    RoundTripClose VkFormat.R16G16_SINT v
      (fun c => decodeTexel pow24 VkFormat.R16G16_SINT ![((v 0).intW &&& 0xFFFF) ||| shl32 ((v 1).intW &&& 0xFFFF) 16, 0, 0, 0] c) := by
  obtain ⟨⟨z0, hz0, h0a, h0b⟩, ⟨z1, hz1, h1a, h1b⟩, e2, e3⟩ := hrep
  have hP : ((v 0).intW &&& 0xFFFF) ||| shl32 ((v 1).intW &&& 0xFFFF) 16 = ofInt32 z0 % 65536 + ofInt32 z1 % 65536 * 65536 := by
    rw [hz0, hz1]
    simp only [Chan.intW]
    simp only [and65535_mod]
    rw [pack16 _ _ (by omega) (by omega)]
  rw [hP]
  unfold RoundTripClose
  funext c
  fin_cases c
  · show Chan.i (toInt32 (sar32 (shl32 (ofInt32 z0 % 65536 + ofInt32 z1 % 65536 * 65536) 16) 16)) = v 0
    rw [sdec16_sh16, hz0]
    refine congrArg Chan.i ?_
    have e0 : (ofInt32 z0 % 65536 + ofInt32 z1 % 65536 * 65536) % 65536 = ofInt32 z0 % 65536 := by omega
    rw [e0]
    exact sfield16 z0 h0a (by omega)
  · show Chan.i (toInt32 (sar32 (ofInt32 z0 % 65536 + ofInt32 z1 % 65536 * 65536) 16)) = v 1
    rw [sdec16_plain (ofInt32 z0 % 65536 + ofInt32 z1 % 65536 * 65536) (by omega), hz1]
    refine congrArg Chan.i ?_
    have e1 : (ofInt32 z0 % 65536 + ofInt32 z1 % 65536 * 65536) / 65536 % 65536 = ofInt32 z1 % 65536 := by omega
    rw [e1]
    exact sfield16 z1 h1a (by omega)
  · show Chan.i 0 = v 2
    rw [e2]
  · show Chan.i 1 = v 3
    rw [e3]

theorem rt_R32G32_SINT (pow24 : ℚ → ℚ) (v : Fin 4 → Chan)
    (hrep : Rep VkFormat.R32G32_SINT v) :
    RoundTripClose VkFormat.R32G32_SINT v
      (fun c => decodeTexel pow24 VkFormat.R32G32_SINT ![(v 0).intW, (v 1).intW, 0, 0] c) := by
  obtain ⟨⟨z, hz, h1, h2⟩, ⟨z2, hz2, h21, h22⟩, e2, e3⟩ := hrep
  funext c
  fin_cases c
  · show Chan.i (toInt32 ((v 0).intW)) = v 0
    rw [hz]
    show Chan.i (toInt32 (ofInt32 z)) = Chan.i z
    rw [toInt32_ofInt32 z h1 h2]
  · show Chan.i (toInt32 ((v 1).intW)) = v 1
    rw [hz2]
    show Chan.i (toInt32 (ofInt32 z2)) = Chan.i z2
    rw [toInt32_ofInt32 z2 h21 h22]
  · show Chan.i 0 = v 2
    rw [e2]
  · show Chan.i 1 = v 3
    rw [e3]

theorem rt_R32G32_UINT (pow24 : ℚ → ℚ) (v : Fin 4 → Chan)
    (hrep : Rep VkFormat.R32G32_UINT v) :
    RoundTripClose VkFormat.R32G32_UINT v
      (fun c => decodeTexel pow24 VkFormat.R32G32_UINT ![(v 0).intW, (v 1).intW, 0, 0] c) := by
  obtain ⟨⟨n, hn, hlt⟩, ⟨n2, hn2, hlt2⟩, e2, e3⟩ := hrep
  funext c
  fin_cases c
  · show Chan.u ((v 0).intW) = v 0
    rw [hn]
    show Chan.u (ofInt32 (n : Int)) = Chan.u n
    rw [ofInt32_natCast n hlt]
  · show Chan.u ((v 1).intW) = v 1
    rw [hn2]
    show Chan.u (ofInt32 (n2 : Int)) = Chan.u n2
    rw [ofInt32_natCast n2 hlt2]
  · show Chan.i 0 = v 2
    rw [e2]
  · show Chan.i 1 = v 3
    rw [e3]

theorem rt_R32G32_SFLOAT (pow24 : ℚ → ℚ) (v : Fin 4 → Chan)
    (hrep : Rep VkFormat.R32G32_SFLOAT v) :
    RoundTripClose VkFormat.R32G32_SFLOAT v
      (fun c => decodeTexel pow24 VkFormat.R32G32_SFLOAT ![(v 0).intW, (v 1).intW, 0, 0] c) := by
  obtain ⟨⟨w, hw, hlt⟩, ⟨w2, hw2, hlt2⟩, e2, e3⟩ := hrep
  funext c
  fin_cases c
  · show Chan.raw ((v 0).intW) = v 0
    rw [hw]
    rfl
  · show Chan.raw ((v 1).intW) = v 1
    rw [hw2]
    rfl
  · show Chan.f 0 = v 2
    rw [e2]
  · show Chan.f 1 = v 3
    rw [e3]

theorem rt_A2B10G10R10_UINT_PACK32 (pow24 : ℚ → ℚ) (v : Fin 4 → Chan)
    (hrep : Rep VkFormat.A2B10G10R10_UINT_PACK32 v) :
    RoundTripClose VkFormat.A2B10G10R10_UINT_PACK32 v
      (fun c => decodeTexel pow24 VkFormat.A2B10G10R10_UINT_PACK32 ![((v 0).intW &&& 0x3FF) ||| shl32 ((v 1).intW &&& 0x3FF) 10 ||| shl32 ((v 2).intW &&& 0x3FF) 20 ||| shl32 ((v 3).intW &&& 0x3) 30, 0, 0, 0] c) := by
  obtain ⟨⟨n0, hn0, hb0⟩, ⟨n1, hn1, hb1⟩, ⟨n2, hn2, hb2⟩, ⟨n3, hn3, hb3⟩⟩ := hrep
  have hP : ((v 0).intW &&& 0x3FF) ||| shl32 ((v 1).intW &&& 0x3FF) 10 ||| shl32 ((v 2).intW &&& 0x3FF) 20 ||| shl32 ((v 3).intW &&& 0x3) 30 = n0 + n1 * 1024 + n2 * 1048576 + n3 * 1073741824 := by
    rw [hn0, hn1, hn2, hn3]
    simp only [Chan.u, Chan.intW]
    rw [ofInt32_natCast n0 (by omega), ofInt32_natCast n1 (by omega),
      ofInt32_natCast n2 (by omega), ofInt32_natCast n3 (by omega)]
    simp only [and1023_mod, and3_mod]
    rw [Nat.mod_eq_of_lt (show n0 < 1024 by omega),
      Nat.mod_eq_of_lt (show n1 < 1024 by omega),
      Nat.mod_eq_of_lt (show n2 < 1024 by omega),
      Nat.mod_eq_of_lt (show n3 < 4 by omega),
      pack10 n0 n1 n2 n3 (by omega) (by omega) (by omega) (by omega)]
  rw [hP]
  unfold RoundTripClose
  funext c
  fin_cases c
  · show Chan.u ((n0 + n1 * 1024 + n2 * 1048576 + n3 * 1073741824) &&& 1023) = v 0
    rw [hn0, and1023_mod]
    exact congrArg Chan.u (by omega)
  · show Chan.u (sar32 (n0 + n1 * 1024 + n2 * 1048576 + n3 * 1073741824) 10 &&& 1023) = v 1
    rw [hn1, sar10_10]
    exact congrArg Chan.u (by omega)
  · show Chan.u (sar32 (n0 + n1 * 1024 + n2 * 1048576 + n3 * 1073741824) 20 &&& 1023) = v 2
    rw [hn2, sar10_20]
    exact congrArg Chan.u (by omega)
  · show Chan.u (sar32 (n0 + n1 * 1024 + n2 * 1048576 + n3 * 1073741824) 30 &&& 3) = v 3
    rw [hn3, sar2_30]
    exact congrArg Chan.u (by omega)

theorem rt_A2B10G10R10_UNORM_PACK32 (pow24 : ℚ → ℚ) (v : Fin 4 → Chan)
    (hrep : Rep VkFormat.A2B10G10R10_UNORM_PACK32 v) :
    RoundTripClose VkFormat.A2B10G10R10_UNORM_PACK32 v
      (fun c => decodeTexel pow24 VkFormat.A2B10G10R10_UNORM_PACK32 ![unormRound ((v 0).floatQ) 0x3FF ||| shl32 (unormRound ((v 1).floatQ) 0x3FF) 10 ||| shl32 (unormRound ((v 2).floatQ) 0x3FF) 20 ||| shl32 (unormRound ((v 3).floatQ) 0x3) 30, 0, 0, 0] c) := by
  obtain ⟨q0, hq0, h00, h01⟩ := hrep 0
  obtain ⟨q1, hq1, h10, h11⟩ := hrep 1
  obtain ⟨q2, hq2, h20, h21⟩ := hrep 2
  obtain ⟨q3, hq3, h30, h31⟩ := hrep 3
  have hc0 := unorm_channel q0 1023 1023 (by norm_num) (by norm_num) h00 h01
  have hc1 := unorm_channel q1 1023 1023 (by norm_num) (by norm_num) h10 h11
  have hc2 := unorm_channel q2 1023 1023 (by norm_num) (by norm_num) h20 h21
  have hc3 := unorm_channel q3 3 3 (by norm_num) (by norm_num) h30 h31
  have hb0 := hc0.1
  have hb1 := hc1.1
  have hb2 := hc2.1
  have hb3 := hc3.1
  have hP : unormRound ((v 0).floatQ) 0x3FF ||| shl32 (unormRound ((v 1).floatQ) 0x3FF) 10 ||| shl32 (unormRound ((v 2).floatQ) 0x3FF) 20 ||| shl32 (unormRound ((v 3).floatQ) 0x3) 30 = unormRound q0 1023 + unormRound q1 1023 * 1024 + unormRound q2 1023 * 1048576 + unormRound q3 3 * 1073741824 := by
    rw [hq0, hq1, hq2, hq3]
    show unormRound q0 1023 ||| shl32 (unormRound q1 1023) 10 ||| shl32 (unormRound q2 1023) 20 ||| shl32 (unormRound q3 3) 30 = _
    rw [pack10 _ _ _ _ (by omega) (by omega) (by omega) (by omega)]
  rw [hP]
  unfold RoundTripClose
  refine ⟨?_, ?_, ?_, ?_⟩
  · refine ⟨q0, _, hq0, rfl, ?_⟩
    show |intToFloatQ ((unormRound q0 1023 + unormRound q1 1023 * 1024 + unormRound q2 1023 * 1048576 + unormRound q3 3 * 1073741824) &&& 1023) * (1 / 1023) - q0| ≤ 1 / 1023
    rw [and1023_mod]
    have ee0 : (unormRound q0 1023 + unormRound q1 1023 * 1024 + unormRound q2 1023 * 1048576 + unormRound q3 3 * 1073741824) % 1024 = unormRound q0 1023 := by omega
    rw [ee0, intToFloatQ_small _ (by omega)]
    exact hc0.2
  · refine ⟨q1, _, hq1, rfl, ?_⟩
    show |intToFloatQ (sar32 (unormRound q0 1023 + unormRound q1 1023 * 1024 + unormRound q2 1023 * 1048576 + unormRound q3 3 * 1073741824) 10 &&& 1023) * (1 / 1023) - q1| ≤ 1 / 1023
    rw [sar10_10]
    have ee1 : (unormRound q0 1023 + unormRound q1 1023 * 1024 + unormRound q2 1023 * 1048576 + unormRound q3 3 * 1073741824) / 1024 % 1024 = unormRound q1 1023 := by omega
    rw [ee1, intToFloatQ_small _ (by omega)]
    exact hc1.2
  · refine ⟨q2, _, hq2, rfl, ?_⟩
    show |intToFloatQ (sar32 (unormRound q0 1023 + unormRound q1 1023 * 1024 + unormRound q2 1023 * 1048576 + unormRound q3 3 * 1073741824) 20 &&& 1023) * (1 / 1023) - q2| ≤ 1 / 1023
    rw [sar10_20]
    have ee2 : (unormRound q0 1023 + unormRound q1 1023 * 1024 + unormRound q2 1023 * 1048576 + unormRound q3 3 * 1073741824) / 1048576 % 1024 = unormRound q2 1023 := by omega
    rw [ee2, intToFloatQ_small _ (by omega)]
    exact hc2.2
  · refine ⟨q3, _, hq3, rfl, ?_⟩
    show |intToFloatQ (sar32 (unormRound q0 1023 + unormRound q1 1023 * 1024 + unormRound q2 1023 * 1048576 + unormRound q3 3 * 1073741824) 30 &&& 3) * (1 / 3) - q3| ≤ 1 / 3
    rw [sar2_30]
    have ee3 : (unormRound q0 1023 + unormRound q1 1023 * 1024 + unormRound q2 1023 * 1048576 + unormRound q3 3 * 1073741824) / 1073741824 % 4 = unormRound q3 3 := by omega
    rw [ee3, intToFloatQ_small _ (by omega)]
    exact hc3.2

theorem rt_B10G11R11_UFLOAT_PACK32 (pow24 : ℚ → ℚ) (v : Fin 4 → Chan)
    (hrep : Rep VkFormat.B10G11R11_UFLOAT_PACK32 v) :
    RoundTripClose VkFormat.B10G11R11_UFLOAT_PACK32 v
      (fun c => decodeTexel pow24 VkFormat.B10G11R11_UFLOAT_PACK32 ![shr32 (floatToHalfBits (fmaxZeroBits ((v 0).intW)) false &&& 0x7FF0) 4 ||| shl32 (floatToHalfBits (fmaxZeroBits ((v 1).intW)) false &&& 0x7FF0) 7 ||| shl32 (floatToHalfBits (fmaxZeroBits ((v 2).intW)) false &&& 0x7FE0) 17, 0, 0, 0] c) := by
  obtain ⟨⟨f0, hf0, hfe0, hv0⟩, ⟨f1, hf1, hfe1, hv1⟩, ⟨f2, hf2, hfe2, hv2⟩, e3⟩ := hrep
  have hch0 : floatToHalfBits (fmaxZeroBits ((v 0).intW)) false &&& 32752 = f0 * 16 := by
    rw [hv0]
    show floatToHalfBits (fmaxZeroBits (halfToFloatBits (f0 <<< 4))) false &&& 32752 = _
    rw [fmaxZeroBits_id _ (halfToFloatBits_lt31 _ (by rw [shl_eq_mul]; norm_num; omega))]
    show floatToHalfCore (halfToFloatBits (f0 <<< 4)) &&& 32752 = _
    rw [half_roundtrip _ ⟨by rw [shl_eq_mul]; norm_num; omega,
      by rw [shl4_shr10]; exact hfe0⟩]
    exact mask7ff0_val f0 hf0
  have hch1 : floatToHalfBits (fmaxZeroBits ((v 1).intW)) false &&& 32752 = f1 * 16 := by
    rw [hv1]
    show floatToHalfBits (fmaxZeroBits (halfToFloatBits (f1 <<< 4))) false &&& 32752 = _
    rw [fmaxZeroBits_id _ (halfToFloatBits_lt31 _ (by rw [shl_eq_mul]; norm_num; omega))]
    show floatToHalfCore (halfToFloatBits (f1 <<< 4)) &&& 32752 = _
    rw [half_roundtrip _ ⟨by rw [shl_eq_mul]; norm_num; omega,
      by rw [shl4_shr10]; exact hfe1⟩]
    exact mask7ff0_val f1 hf1
  have hch2 : floatToHalfBits (fmaxZeroBits ((v 2).intW)) false &&& 32736 = f2 * 32 := by
    rw [hv2]
    show floatToHalfBits (fmaxZeroBits (halfToFloatBits (f2 <<< 5))) false &&& 32736 = _
    rw [fmaxZeroBits_id _ (halfToFloatBits_lt31 _ (by rw [shl_eq_mul]; norm_num; omega))]
    show floatToHalfCore (halfToFloatBits (f2 <<< 5)) &&& 32736 = _
    rw [half_roundtrip _ ⟨by rw [shl_eq_mul]; norm_num; omega,
      by rw [shl5_shr10]; exact hfe2⟩]
    exact mask7fe0_val f2 hf2
  have hP : shr32 (floatToHalfBits (fmaxZeroBits ((v 0).intW)) false &&& 0x7FF0) 4 ||| shl32 (floatToHalfBits (fmaxZeroBits ((v 1).intW)) false &&& 0x7FF0) 7 ||| shl32 (floatToHalfBits (fmaxZeroBits ((v 2).intW)) false &&& 0x7FE0) 17 = f0 + f1 * 2048 + f2 * 4194304 := by
    rw [hch0, hch1, hch2, shr32_val16]
    rw [show shl32 (f1 * 16) 7 = f1 * 2048 from by
      unfold shl32
      rw [shl_eq_mul]
      norm_num
      omega]
    rw [show shl32 (f2 * 32) 17 = f2 * 4194304 from by
      unfold shl32
      rw [shl_eq_mul]
      norm_num
      omega]
    rw [lor_eq_add_of_mod2 f0 (f1 * 2048) 11 (by norm_num; try omega)
      (by norm_num; try omega)]
    rw [lor_eq_add_of_mod2 (f0 + f1 * 2048) (f2 * 4194304) 22
      (by norm_num; try omega) (by norm_num; try omega)]
  rw [hP]
  unfold RoundTripClose
  funext c
  fin_cases c
  · show Chan.raw (halfToFloatBits (shl32 (f0 + f1 * 2048 + f2 * 4194304) 4 &&& 32752)) = v 0
    rw [shl4_mask7ff0]
    have ee0 : (f0 + f1 * 2048 + f2 * 4194304) % 2048 * 16 = f0 * 16 := by omega
    rw [ee0, show f0 * 16 = f0 <<< 4 from by rw [shl_eq_mul]; norm_num, hv0]
  · show Chan.raw (halfToFloatBits (sar32 (f0 + f1 * 2048 + f2 * 4194304) 7 &&& 32752)) = v 1
    rw [sar7_mask7ff0]
    have ee1 : (f0 + f1 * 2048 + f2 * 4194304) / 2048 % 2048 * 16 = f1 * 16 := by omega
    rw [ee1, show f1 * 16 = f1 <<< 4 from by rw [shl_eq_mul]; norm_num, hv1]
  · show Chan.raw (halfToFloatBits (sar32 (f0 + f1 * 2048 + f2 * 4194304) 17 &&& 32736)) = v 2
    rw [sar17_mask7fe0]
    have ee2 : (f0 + f1 * 2048 + f2 * 4194304) / 4194304 % 1024 * 32 = f2 * 32 := by omega
    rw [ee2, show f2 * 32 = f2 <<< 5 from by rw [shl_eq_mul]; norm_num, hv2]
  · show Chan.f 1 = v 3
    rw [e3]

/-- Claim C2: for every format of the write switch and every representable
four-channel value, decoding the packed words produced by the encode switch
reproduces the value: bit-exactly for integer, raw 32-bit float, binary16 and
packed-float formats, and within one unit in the last place of the stored
field for normalized formats. -/
theorem C2_decode_encode_roundtrip (pow24 : ℚ → ℚ) (fmt : VkFormat)
    (v : Fin 4 → Chan) (ts : Nat) (w : Fin 4 → Nat)
    (hrep : Rep fmt v) (henc : encodeTexel fmt v = some (ts, w)) :
    RoundTripClose fmt v (fun c => decodeTexel pow24 fmt w c) := by
  cases fmt
  · simp only [encodeTexel] at henc
    injection henc with h
    injection h with hts hw
    subst hw
    exact rt_R32G32B32A32_SFLOAT pow24 v hrep
  · simp only [encodeTexel] at henc
    injection henc with h
    injection h with hts hw
    subst hw
    exact rt_R32G32B32A32_SINT pow24 v hrep
  · simp only [encodeTexel] at henc
    injection henc with h
    injection h with hts hw
    subst hw
    exact rt_R32G32B32A32_UINT pow24 v hrep
  · simp only [encodeTexel] at henc
    injection henc with h
    injection h with hts hw
    subst hw
    exact rt_R32_SINT pow24 v hrep
  · simp only [encodeTexel] at henc
    injection henc with h
    injection h with hts hw
    subst hw
    exact rt_R32_UINT pow24 v hrep
  · simp only [encodeTexel] at henc
    injection henc with h
    injection h with hts hw
    subst hw
    exact rt_R32_SFLOAT pow24 v hrep
  · trivial
  · trivial
  · trivial
  · simp only [encodeTexel] at henc
    injection henc with h
    injection h with hts hw
    subst hw
    exact rt_R16G16B16A16_UNORM pow24 v hrep
  · simp only [encodeTexel] at henc
    injection henc with h
    injection h with hts hw
    subst hw
    exact rt_R16G16B16A16_SNORM pow24 v hrep
  · simp only [encodeTexel] at henc
    injection henc with h
    injection h with hts hw
    subst hw
    exact rt_R16G16B16A16_SINT pow24 v hrep
  · simp only [encodeTexel] at henc
    injection henc with h
    injection h with hts hw
    subst hw
    exact rt_R16G16B16A16_UINT pow24 v hrep
  · simp only [encodeTexel] at henc
    injection henc with h
    injection h with hts hw
    subst hw
    exact rt_R16G16B16A16_SFLOAT pow24 v hrep
  · simp only [encodeTexel] at henc
    injection henc with h
    injection h with hts hw
    subst hw
    exact rt_R8G8B8A8_SNORM pow24 v hrep
  · trivial
  · simp only [encodeTexel] at henc
    injection henc with h
    injection h with hts hw
    subst hw
    exact rt_R8G8B8A8_UNORM pow24 v hrep
  · trivial
  · trivial
  · trivial
  · trivial
  · trivial
  · simp only [encodeTexel] at henc
    injection henc with h
    injection h with hts hw
    subst hw
    exact rt_R8G8B8A8_UINT pow24 v hrep
  · trivial
  · simp only [encodeTexel] at henc
    injection henc with h
    injection h with hts hw
    subst hw
    exact rt_R8G8B8A8_SINT pow24 v hrep
  · trivial
  · simp only [encodeTexel] at henc
    injection henc with h
    injection h with hts hw
    subst hw
    exact rt_R8_UNORM pow24 v hrep
  · simp only [encodeTexel] at henc
    injection henc with h
    injection h with hts hw
    subst hw
    exact rt_R8_SNORM pow24 v hrep
  · simp only [encodeTexel] at henc
    injection henc with h
    injection h with hts hw
    subst hw
    exact rt_R8_UINT pow24 v hrep
  · trivial
  · simp only [encodeTexel] at henc
    injection henc with h
    injection h with hts hw
    subst hw
    exact rt_R8_SINT pow24 v hrep
  · simp only [encodeTexel] at henc
    injection henc with h
    injection h with hts hw
    subst hw
    exact rt_R8G8_UNORM pow24 v hrep
  · simp only [encodeTexel] at henc
    injection henc with h
    injection h with hts hw
    subst hw
    exact rt_R8G8_SNORM pow24 v hrep
  · simp only [encodeTexel] at henc
    injection henc with h
    injection h with hts hw
    subst hw
    exact rt_R8G8_UINT pow24 v hrep
  · simp only [encodeTexel] at henc
    injection henc with h
    injection h with hts hw
    subst hw
    exact rt_R8G8_SINT pow24 v hrep
  · simp only [encodeTexel] at henc
    injection henc with h
    injection h with hts hw
    subst hw
    exact rt_R16_SFLOAT pow24 v hrep
  · simp only [encodeTexel] at henc
    injection henc with h
    injection h with hts hw
    subst hw
    exact rt_R16_UNORM pow24 v hrep
  · simp only [encodeTexel] at henc
    injection henc with h
    injection h with hts hw
    subst hw
    exact rt_R16_SNORM pow24 v hrep
  · simp only [encodeTexel] at henc
    injection henc with h
    injection h with hts hw
    subst hw
    exact rt_R16_UINT pow24 v hrep
  · simp only [encodeTexel] at henc
    injection henc with h
    injection h with hts hw
    subst hw
    exact rt_R16_SINT pow24 v hrep
  · simp only [encodeTexel] at henc
    injection henc with h
    injection h with hts hw
    subst hw
    exact rt_R16G16_SFLOAT pow24 v hrep
  · simp only [encodeTexel] at henc
    injection henc with h
    injection h with hts hw
    subst hw
    exact rt_R16G16_UNORM pow24 v hrep
  · simp only [encodeTexel] at henc
    injection henc with h
    injection h with hts hw
    subst hw
    exact rt_R16G16_SNORM pow24 v hrep
  · simp only [encodeTexel] at henc
    injection henc with h
    injection h with hts hw
    subst hw
    exact rt_R16G16_UINT pow24 v hrep
  · simp only [encodeTexel] at henc
    injection henc with h
    injection h with hts hw
    subst hw
    exact rt_R16G16_SINT pow24 v hrep
  · simp only [encodeTexel] at henc
    injection henc with h
    injection h with hts hw
    subst hw
    exact rt_R32G32_SINT pow24 v hrep
  · simp only [encodeTexel] at henc
    injection henc with h
    injection h with hts hw
    subst hw
    exact rt_R32G32_UINT pow24 v hrep
  · simp only [encodeTexel] at henc
    injection henc with h
    injection h with hts hw
    subst hw
    exact rt_R32G32_SFLOAT pow24 v hrep
  · simp only [encodeTexel] at henc
    injection henc with h
    injection h with hts hw
    subst hw
    exact rt_A2B10G10R10_UINT_PACK32 pow24 v hrep
  · trivial
  · simp only [encodeTexel] at henc
    injection henc with h
    injection h with hts hw
    subst hw
    exact rt_A2B10G10R10_UNORM_PACK32 pow24 v hrep
  · trivial
  · trivial
  · trivial
  · trivial
  · trivial
  · trivial
  · trivial
  · trivial
  · trivial
  · trivial
  · simp only [encodeTexel] at henc
    injection henc with h
    injection h with hts hw
    subst hw
    exact rt_B10G11R11_UFLOAT_PACK32 pow24 v hrep

theorem C2_decode_encode_roundtrip_witness :
    Rep VkFormat.R32_UINT ![Chan.u 7, Chan.i 0, Chan.i 0, Chan.i 1] ∧
    RoundTripClose VkFormat.R32_UINT ![Chan.u 7, Chan.i 0, Chan.i 0, Chan.i 1]
      (fun c => decodeTexel id VkFormat.R32_UINT ![7, 0, 0, 0] c) :=
  ⟨⟨⟨7, rfl, by norm_num⟩, rfl, rfl, rfl⟩,
   C2_decode_encode_roundtrip id VkFormat.R32_UINT
     ![Chan.u 7, Chan.i 0, Chan.i 0, Chan.i 1] 4 ![7, 0, 0, 0]
     ⟨⟨7, rfl, by norm_num⟩, rfl, rfl, rfl⟩ rfl⟩

end SwImg
